import Mathlib

/-!
# Brayns render orchestrator: shallow embedding of `brayns/Brayns.cpp`

The orchestrator `Brayns::Impl` is embedded as explicit state passing.
Single-precision floats are represented by exact rationals, `std::string`
by `String`, raw buffers by the function giving the element stored at each
offset.  Collaborators whose code lives outside `Brayns.cpp` (rendering
backend, engine factory, data loaders, extension plugins) are parameters of
the model, collected in the structure `Env`.
-/

namespace Brayns

/-! ## Data model -/

/-- Three-component float vector (`Vector3f`), floats as exact rationals. -/
structure Vector3f where
  x : ℚ
  y : ℚ
  z : ℚ
  deriving DecidableEq, Repr

/-- Three-component unsigned vector (`Vector3ui`). -/
structure Vector3ui where
  x : Nat
  y : Nat
  z : Nat
  deriving DecidableEq, Repr

/-- Two-component unsigned vector (`Vector2ui`), used for window sizes. -/
structure Vector2ui where
  x : Nat
  y : Nat
  deriving DecidableEq, Repr

/-- Two-component signed vector (`Vector2i`), used for frame sizes. -/
structure Vector2i where
  x : Int
  y : Int
  deriving DecidableEq, Repr

namespace Vector3f

/-- Componentwise difference, `a - b` on `Vector3f`. -/
def sub (a b : Vector3f) : Vector3f := ⟨a.x - b.x, a.y - b.y, a.z - b.z⟩

/-- Componentwise sum, `a + b` on `Vector3f`. -/
def add (a b : Vector3f) : Vector3f := ⟨a.x + b.x, a.y + b.y, a.z + b.z⟩

/-- Componentwise product, `a * b` on `Vector3f`. -/
def mul (a b : Vector3f) : Vector3f := ⟨a.x * b.x, a.y * b.y, a.z * b.z⟩

/-- Conversion `Vector3f(v)` of an unsigned vector. -/
def ofVector3ui (v : Vector3ui) : Vector3f := ⟨(v.x : ℚ), (v.y : ℚ), (v.z : ℚ)⟩

/-- Componentwise minimum. -/
def min (a b : Vector3f) : Vector3f := ⟨Min.min a.x b.x, Min.min a.y b.y, Min.min a.z b.z⟩

/-- Componentwise maximum. -/
def max (a b : Vector3f) : Vector3f := ⟨Max.max a.x b.x, Max.max a.y b.y, Max.max a.z b.z⟩

/-- Componentwise order. -/
def le (a b : Vector3f) : Prop := a.x ≤ b.x ∧ a.y ≤ b.y ∧ a.z ≤ b.z

instance (a b : Vector3f) : Decidable (le a b) := by
  unfold le
  exact inferInstance

end Vector3f

/-- Modelled from the spec: the axis-aligned box `Boxf` (library type, not in
the sources read here), the union of the bounds merged into it. -/
structure Boxf where
  min : Vector3f
  max : Vector3f
  deriving DecidableEq, Repr

namespace Boxf

/-- Modelled from the spec: `merge(point)` grows the box to the union of the
box and the point. -/
def merge (b : Boxf) (p : Vector3f) : Boxf :=
  ⟨Vector3f.min b.min p, Vector3f.max b.max p⟩

/-- A point lies in the box when it is between the corners, componentwise. -/
def contains (b : Boxf) (p : Vector3f) : Prop :=
  Vector3f.le b.min p ∧ Vector3f.le p b.max

instance (b : Boxf) (p : Vector3f) : Decidable (contains b p) := by
  unfold contains
  exact inferInstance

end Boxf

/-- Camera pose written by `Camera::set`. -/
structure Camera where
  position : Vector3f
  target : Vector3f
  up : Vector3f
  deriving DecidableEq, Repr

/-- Modelled from the spec: `Camera::set(position, target, up)` pushes the
pose into the camera. -/
def Camera.set (_c : Camera) (position target up : Vector3f) : Camera :=
  ⟨position, target, up⟩

/-- Lights of the scene: `DirectionalLight` and the other subclass of `Light`
(a `dynamic_cast<DirectionalLight*>` succeeds on the first only). -/
inductive Light where
  | directional (direction color : Vector3f) (intensity : ℚ)
  | point (position color : Vector3f) (intensity cutoff : ℚ)
  deriving DecidableEq, Repr

/-- Modelled from the spec: `DirectionalLight::setDirection`. -/
def Light.setDirection (d : Vector3f) : Light → Light
  | .directional _ c i => .directional d c i
  | l => l

/-- Direction of a directional light. -/
def Light.direction? : Light → Option Vector3f
  | .directional d _ _ => some d
  | _ => none

/-- Modelled from the spec: the volume handler, with the fields read and
written by `_loadData`. -/
structure VolumeHandler where
  dimensions : Vector3ui
  offset : Vector3f
  timestamp : ℚ
  deriving DecidableEq, Repr

/-- Modelled from the spec: `VolumeHandler::setTimestamp`. -/
def VolumeHandler.setTimestamp (v : VolumeHandler) (ts : ℚ) : VolumeHandler :=
  { v with timestamp := ts }

/-- Texture slots of a material (`TT_DIFFUSE` is the one used here). -/
inductive TextureType where
  | TT_DIFFUSE
  | TT_OTHER
  deriving DecidableEq, Repr

/-- Material: colour and textures by slot. -/
structure Material where
  color : Vector3f
  textures : List (TextureType × String)
  deriving DecidableEq, Repr

/-- Kinds of geometry primitives held by a scene. -/
inductive GeometryKind where
  | sphere
  | cylinder
  | cone
  | triangleMesh
  deriving DecidableEq, Repr

/-- One geometry primitive with the index of its material. -/
structure Primitive where
  kind : GeometryKind
  material : Nat
  deriving DecidableEq, Repr

/-- Simulation handlers a scene can hold. -/
inductive SimulationHandler where
  | circuit (source : String)
  | spike (cacheFile : String)
  deriving DecidableEq, Repr

/-- Modelled from the spec: the `Scene` aggregate (its class is declared
outside `Brayns.cpp`): geometry, material table, light list, optional volume
and simulation handlers, world bounding box, and the backend-private data
written by the commit and build steps. -/
structure Scene where
  primitives : List Primitive
  materials : List Material
  lights : List Light
  volumeHandler : Option VolumeHandler
  simulationHandler : Option SimulationHandler
  transferFunction : List ℚ
  worldBounds : Boxf
  committed : Nat
  deriving DecidableEq, Repr

/-- Modelled from the spec: `Scene::empty()`, true when the scene holds no
geometry primitive. -/
def Scene.empty (s : Scene) : Bool := s.primitives.isEmpty

/-- Modelled from the spec: `Scene::addLight` appends to the light list. -/
def Scene.addLight (s : Scene) (l : Light) : Scene :=
  { s with lights := s.lights ++ [l] }

/-- Modelled from the spec: `Scene::getLight(index)`, the light at the index
or null. -/
def Scene.getLight (s : Scene) (i : Nat) : Option Light := s.lights.get? i

/-- Modelled from the spec: `Scene::getMaterial(index)`, the material at the
index or null. -/
def Scene.getMaterial (s : Scene) (i : Nat) : Option Material := s.materials.get? i

/-- Pixel format tag of a frame buffer (`FrameBufferFormat`, an enumeration
declared elsewhere), by its numeric value. -/
abbrev FrameBufferFormat := Nat

/-- Modelled from the spec: the `FrameBuffer` (abstract class, implemented by
the backend): size, colour buffer pointer (null or the byte stored at each
offset), declared colour depth in bytes per pixel, format tag and depth buffer
pointer (null or the float stored at each offset). -/
structure FrameBuffer where
  size : Vector2i
  colorBuffer : Option (Nat → Nat)
  colorDepth : Nat
  frameBufferFormat : FrameBufferFormat
  depthBuffer : Option (Nat → ℚ)

/-- Renderers selectable from the rendering parameters. -/
inductive RendererType where
  | basic
  | particle
  | proximity
  | simulation
  deriving DecidableEq, Repr

/-- Shading modes. -/
inductive ShadingType where
  | none
  | diffuse
  | electron
  deriving DecidableEq, Repr

/-- Colour schemes of the geometry parameters (only `neuron_by_id` is
distinguished by the code). -/
inductive ColorScheme where
  | none
  | neuron_by_id
  | other
  deriving DecidableEq, Repr

/-- Geometry quality of the geometry parameters. -/
inductive GeometryQuality where
  | low
  | medium
  | high
  deriving DecidableEq, Repr

/-- Mesh quality passed to the mesh loader. -/
inductive MeshQuality where
  | low
  | medium
  | high
  deriving DecidableEq, Repr

/-- Camera manipulator modes. -/
inductive CameraMode where
  | flying
  | inspect
  deriving DecidableEq, Repr

/-- Application parameters. -/
structure ApplicationParameters where
  windowSize : Vector2ui
  deriving DecidableEq, Repr

/-- Rendering parameters. -/
structure RenderingParameters where
  engine : String
  renderer : RendererType
  headLight : Bool
  ambientOcclusionStrength : ℚ
  backgroundColor : Vector3f
  shading : ShadingType
  shadows : Bool
  softShadows : Bool
  lightEmittingMaterials : Bool
  deriving DecidableEq, Repr

/-- Scene parameters. -/
structure SceneParameters where
  environmentMap : String
  colorMapFilename : String
  timestamp : ℚ
  animationDelta : Int
  deriving DecidableEq, Repr

/-- Geometry parameters. -/
structure GeometryParameters where
  splashSceneFolder : String
  morphologyFolder : String
  nestCircuit : String
  nestReport : String
  nestCacheFile : String
  pdbFile : String
  pdbFolder : String
  meshFolder : String
  report : String
  circuitConfiguration : String
  loadCacheFile : String
  xyzbFile : String
  molecularSystemConfig : String
  target : String
  colorScheme : ColorScheme
  geometryQuality : GeometryQuality
  deriving DecidableEq, Repr

/-- Volume parameters. -/
structure VolumeParameters where
  elementSpacing : Vector3f
  samplesPerRay : Nat
  deriving DecidableEq, Repr

/-- The parameters manager with its named groups. -/
structure ParametersManager where
  applicationParameters : ApplicationParameters
  renderingParameters : RenderingParameters
  geometryParameters : GeometryParameters
  sceneParameters : SceneParameters
  volumeParameters : VolumeParameters
  deriving DecidableEq, Repr

/-- Input of the headless render call. -/
structure RenderInput where
  windowSize : Vector2ui
  position : Vector3f
  target : Vector3f
  up : Vector3f
  deriving DecidableEq, Repr

/-- Output of the headless render call: copied colour bytes, copied depth
floats and the colour format tag. -/
structure RenderOutput where
  colorBuffer : List Nat
  depthBuffer : List ℚ
  colorBufferFormat : FrameBufferFormat
  deriving DecidableEq, Repr

/-- An instantiated rendering backend.  The field `id` is the identity of the
engine object, the value that `_engine.get()` yields; `recreate` records
whether the re-creation callback is bound; `backend` is the backend-private
state. -/
structure Engine where
  id : Nat
  scene : Scene
  camera : Camera
  frameBuffer : FrameBuffer
  recreate : Bool
  backend : Nat

/-- Modelled from the spec: the camera manipulators (the classes
`FlyingModeManipulator` and `InspectCenterManipulator` are defined outside
`Brayns.cpp`): the variant and the engine whose camera it is bound to; both
variants are bound to the one shared keyboard handler, and constructing or
destroying a manipulator changes neither the camera pose nor the shortcuts
registered by the orchestrator. -/
inductive AbstractManipulator where
  | FlyingModeManipulator (camera : Nat)
  | InspectCenterManipulator (camera : Nat)
  deriving DecidableEq, Repr

/-- Actions bound to keyboard shortcuts: the member functions of `Impl`. -/
inductive ShortcutAction where
  | blackBackground
  | grayBackground
  | whiteBackground
  | defaultRenderer
  | particleRenderer
  | proximityRenderer
  | simulationRenderer
  | decreaseTimestamp
  | increaseTimestamp
  | electronShading
  | flyMode
  | inspectMode
  | decreaseAmbientOcclusionStrength
  | increaseAmbientOcclusionStrength
  | diffuseShading
  | disableShading
  | resetTimestamp
  | infiniteTimestamp
  | toggleShadows
  | toggleSoftShadows
  | increaseSamplesPerRay
  | decreaseSamplesPerRay
  | toggleLightEmittingMaterials
  deriving DecidableEq, Repr

/-- One registered shortcut. -/
structure KeyboardShortcut where
  key : Char
  description : String
  action : ShortcutAction
  deriving DecidableEq, Repr

/-- The keyboard handler: the registered shortcuts, in registration order. -/
abbrev KeyboardHandler := List KeyboardShortcut

/-- The state of `Brayns::Impl`: its data members.  The engine factory and the
mesh loader are kept as opaque states of their collaborators. -/
structure Impl where
  _engineFactory : Nat
  _parametersManager : ParametersManager
  _engine : Option Engine
  _keyboardHandler : KeyboardHandler
  _cameraManipulator : Option AbstractManipulator
  _meshLoader : Nat

/-- The data-source loaders called from `_loadData`, in the order of their
call sites. -/
inductive Loader where
  | environmentMap
  | splashMeshFolder
  | colorMap
  | morphologyFolder
  | nestCircuit
  | pdbFile
  | pdbFolder
  | meshFolder
  | compartmentReport
  | circuitConfiguration
  | xyzbFile
  | molecularSystem
  deriving DecidableEq, Repr

/-- Calls issued by the orchestrator on its collaborators. -/
inductive Call where
  | factoryRemove
  | engineReset
  | factoryGet (name : String)
  | setRecreate
  | addLight (light : Light)
  | meshLoaderClear
  | cameraSet (position target up : Vector3f)
  | reshape (size : Vector2ui)
  | preRender
  | execute
  | engineCommit
  | cameraCommit
  | setDirection (direction : Vector3f)
  | commitLights
  | setActiveRenderer (renderer : RendererType)
  | render
  | getColorBuffer
  | getDepthBuffer
  | postRender
  | commitVolumeData
  | commitSimulationData
  | buildEnvironment
  | buildGeometry
  | buildDefault
  | sceneCommit
  | commitTransferFunctionData
  | setupCameraManipulator (mode : CameraMode)
  | setDefaultCamera
  | setDefaultEpsilon
  | load (loader : Loader)
  | importer (function source : String)
  | logError (what : String)
  deriving DecidableEq, Repr

/-- One entry of the call trace: the identity of the engine the call is issued
on (none for a call on the factory that has no engine at hand) and the call. -/
structure Event where
  engine : Option Nat
  call : Call
  deriving DecidableEq, Repr

/-- State threaded through the orchestrator: the members of `Impl` and the
trace of the calls issued so far. -/
structure St where
  impl : Impl
  trace : List Event

/-- Ways in which a member function stops abnormally: the
`std::runtime_error` thrown by `createEngine`, an error raised by a
collaborator, a use of `_engine` while it is null, and the
`std::length_error` of a vector asked to hold more than `max_size()`
elements. -/
inductive Fault where
  | runtimeError (what : String)
  | raised (what : String)
  | nullEngine
  | lengthError
  deriving DecidableEq, Repr

/-- Result of running a member function: normal return with a value, or a
fault together with the state at the point where it occurred. -/
inductive Outcome (α : Type) where
  | ok : α → Outcome α
  | fail : Fault → St → Outcome α

/-- Sequencing of outcomes: a fault stops the run. -/
def Outcome.bind {α β : Type} (o : Outcome α) (k : α → Outcome β) : Outcome β :=
  match o with
  | .ok a => k a
  | .fail f s => .fail f s

/-- State reached, whether the run returned or stopped on a fault. -/
def Outcome.state : Outcome St → St
  | .ok s => s
  | .fail _ s => s

/-- Whether the run returned normally. -/
def Outcome.isOk {α : Type} : Outcome α → Bool
  | .ok _ => true
  | .fail _ _ => false

/-- A member function without result. -/
abbrev Step := St → Outcome St

/-- Sequential composition of two steps. -/
def Step.seq (f g : Step) : Step := fun s => (f s).bind g

/-- A step under an `if` without `else`. -/
def Step.when (c : Bool) (f : Step) : Step := fun s => if c then f s else .ok s

/-- The step that does nothing. -/
def Step.skip : Step := fun s => .ok s

/-- Result of a call into an external loader: it returns its success flag or
raises, and in both cases leaves the scene as it last wrote it. -/
inductive Import where
  | returned (success : Bool) (scene : Scene)
  | raised (what : String) (scene : Scene)

/-- Modelled from the spec: the collaborators of the orchestrator, whose code
is outside `Brayns.cpp`, taken as parameters.  Backend hooks (reshape,
preRender, render, postRender, engine commit) read the engine and rewrite the
frame buffer and the backend-private state; commit and build steps read the
data they freeze and rewrite backend-private state only; the extensions may
rewrite every member of the orchestrator; a loader rewrites the scene. -/
structure Env where
  /-- Compile-time switch `BRAYNS_USE_ASSIMP`. -/
  BRAYNS_USE_ASSIMP : Bool
  DEFAULT_SUN_DIRECTION : Vector3f
  DEFAULT_SUN_COLOR : Vector3f
  DEFAULT_SUN_INTENSITY : ℚ
  NB_MAX_MATERIALS : Nat
  NB_SYSTEM_MATERIALS : Nat
  NO_MATERIAL : Nat
  /-- Factory lookup `EngineFactory::get`: the engine for a name, or null. -/
  factoryGet : String → Nat → Option Engine × Nat
  /-- Factory removal `EngineFactory::remove`. -/
  factoryRemove : Engine → Nat → Nat
  /-- Reset `MeshLoader::clear`. -/
  meshLoaderClear : Nat → Nat
  /-- Extension run `ExtensionPluginFactory::execute`: it may change any member of `Impl`,
  the active engine included. -/
  execute : Impl → Impl
  reshape : Vector2ui → Engine → FrameBuffer × Nat
  preRender : Engine → FrameBuffer × Nat
  render : Engine → FrameBuffer × Nat
  postRender : Engine → FrameBuffer × Nat
  engineCommit : Engine → FrameBuffer × Nat
  setActiveRenderer : RendererType → Engine → Nat
  setDefaultCamera : Engine → Camera
  setDefaultEpsilon : Engine → Nat
  cameraCommit : Engine → Nat
  commitLights : Scene → Nat
  commitVolumeData : Scene → Nat
  commitSimulationData : Scene → Nat
  commitTransferFunctionData : Scene → Nat
  buildEnvironment : Scene → Nat
  buildGeometry : Scene → Nat
  sceneCommit : Scene → Nat
  /-- Default scene `Scene::buildDefault`: synthesises the default scene. -/
  buildDefault : Scene → Scene
  /-- Listing `parseFolder(folder, filters)`: the files of a folder. -/
  parseFolder : String → List String → List String
  /-- Effect of `getMaterial(MATERIAL_SKYBOX)->setTexture(TT_DIFFUSE, map)`. -/
  setEnvironmentMap : String → Scene → Scene
  /-- Loader call `TransferFunctionLoader::loadFromFile`. -/
  loadFromFile : String → Scene → Import
  /-- Loader call `MorphologyLoader::importMorphology(uri, index, scene)`. -/
  importMorphology : GeometryParameters → String → Nat → Scene → Import
  /-- Loader call `MorphologyLoader::importCircuit(uri, target, scene)`. -/
  importCircuit : GeometryParameters → String → String → Scene → Import
  /-- Loader call `MorphologyLoader::importCircuit(uri, target, report, scene)`. -/
  importCircuitReport : GeometryParameters → String → String → String → Scene → Import
  /-- Loader call `MorphologyLoader::importSimulationData(uri, target, report, scene)`. -/
  importSimulationData : GeometryParameters → String → String → String → Scene → Import
  /-- Loader call `NESTLoader::importCircuit(circuit, scene, nbMaterials)`. -/
  importNESTCircuit : GeometryParameters → String → Scene → Import
  /-- Loader call `NESTLoader::importSpikeReport(report, scene)`. -/
  importSpikeReport : GeometryParameters → String → Scene → Import
  /-- Loader call `SpikeSimulationHandler::attachSimulationToCacheFile`, which may raise. -/
  attachSimulationToCacheFile : GeometryParameters → String → Option String
  /-- Loader call `ProteinLoader::importPDBFile(file, position, index, scene)`. -/
  importPDBFile : GeometryParameters → String → Scene → Import
  /-- Loader call `ProteinLoader::getMaterialKd(index)`. -/
  getMaterialKd : GeometryParameters → Nat → Vector3f
  /-- Loader call `XYZBLoader::importFromBinaryFile(file, scene)`. -/
  importFromBinaryFile : GeometryParameters → String → Scene → Import
  /-- Loader call `MeshLoader::importMeshFromFile(file, scene, quality, position, scale,
  material)`, on the mesh loader state and the scene. -/
  importMeshFromFile : String → MeshQuality → Nat → Nat → Scene → Import × Nat
  /-- Loader call `MolecularSystemReader::import(scene, meshLoader)`. -/
  importMolecularSystem : GeometryParameters → Nat → Scene → Import × Nat

/-! ## Elementary steps -/

/-- Identity of the active engine, the value of `_engine.get()`. -/
def Impl.engineId (i : Impl) : Option Nat := i._engine.map (fun e => e.id)

/-- The calls of a list, all issued on the engine of identity `id`. -/
def onEngineId (id : Nat) (calls : List Call) : List Event :=
  calls.map (fun c => ⟨some id, c⟩)

/-- The state after the calls `calls` have been issued on the active engine
and have left it as `e`. -/
def St.advance (s : St) (e : Engine) (calls : List Call) : St :=
  { impl := { s.impl with _engine := some e }, trace := s.trace ++ onEngineId e.id calls }

/-- The state in which the scene of the active engine `e` has become `sc`. -/
def St.setScene (s : St) (e : Engine) (sc : Scene) : St :=
  { impl := { s.impl with _engine := some { e with scene := sc } }, trace := s.trace }

/-- A call through `_engine->`: it is recorded with the identity of the
active engine and rewrites that engine; on a null engine it is a fault. -/
def onEngine (call : Call) (f : Engine → Engine) : Step := fun s =>
  match s.impl._engine with
  | none => .fail .nullEngine s
  | some e =>
    .ok { impl := { s.impl with _engine := some { (f e) with id := e.id } },
          trace := s.trace ++ [⟨some e.id, call⟩] }

/-- A backend hook of the engine (reshape, preRender, render, postRender,
commit): rewrites the frame buffer and the backend state. -/
def engineHook (call : Call) (h : Engine → FrameBuffer × Nat) : Step :=
  onEngine call (fun e => { e with frameBuffer := (h e).1, backend := (h e).2 })

/-- A commit on the engine that rewrites backend state only. -/
def engineCommitStep (call : Call) (h : Engine → Nat) : Step :=
  onEngine call (fun e => { e with backend := h e })

/-- A call on the scene of the active engine. -/
def onScene (call : Call) (f : Scene → Scene) : Step :=
  onEngine call (fun e => { e with scene := f e.scene })

/-- A commit or build step of the scene: rewrites its backend data only. -/
def sceneCommitStep (call : Call) (h : Scene → Nat) : Step :=
  onScene call (fun sc => { sc with committed := h sc })

/-- The macro `BRAYNS_ERROR`: one line in the error log. -/
def logError (what : String) : Step := fun s =>
  .ok { s with trace := s.trace ++ [⟨s.impl.engineId, .logError what⟩] }

/-- A call into an external loader on the scene of the active engine; the
continuation receives the success flag; an error raised by the loader
propagates. -/
def callImporter (function source : String) (f : Scene → Import) (k : Bool → Step) : Step :=
  fun s =>
  match s.impl._engine with
  | none => .fail .nullEngine s
  | some e =>
    let tr := s.trace ++ [⟨some e.id, .importer function source⟩]
    match f e.scene with
    | .returned b sc =>
      k b { impl := { s.impl with _engine := some { e with scene := sc } }, trace := tr }
    | .raised w sc =>
      .fail (.raised w) { impl := { s.impl with _engine := some { e with scene := sc } }, trace := tr }

/-- A call into an external loader that also uses the mesh loader member. -/
def callMeshImporter (function source : String) (f : Nat → Scene → Import × Nat)
    (k : Bool → Step) : Step := fun s =>
  match s.impl._engine with
  | none => .fail .nullEngine s
  | some e =>
    let tr := s.trace ++ [⟨some e.id, .importer function source⟩]
    let r := f s.impl._meshLoader e.scene
    match r.1 with
    | .returned b sc =>
      k b { impl := { s.impl with _engine := some { e with scene := sc }, _meshLoader := r.2 },
            trace := tr }
    | .raised w sc =>
      .fail (.raised w)
        { impl := { s.impl with _engine := some { e with scene := sc }, _meshLoader := r.2 },
          trace := tr }

/-- Logs the failure of an import when the loader returned false. -/
def reportFailure (file : String) (success : Bool) : Step :=
  Step.when (!success) (logError ("Failed to import " ++ file))

namespace Impl

/-! ## Data loading (`Brayns.cpp`, lines 253 to 567) -/

/-- The loop of `_loadMorphologyFolder` over the files of the folder. -/
def _loadMorphologyFiles (env : Env) (gp : GeometryParameters) : List String → Nat → Step
  | [], _ => Step.skip
  | file :: files, progress =>
    Step.seq
      (callImporter "importMorphology" file (env.importMorphology gp file progress)
        (reportFailure file))
      (_loadMorphologyFiles env gp files (progress + 1))

/-- Member `_loadMorphologyFolder`. -/
def _loadMorphologyFolder (env : Env) : Step := fun s =>
  let geometryParameters := s.impl._parametersManager.geometryParameters
  let folder := geometryParameters.morphologyFolder
  let files := env.parseFolder folder [".swc", ".h5"]
  _loadMorphologyFiles env geometryParameters files 0 s

/-- The transfer function reload shared by `_loadNESTCircuit` and
`_loadCompartmentReport`: load from the colour map file and commit. -/
def reloadTransferFunction (env : Env) : Step := fun s =>
  let colorMapFilename := s.impl._parametersManager.sceneParameters.colorMapFilename
  Step.when (decide (colorMapFilename ≠ ""))
    (callImporter "loadFromFile" colorMapFilename (env.loadFromFile colorMapFilename)
      (fun _ => sceneCommitStep .commitTransferFunctionData env.commitTransferFunctionData)) s

/-- The cache-backed spike simulation handler of `_loadNESTCircuit`. -/
def attachSpikeSimulation (env : Env) (gp : GeometryParameters) (cacheFile : String) : Step :=
  fun s =>
  match s.impl._engine with
  | none => .fail .nullEngine s
  | some e =>
    let s1 : St := { s with trace := s.trace ++ [⟨some e.id, .importer "attachSimulationToCacheFile" cacheFile⟩] }
    match env.attachSimulationToCacheFile gp cacheFile with
    | some w => .fail (.raised w) s1
    | none => .ok (s1.setScene e { e.scene with simulationHandler := some (.spike cacheFile) })

/-- Member `_loadNESTCircuit`. -/
def _loadNESTCircuit (env : Env) : Step := fun s =>
  let geometryParameters := s.impl._parametersManager.geometryParameters
  let circuit := geometryParameters.nestCircuit
  Step.when (decide (circuit ≠ ""))
    (callImporter "importCircuit" circuit (env.importNESTCircuit geometryParameters circuit)
      (fun _ =>
        callImporter "importSpikeReport" geometryParameters.nestReport
          (env.importSpikeReport geometryParameters geometryParameters.nestReport)
          (fun _ =>
            Step.seq
              (Step.when (decide (geometryParameters.nestCacheFile ≠ ""))
                (attachSpikeSimulation env geometryParameters geometryParameters.nestCacheFile))
              (reloadTransferFunction env)))) s

/-- The loop of `_loadPDBFile` over the material table: every material takes
the colour the protein loader gives for its index. -/
def setMaterialColors (kd : Nat → Vector3f) (materials : List Material) : List Material :=
  (List.range materials.length).zipWith (fun i m => { m with color := kd i }) materials

/-- Member `_loadPDBFile`. -/
def _loadPDBFile (env : Env) (filename : String) : Step := fun s =>
  let geometryParameters := s.impl._parametersManager.geometryParameters
  let pdbFile := if filename = "" then geometryParameters.pdbFile else filename
  Step.seq
    (callImporter "importPDBFile" pdbFile (env.importPDBFile geometryParameters pdbFile)
      (reportFailure pdbFile))
    (fun s1 =>
      match s1.impl._engine with
      | none => .fail .nullEngine s1
      | some e =>
        let materials := setMaterialColors (env.getMaterialKd geometryParameters) e.scene.materials
        .ok (s1.setScene e { e.scene with materials := materials }))
    s

/-- The loop of `_loadPDBFolder` over the files of the folder. -/
def _loadPDBFiles (env : Env) : List String → Step
  | [] => Step.skip
  | file :: files => Step.seq (_loadPDBFile env file) (_loadPDBFiles env files)

/-- Member `_loadPDBFolder`. -/
def _loadPDBFolder (env : Env) : Step := fun s =>
  let folder := s.impl._parametersManager.geometryParameters.pdbFolder
  _loadPDBFiles env (env.parseFolder folder [".pdb", ".pdb1"]) s

/-- Member `_loadXYZBFile`. -/
def _loadXYZBFile (env : Env) : Step := fun s =>
  let geometryParameters := s.impl._parametersManager.geometryParameters
  callImporter "importFromBinaryFile" geometryParameters.xyzbFile
    (env.importFromBinaryFile geometryParameters geometryParameters.xyzbFile)
    (reportFailure geometryParameters.xyzbFile) s

/-- The `switch` of `_loadMeshFolder` from geometry quality to mesh quality. -/
def meshQuality : GeometryQuality → MeshQuality
  | .medium => .medium
  | .high => .high
  | _ => .low

/-- The loop of `_loadMeshFolder` over the files of the folder. -/
def _loadMeshFiles (env : Env) (gp : GeometryParameters) : List String → Nat → Step
  | [], _ => Step.skip
  | file :: files, progress =>
    let material :=
      if gp.colorScheme = ColorScheme.neuron_by_id
      then progress % (env.NB_MAX_MATERIALS - env.NB_SYSTEM_MATERIALS)
      else env.NO_MATERIAL
    Step.seq
      (callMeshImporter "importMeshFromFile" file
        (env.importMeshFromFile file (meshQuality gp.geometryQuality) material)
        (reportFailure file))
      (_loadMeshFiles env gp files (progress + 1))

/-- Member `_loadMeshFolder`. -/
def _loadMeshFolder (env : Env) (folder : String) : Step := fun s =>
  if env.BRAYNS_USE_ASSIMP then
    let geometryParameters := s.impl._parametersManager.geometryParameters
    let filters := [".obj", ".dae", ".fbx", ".ply", ".lwo", ".stl", ".3ds", ".ase", ".ifc"]
    _loadMeshFiles env geometryParameters (env.parseFolder folder filters) 0 s
  else
    logError ("Assimp library is required to load meshes from " ++ folder) s

/-- Member `_loadCircuitConfiguration`. -/
def _loadCircuitConfiguration (env : Env) : Step := fun s =>
  let geometryParameters := s.impl._parametersManager.geometryParameters
  let filename := geometryParameters.circuitConfiguration
  let target := geometryParameters.target
  let report := geometryParameters.report
  if report = "" then
    callImporter "importCircuit" filename
      (env.importCircuit geometryParameters filename target) (fun _ => Step.skip) s
  else
    callImporter "importCircuit" filename
      (env.importCircuitReport geometryParameters filename target report) (fun _ => Step.skip) s

/-- Member `_loadCompartmentReport`. -/
def _loadCompartmentReport (env : Env) : Step := fun s =>
  let geometryParameters := s.impl._parametersManager.geometryParameters
  let filename := geometryParameters.circuitConfiguration
  let target := geometryParameters.target
  let report := geometryParameters.report
  callImporter "importSimulationData" filename
    (env.importSimulationData geometryParameters filename target report)
    (fun success => Step.when success (reloadTransferFunction env)) s

/-- Member `_loadMolecularSystem`. -/
def _loadMolecularSystem (env : Env) : Step := fun s =>
  if env.BRAYNS_USE_ASSIMP then
    let geometryParameters := s.impl._parametersManager.geometryParameters
    callMeshImporter "import" geometryParameters.molecularSystemConfig
      (env.importMolecularSystem geometryParameters) (fun _ => Step.skip) s
  else
    logError "Assimp library missing for molecular meshes" s

/-- The last block of `_loadData`: with a volume handler, reset its timestamp
and merge the origin and the far corner of the volume into the world
bounds. -/
def mergeVolumeBounds (volumeElementSpacing : Vector3f) (scene : Scene) : Scene :=
  match scene.volumeHandler with
  | none => scene
  | some vh =>
    let vh1 := vh.setTimestamp 0
    let volumeDimensions := vh1.dimensions
    let volumeOffset := vh1.offset
    let worldBounds := scene.worldBounds.merge ⟨0, 0, 0⟩
    let worldBounds := worldBounds.merge
      (volumeOffset.add ((Vector3f.ofVector3ui volumeDimensions).mul volumeElementSpacing))
    { scene with volumeHandler := some vh1, worldBounds := worldBounds }

/-- A call site of a loader in `_loadData`: the call is recorded, then the
loader runs. -/
def loadWith (loader : Loader) (body : Step) : Step := fun s =>
  body { s with trace := s.trace ++ [⟨s.impl.engineId, .load loader⟩] }

/-- The loader calls of `_loadData`, lines 260 to 305, in source order. -/
def _loadSources (env : Env) : Step := fun s =>
  let geometryParameters := s.impl._parametersManager.geometryParameters
  let sceneParameters := s.impl._parametersManager.sceneParameters
  let environmentMap := sceneParameters.environmentMap
  let colorMapFilename := sceneParameters.colorMapFilename
  (Step.seq
    (Step.when (decide (environmentMap ≠ ""))
      (loadWith .environmentMap
        (onScene (.importer "setTexture" environmentMap) (env.setEnvironmentMap environmentMap))))
  (Step.seq
    (Step.when (decide (geometryParameters.splashSceneFolder ≠ ""))
      (loadWith .splashMeshFolder (_loadMeshFolder env geometryParameters.splashSceneFolder)))
  (Step.seq
    (Step.when (decide (colorMapFilename ≠ ""))
      (loadWith .colorMap
        (callImporter "loadFromFile" colorMapFilename (env.loadFromFile colorMapFilename)
          (fun _ => Step.skip))))
  (Step.seq
    (sceneCommitStep .commitTransferFunctionData env.commitTransferFunctionData)
  (Step.seq
    (Step.when (decide (geometryParameters.morphologyFolder ≠ ""))
      (loadWith .morphologyFolder (_loadMorphologyFolder env)))
  (Step.seq
    (Step.when (decide (geometryParameters.nestCircuit ≠ ""))
      (loadWith .nestCircuit (_loadNESTCircuit env)))
  (Step.seq
    (Step.when (decide (geometryParameters.pdbFile ≠ ""))
      (loadWith .pdbFile (_loadPDBFile env geometryParameters.pdbFile)))
  (Step.seq
    (Step.when (decide (geometryParameters.pdbFolder ≠ ""))
      (loadWith .pdbFolder (_loadPDBFolder env)))
  (Step.seq
    (Step.when (decide (geometryParameters.meshFolder ≠ ""))
      (loadWith .meshFolder (_loadMeshFolder env geometryParameters.meshFolder)))
  (Step.seq
    (Step.when (decide (geometryParameters.report ≠ ""))
      (loadWith .compartmentReport (_loadCompartmentReport env)))
  (Step.seq
    (Step.when (decide (geometryParameters.circuitConfiguration ≠ "") &&
                decide (geometryParameters.loadCacheFile = ""))
      (loadWith .circuitConfiguration (_loadCircuitConfiguration env)))
  (Step.seq
    (Step.when (decide (geometryParameters.xyzbFile ≠ ""))
      (loadWith .xyzbFile (_loadXYZBFile env)))
    (Step.when (decide (geometryParameters.molecularSystemConfig ≠ ""))
      (loadWith .molecularSystem (_loadMolecularSystem env)))))))))))))))
  s

/-- Lines 307 to 321 of `_loadData`: the volume block, on the scene of the
active engine. -/
def volumeBoundsStep (volumeElementSpacing : Vector3f) : Step := fun s =>
  match s.impl._engine with
  | none => .fail .nullEngine s
  | some e => .ok (s.setScene e (mergeVolumeBounds volumeElementSpacing e.scene))

/-- Member `_loadData`: the loader calls, then the volume block. -/
def _loadData (env : Env) : Step := fun s =>
  match s.impl._engine with
  | none => .fail .nullEngine s
  | some _ =>
    let volumeParameters := s.impl._parametersManager.volumeParameters
    Step.seq (_loadSources env) (volumeBoundsStep volumeParameters.elementSpacing) s

/-! ## Scene construction and engine creation (lines 81 to 135, 569 to 586) -/

/-- Member `_setupCameraManipulator`: drops the manipulator and builds the
one of the requested mode on the camera of the active engine. -/
def _setupCameraManipulator (mode : CameraMode) : Step := fun s =>
  match s.impl._engine with
  | none => .fail .nullEngine { s with impl := { s.impl with _cameraManipulator := none } }
  | some e =>
    let manipulator :=
      match mode with
      | .flying => AbstractManipulator.FlyingModeManipulator e.id
      | .inspect => AbstractManipulator.InspectCenterManipulator e.id
    .ok { impl := { s.impl with _cameraManipulator := some manipulator },
          trace := s.trace ++ [⟨some e.id, .setupCameraManipulator mode⟩] }

/-- Lines 109 to 115 of `buildScene`: clear the mesh loader, load the data,
commit volume and simulation data, build environment and geometry. -/
def buildSceneGeometry (env : Env) : Step :=
  Step.seq
    (fun s => .ok { impl := { s.impl with _meshLoader := env.meshLoaderClear s.impl._meshLoader },
                    trace := s.trace ++ [⟨s.impl.engineId, .meshLoaderClear⟩] })
  (Step.seq (_loadData env)
  (Step.seq (sceneCommitStep .commitVolumeData env.commitVolumeData)
  (Step.seq (sceneCommitStep .commitSimulationData env.commitSimulationData)
  (Step.seq (sceneCommitStep .buildEnvironment env.buildEnvironment)
    (sceneCommitStep .buildGeometry env.buildGeometry)))))

/-- Lines 117 to 122 of `buildScene`: the default scene, built when the scene
is empty and has no volume handler. -/
def buildSceneDefault (env : Env) : Step := fun s =>
  match s.impl._engine with
  | none => .fail .nullEngine s
  | some e =>
    Step.when (e.scene.empty && e.scene.volumeHandler.isNone)
      (Step.seq (onScene .buildDefault env.buildDefault)
        (sceneCommitStep .buildGeometry env.buildGeometry)) s

/-- Lines 124 to 134 of `buildScene`: scene commit, camera manipulator,
default camera and epsilon, engine commit. -/
def buildSceneCommit (env : Env) : Step :=
  Step.seq (sceneCommitStep .sceneCommit env.sceneCommit)
  (Step.seq (_setupCameraManipulator .inspect)
  (Step.seq (onEngine .setDefaultCamera (fun e => { e with camera := env.setDefaultCamera e }))
  (Step.seq (engineCommitStep .setDefaultEpsilon env.setDefaultEpsilon)
    (engineHook .engineCommit env.engineCommit))))

/-- Member `buildScene`. -/
def buildScene (env : Env) : Step :=
  Step.seq (buildSceneGeometry env) (Step.seq (buildSceneDefault env) (buildSceneCommit env))

/-- The default sun light of `createEngine`. -/
def sunLight (env : Env) : Light :=
  .directional env.DEFAULT_SUN_DIRECTION env.DEFAULT_SUN_COLOR env.DEFAULT_SUN_INTENSITY

/-- Lines 83 to 87 of `createEngine`: an active engine is removed from the
factory and released. -/
def releaseEngine (env : Env) (s : St) : St :=
  match s.impl._engine with
  | none => s
  | some e =>
    { impl := { s.impl with _engineFactory := env.factoryRemove e s.impl._engineFactory,
                            _engine := none },
      trace := s.trace ++ [⟨some e.id, .factoryRemove⟩, ⟨some e.id, .engineReset⟩] }

/-- Lines 89 to 91 of `createEngine`: the engine named in the rendering
parameters is asked from the factory and becomes `_engine`. -/
def lookupEngine (env : Env) (s : St) : St :=
  let engineName := s.impl._parametersManager.renderingParameters.engine
  let r := env.factoryGet engineName s.impl._engineFactory
  { impl := { s.impl with _engine := r.1, _engineFactory := r.2 },
    trace := s.trace ++ [⟨none, .factoryGet engineName⟩] }

/-- Member `createEngine`. -/
def createEngine (env : Env) : Step := fun s =>
  let s1 := lookupEngine env (releaseEngine env s)
  let engineName := s1.impl._parametersManager.renderingParameters.engine
  match s1.impl._engine with
  | none => .fail (.runtimeError ("Unsupported engine: " ++ engineName)) s1
  | some _ =>
    Step.seq (onScene (.addLight (sunLight env)) (fun sc => sc.addLight (sunLight env)))
    (Step.seq (buildScene env)
      (onEngine .setRecreate (fun e => { e with recreate := true }))) s1

/-! ## Per-frame pipeline (lines 137 to 251) -/

/-- Lines 144 to 152 and 206 to 214: the extensions run on the active engine;
when `_engine.get()` differs afterwards, reshape and preRender are issued on
the engine that is active now. -/
def executeExtensions (env : Env) (windowSize : Vector2ui) : Step := fun s =>
  match s.impl._engine with
  | none => .fail .nullEngine s
  | some e =>
    let oldEngine := some e.id
    let s1 : St := { impl := env.execute s.impl, trace := s.trace ++ [⟨some e.id, .execute⟩] }
    Step.when (decide (s1.impl.engineId ≠ oldEngine))
      (Step.seq (engineHook (.reshape windowSize) (env.reshape windowSize))
        (engineHook .preRender env.preRender)) s1

/-- The engine commit forced by a non-zero animation delta. -/
def commitAnimation (env : Env) : Step := fun s =>
  Step.when (decide (s.impl._parametersManager.sceneParameters.animationDelta ≠ 0))
    (engineHook .engineCommit env.engineCommit) s

/-- The head-light block: when head-light mode is on and light 0 is a
directional light, its direction becomes camera target minus camera position
and the lights are committed. -/
def updateHeadLight (env : Env) : Step := fun s =>
  match s.impl._engine with
  | none => .fail .nullEngine s
  | some e =>
    if s.impl._parametersManager.renderingParameters.headLight then
      match e.scene.getLight 0 with
      | some (.directional _ c i) =>
        let d := e.camera.target.sub e.camera.position
        Step.seq
          (onScene (.setDirection d) (fun sc => { sc with lights := sc.lights.set 0 (.directional d c i) }))
          (sceneCommitStep .commitLights env.commitLights) s
      | _ => .ok s
    else .ok s

/-- Lines 248 and 249 of `_render`: the renderer named in the rendering
parameters becomes the active renderer. -/
def selectRenderer (env : Env) : Step := fun s =>
  let renderer := s.impl._parametersManager.renderingParameters.renderer
  engineCommitStep (.setActiveRenderer renderer) (env.setActiveRenderer renderer) s

/-- Member `_render`: select the renderer, then the backend render call. -/
def _render (env : Env) : Step :=
  Step.seq (selectRenderer env) (engineHook .render env.render)

/-- Result of an arithmetic operation on `int`, kept in 32 bits, two's
complement: an exact result within the range is unchanged, one outside the
range wraps around (what the usual targets compute on signed overflow). -/
def wrapInt32 (i : Int) : Int := (i + 2 ^ 31) % 2 ^ 32 - 2 ^ 31

/-- Conversion of an `int` to `size_t` (64 bits). -/
def toSizeT (i : Int) : Nat := (i % 2 ^ 64).toNat

/-- The size `frameSize.x() * frameSize.y() * frameBuffer.getColorDepth()`,
an `int` product converted to `size_t` and multiplied in `size_t`. -/
def colorBufferSize (frameSize : Vector2i) (colorDepth : Nat) : Nat :=
  (toSizeT (wrapInt32 (frameSize.x * frameSize.y)) * colorDepth) % 2 ^ 64

/-- The size `frameSize.x() * frameSize.y()` converted to `size_t`. -/
def depthBufferSize (frameSize : Vector2i) : Nat :=
  toSizeT (wrapInt32 (frameSize.x * frameSize.y))

/-- The value of `max_size()` for a vector whose elements take `elementSize`
bytes: the largest `ptrdiff_t` (63 bits) divided by the element size. -/
def maxSize (elementSize : Nat) : Nat := (2 ^ 63 - 1) / elementSize

/-- The call `assign(first, first + size)` on a vector whose elements take
`elementSize` bytes: the `size` elements stored from the pointer on.  A size
above `max_size()` makes the call throw before the vector is touched (`none`);
that is the case of every size that comes from a negative `int`.  Below that
limit the allocation is taken to succeed. -/
def assign {α : Type} (elementSize : Nat) (buffer : Nat → α) (size : Nat) : Option (List α) :=
  if size ≤ maxSize elementSize then some ((List.range size).map buffer) else none

/-- Lines 179 to 186: a non-null colour buffer is copied out with its
format; `none` when `assign` throws (bytes, one byte each). -/
def copyColorBuffer (frameSize : Vector2i) (frameBuffer : FrameBuffer)
    (renderOutput : RenderOutput) : Option RenderOutput :=
  match frameBuffer.colorBuffer with
  | some colorBuffer =>
    let size := colorBufferSize frameSize frameBuffer.colorDepth
    (assign 1 colorBuffer size).map (fun bytes =>
      { renderOutput with colorBuffer := bytes,
                          colorBufferFormat := frameBuffer.frameBufferFormat })
  | none => some renderOutput

/-- Lines 188 to 193: a non-null depth buffer is copied out; `none` when
`assign` throws (floats, four bytes each). -/
def copyDepthBuffer (frameSize : Vector2i) (frameBuffer : FrameBuffer)
    (renderOutput : RenderOutput) : Option RenderOutput :=
  match frameBuffer.depthBuffer with
  | some depthBuffer =>
    let size := depthBufferSize frameSize
    (assign 4 depthBuffer size).map (fun floats => { renderOutput with depthBuffer := floats })
  | none => some renderOutput

/-- Lines 179 to 193: both buffers are read from the frame buffer of the
active engine; `frameSize` is the size read before the render call.  The
colour buffer is read and copied first, then the depth buffer; a copy that
throws ends the call there, with the calls issued so far in the trace (the
fault carries the state of the orchestrator, not the output object of the
caller). -/
def extractBuffers (frameSize : Vector2i) (renderOutput : RenderOutput) (s : St) :
    Outcome (St × RenderOutput) :=
  match s.impl._engine with
  | none => .fail .nullEngine s
  | some e =>
    let s1 : St := { s with trace := s.trace ++ [⟨some e.id, .getColorBuffer⟩] }
    match copyColorBuffer frameSize e.frameBuffer renderOutput with
    | none => .fail .lengthError s1
    | some colorOutput =>
      let s2 : St := { s1 with trace := s1.trace ++ [⟨some e.id, .getDepthBuffer⟩] }
      match copyDepthBuffer frameSize e.frameBuffer colorOutput with
      | none => .fail .lengthError s2
      | some depthOutput => .ok (s2, depthOutput)

/-- Lines 139 to 142 of the headless render: camera pose, reshape,
preRender. -/
def renderPrepare (env : Env) (renderInput : RenderInput) : Step :=
  Step.seq
    (onEngine (.cameraSet renderInput.position renderInput.target renderInput.up)
      (fun e => { e with camera := e.camera.set renderInput.position renderInput.target renderInput.up }))
  (Step.seq (engineHook (.reshape renderInput.windowSize) (env.reshape renderInput.windowSize))
    (engineHook .preRender env.preRender))

/-- Lines 139 to 159 of the headless render: the preparation, the extensions,
the animation commit and the camera commit. -/
def renderSetup (env : Env) (renderInput : RenderInput) : Step :=
  Step.seq (renderPrepare env renderInput)
  (Step.seq (executeExtensions env renderInput.windowSize)
  (Step.seq (commitAnimation env)
    (engineCommitStep .cameraCommit env.cameraCommit)))

/-- Lines 161 to 195 of the headless render, from the state `s` reached by
the setup: frame size, head light, render, buffer extraction, postRender. -/
def renderFinish (env : Env) (renderOutput : RenderOutput) (s : St) :
    Outcome (St × RenderOutput) :=
  match s.impl._engine with
  | none => .fail .nullEngine s
  | some e =>
    let frameSize := e.frameBuffer.size
    ((Step.seq (updateHeadLight env) (_render env) s).bind
      (extractBuffers frameSize renderOutput)).bind
      (fun r => (engineHook .postRender env.postRender r.1).bind (fun s3 => .ok (s3, r.2)))

/-- Member `render(const RenderInput&, RenderOutput&)`, the headless render:
the result holds the final state and the render output. -/
def render (env : Env) (renderInput : RenderInput) (renderOutput : RenderOutput) (s : St) :
    Outcome (St × RenderOutput) :=
  (renderSetup env renderInput s).bind (renderFinish env renderOutput)

/-- Lines 203 and 204 of the interactive render: reshape, preRender. -/
def renderWindowPrepare (env : Env) (windowSize : Vector2ui) : Step :=
  Step.seq (engineHook (.reshape windowSize) (env.reshape windowSize))
    (engineHook .preRender env.preRender)

/-- Lines 203 to 221 of the interactive render: the preparation, the
extensions and the animation commit. -/
def renderWindowSetup (env : Env) (windowSize : Vector2ui) : Step :=
  Step.seq (renderWindowPrepare env windowSize)
  (Step.seq (executeExtensions env windowSize) (commitAnimation env))

/-- Member `render()`, the interactive render. -/
def renderWindow (env : Env) : Step := fun s =>
  let windowSize := s.impl._parametersManager.applicationParameters.windowSize
  (Step.seq (renderWindowSetup env windowSize)
  (Step.seq (updateHeadLight env)
  (Step.seq (engineCommitStep .cameraCommit env.cameraCommit)
  (Step.seq (_render env)
    (engineHook .postRender env.postRender))))) s

/-! ## Call sequences of a frame -/

/-- The calls of the animation commit for an animation delta. -/
def animationCalls (animationDelta : Int) : List Call :=
  if animationDelta ≠ 0 then [.engineCommit] else []

/-- The calls of the head-light block on an engine. -/
def headLightCalls (headLight : Bool) (e : Engine) : List Call :=
  if headLight then
    match e.scene.getLight 0 with
    | some (.directional _ _ _) =>
      [.setDirection (e.camera.target.sub e.camera.position), .commitLights]
    | _ => []
  else []

/-- The calls the headless render issues after the extensions have replaced
the engine by `e`, under the parameters `p` left by the extensions, up to the
backend render call. -/
def renderCallsAfterSwap (windowSize : Vector2ui) (p : ParametersManager) (e : Engine) :
    List Call :=
  [.reshape windowSize, .preRender] ++ animationCalls p.sceneParameters.animationDelta ++
    [.cameraCommit] ++ headLightCalls p.renderingParameters.headLight e ++
    [.setActiveRenderer p.renderingParameters.renderer, .render]

/-- The calls the interactive render issues after the extensions have
replaced the engine by `e`, under the parameters `p` left by the extensions. -/
def renderWindowCallsAfterSwap (windowSize : Vector2ui) (p : ParametersManager) (e : Engine) :
    List Call :=
  [.reshape windowSize, .preRender] ++ animationCalls p.sceneParameters.animationDelta ++
    headLightCalls p.renderingParameters.headLight e ++
    [.cameraCommit, .setActiveRenderer p.renderingParameters.renderer, .render, .postRender]

/-! ## Keyboard shortcuts (lines 712 to 774) -/

/-- Setter of the scene timestamp. -/
def setTimestamp (i : Impl) (ts : ℚ) : Impl :=
  { i with _parametersManager := { i._parametersManager with
      sceneParameters := { i._parametersManager.sceneParameters with timestamp := ts } } }

/-- Setter of the ambient occlusion strength. -/
def setAmbientOcclusionStrength (i : Impl) (strength : ℚ) : Impl :=
  { i with _parametersManager := { i._parametersManager with
      renderingParameters :=
        { i._parametersManager.renderingParameters with ambientOcclusionStrength := strength } } }

/-- Member `_increaseTimestamp`. -/
def _increaseTimestamp (i : Impl) : Impl :=
  let ts := i._parametersManager.sceneParameters.timestamp
  i.setTimestamp (ts + 1)

/-- Member `_decreaseTimestamp`. -/
def _decreaseTimestamp (i : Impl) : Impl :=
  let ts := i._parametersManager.sceneParameters.timestamp
  if ts > 0 then i.setTimestamp (ts - 1) else i

/-- Member `_resetTimestamp`. -/
def _resetTimestamp (i : Impl) : Impl := i.setTimestamp 0

/-- Member `_increaseAmbientOcclusionStrength`, the step `0.1f` taken as the
rational one tenth. -/
def _increaseAmbientOcclusionStrength (i : Impl) : Impl :=
  let aaStrength := i._parametersManager.renderingParameters.ambientOcclusionStrength
  let aaStrength := aaStrength + 1 / 10
  let aaStrength := if aaStrength > 1 then 1 else aaStrength
  i.setAmbientOcclusionStrength aaStrength

/-- Member `_decreaseAmbientOcclusionStrength`, the step `0.1f` taken as the
rational one tenth. -/
def _decreaseAmbientOcclusionStrength (i : Impl) : Impl :=
  let aaStrength := i._parametersManager.renderingParameters.ambientOcclusionStrength
  let aaStrength := aaStrength - 1 / 10
  let aaStrength := if aaStrength < 0 then 0 else aaStrength
  i.setAmbientOcclusionStrength aaStrength

/-- The two ambient-occlusion shortcuts, keys `O` and `o`. -/
inductive AmbientOcclusionPress where
  | increase
  | decrease
  deriving DecidableEq, Repr

/-- Effect of one press of an ambient-occlusion shortcut. -/
def pressAmbientOcclusion (i : Impl) : AmbientOcclusionPress → Impl
  | .increase => i._increaseAmbientOcclusionStrength
  | .decrease => i._decreaseAmbientOcclusionStrength

/-- Effect of a sequence of presses, first press first. -/
def pressAmbientOcclusionAll (i : Impl) (presses : List AmbientOcclusionPress) : Impl :=
  presses.foldl pressAmbientOcclusion i

/-- Stored ambient occlusion strength. -/
def ambientOcclusionStrength (i : Impl) : ℚ :=
  i._parametersManager.renderingParameters.ambientOcclusionStrength

end Impl

/-! ## Concrete instances, used to exercise the model -/

namespace Example

/-- A scene without geometry, with one material and a directional light at
index 0. -/
def scene : Scene :=
  { primitives := [], materials := [⟨⟨1, 1, 1⟩, []⟩],
    lights := [.directional ⟨0, 0, -1⟩ ⟨1, 1, 1⟩ 1],
    volumeHandler := none, simulationHandler := none, transferFunction := [],
    worldBounds := ⟨⟨1, 1, 1⟩, ⟨2, 2, 2⟩⟩, committed := 0 }

/-- A frame buffer with four bytes per pixel, a colour buffer and no depth
buffer. -/
def frameBuffer : FrameBuffer :=
  { size := ⟨0, 0⟩, colorBuffer := some (fun i => i % 256), colorDepth := 4,
    frameBufferFormat := 1, depthBuffer := none }

/-- An engine of the given identity. -/
def engine (id : Nat) : Engine :=
  { id := id, scene := scene, camera := ⟨⟨0, 0, 0⟩, ⟨0, 0, 0⟩, ⟨0, 0, 0⟩⟩,
    frameBuffer := frameBuffer, recreate := false, backend := 0 }

/-- Geometry parameters with no data source configured. -/
def geometryParameters : GeometryParameters :=
  { splashSceneFolder := "", morphologyFolder := "", nestCircuit := "", nestReport := "",
    nestCacheFile := "", pdbFile := "", pdbFolder := "", meshFolder := "", report := "",
    circuitConfiguration := "", loadCacheFile := "", xyzbFile := "",
    molecularSystemConfig := "", target := "", colorScheme := .none, geometryQuality := .low }

/-- Parameters: engine `ospray`, head light on, no data source. -/
def parameters : ParametersManager :=
  { applicationParameters := ⟨⟨2, 1⟩⟩,
    renderingParameters :=
      { engine := "ospray", renderer := .basic, headLight := true,
        ambientOcclusionStrength := 0, backgroundColor := ⟨0, 0, 0⟩, shading := .none,
        shadows := false, softShadows := false, lightEmittingMaterials := false },
    geometryParameters := geometryParameters,
    sceneParameters :=
      { environmentMap := "", colorMapFilename := "", timestamp := 0, animationDelta := 0 },
    volumeParameters := { elementSpacing := ⟨1, 1, 1⟩, samplesPerRay := 32 } }

/-- A loader that adds one sphere to the scene and reports success. -/
def addSphere (scene : Scene) : Import :=
  .returned true { scene with primitives := scene.primitives ++ [⟨.sphere, 0⟩] }

/-- Collaborators: the factory knows the engine `ospray` only, reshape sets
the frame size, the extensions do nothing, every loader adds one sphere. -/
def env : Env :=
  { BRAYNS_USE_ASSIMP := true,
    DEFAULT_SUN_DIRECTION := ⟨1, -1, 1⟩,
    DEFAULT_SUN_COLOR := ⟨9 / 10, 9 / 10, 9 / 10⟩,
    DEFAULT_SUN_INTENSITY := 1,
    NB_MAX_MATERIALS := 200,
    NB_SYSTEM_MATERIALS := 6,
    NO_MATERIAL := 200,
    factoryGet := fun name f => if name = "ospray" then (some (engine (f + 1)), f + 1) else (none, f),
    factoryRemove := fun _ f => f,
    meshLoaderClear := fun _ => 0,
    execute := fun i => i,
    reshape := fun size e => ({ e.frameBuffer with size := ⟨size.x, size.y⟩ }, e.backend),
    preRender := fun e => (e.frameBuffer, e.backend),
    render := fun e => (e.frameBuffer, e.backend + 1),
    postRender := fun e => (e.frameBuffer, e.backend),
    engineCommit := fun e => (e.frameBuffer, e.backend),
    setActiveRenderer := fun _ e => e.backend,
    setDefaultCamera := fun e => e.camera,
    setDefaultEpsilon := fun e => e.backend,
    cameraCommit := fun e => e.backend,
    commitLights := fun sc => sc.committed + 1,
    commitVolumeData := fun sc => sc.committed + 1,
    commitSimulationData := fun sc => sc.committed + 1,
    commitTransferFunctionData := fun sc => sc.committed + 1,
    buildEnvironment := fun sc => sc.committed + 1,
    buildGeometry := fun sc => sc.committed + 1,
    sceneCommit := fun sc => sc.committed + 1,
    buildDefault := fun sc => { sc with primitives := sc.primitives ++ [⟨.sphere, 0⟩] },
    parseFolder := fun folder _ => [folder ++ "/a", folder ++ "/b"],
    setEnvironmentMap := fun _ sc => sc,
    loadFromFile := fun _ sc => .returned true sc,
    importMorphology := fun _ _ _ => addSphere,
    importCircuit := fun _ _ _ => addSphere,
    importCircuitReport := fun _ _ _ _ => addSphere,
    importSimulationData := fun _ _ _ _ sc => .returned true sc,
    importNESTCircuit := fun _ _ => addSphere,
    importSpikeReport := fun _ _ sc => .returned true sc,
    attachSimulationToCacheFile := fun _ _ => none,
    importPDBFile := fun _ _ => addSphere,
    getMaterialKd := fun _ _ => ⟨1, 0, 0⟩,
    importFromBinaryFile := fun _ _ => addSphere,
    importMeshFromFile := fun _ _ _ m sc => (addSphere sc, m + 1),
    importMolecularSystem := fun _ m sc => (addSphere sc, m + 1) }

/-- The same collaborators, with an extension that replaces the active engine
by a new engine of identity 2. -/
def swapEnv : Env := { env with execute := fun i => { i with _engine := some (engine 2) } }

/-- An orchestrator whose active engine has identity 1. -/
def impl : Impl :=
  { _engineFactory := 1, _parametersManager := parameters, _engine := some (engine 1),
    _keyboardHandler := [], _cameraManipulator := none, _meshLoader := 0 }

/-- The orchestrator with an empty trace. -/
def state : St := ⟨impl, []⟩

/-- A headless render request on a window of two by one pixels. -/
def renderInput : RenderInput :=
  { windowSize := ⟨2, 1⟩, position := ⟨0, 0, 5⟩, target := ⟨0, 0, 0⟩, up := ⟨0, 1, 0⟩ }

/-- A render output that already holds buffers of an earlier frame. -/
def renderOutput : RenderOutput :=
  { colorBuffer := [7, 7, 7, 7], depthBuffer := [1 / 2], colorBufferFormat := 3 }

end Example

/-- Value returned by a run, when it returned normally. -/
def Outcome.value? {α : Type} : Outcome α → Option α
  | .ok a => some a
  | .fail _ _ => none

/-- State reached by a run that returns a value next to the state, whether
it returned or stopped on a fault. -/
def Outcome.endState {α : Type} : Outcome (St × α) → St
  | .ok r => r.1
  | .fail _ s => s

/-- Fault on which a run stopped, if it did. -/
def Outcome.fault? {α : Type} : Outcome α → Option Fault
  | .ok _ => none
  | .fail f _ => some f

/-- The frame buffer of the active engine. -/
def St.frameBuffer? (s : St) : Option FrameBuffer := s.impl._engine.map (fun e => e.frameBuffer)

/-- A headless render request on a window of 65536 by 65536 pixels. -/
def Example.hugeInput : RenderInput :=
  { windowSize := ⟨65536, 65536⟩, position := ⟨0, 0, 5⟩, target := ⟨0, 0, 0⟩, up := ⟨0, 1, 0⟩ }

/-- A render output that holds no buffer yet. -/
def Example.emptyOutput : RenderOutput :=
  { colorBuffer := [], depthBuffer := [], colorBufferFormat := 0 }

/-- A headless render request on a window of 46341 by 46341 pixels, the
smallest square whose pixel count exceeds the largest `int`. -/
def Example.wideInput : RenderInput :=
  { windowSize := ⟨46341, 46341⟩, position := ⟨0, 0, 5⟩, target := ⟨0, 0, 0⟩, up := ⟨0, 1, 0⟩ }

/-- A headless render request on a window of one pixel. -/
def Example.pixelInput : RenderInput :=
  { windowSize := ⟨1, 1⟩, position := ⟨0, 0, 5⟩, target := ⟨0, 0, 0⟩, up := ⟨0, 1, 0⟩ }

/-- The collaborators of `Example.env`, with a frame buffer that declares 2^63
bytes per pixel. -/
def Example.deepEnv : Env :=
  { Example.env with
    reshape := fun size e =>
      ({ e.frameBuffer with size := ⟨size.x, size.y⟩, colorDepth := 2 ^ 63 }, e.backend) }

/-- The collaborators of `Example.env`, with an extension that releases the
active engine and installs a newly built engine in its place, at the address
the released one had: the new engine has the identity of the old one, a frame
buffer of size 0 by 0 that no reshape has sized yet, and a camera at the
origin. -/
def Example.reuseEnv : Env :=
  { Example.env with
    execute := fun i => { i with _engine := i._engine.map (fun e => Example.engine e.id) } }

/-- The collaborators of `Example.env`, with an extension that moves the
camera of the active engine to position (1, 1, 1), looking at the origin, and
leaves the engine in place. -/
def Example.moveEnv : Env :=
  let move : Engine → Engine := fun e => { e with camera := ⟨⟨1, 1, 1⟩, ⟨0, 0, 0⟩, ⟨0, 1, 0⟩⟩ }
  { Example.env with execute := fun i => { i with _engine := i._engine.map move } }

/-! ## Loader calls of a trace -/

/-- The loaders whose call sites occur in a trace, in order. -/
def loaderCalls (tr : List Event) : List Loader :=
  tr.filterMap (fun ev => match ev.call with
    | .load l => some l
    | _ => none)

/-- The fixed order of the loader call sites in `_loadData`. -/
def Loader.order : List Loader :=
  [.environmentMap, .splashMeshFolder, .colorMap, .morphologyFolder, .nestCircuit, .pdbFile,
   .pdbFolder, .meshFolder, .compartmentReport, .circuitConfiguration, .xyzbFile,
   .molecularSystem]

/-- The condition under which `_loadData` calls a loader. -/
def Loader.configured (p : ParametersManager) : Loader → Bool
  | .environmentMap => decide (p.sceneParameters.environmentMap ≠ "")
  | .splashMeshFolder => decide (p.geometryParameters.splashSceneFolder ≠ "")
  | .colorMap => decide (p.sceneParameters.colorMapFilename ≠ "")
  | .morphologyFolder => decide (p.geometryParameters.morphologyFolder ≠ "")
  | .nestCircuit => decide (p.geometryParameters.nestCircuit ≠ "")
  | .pdbFile => decide (p.geometryParameters.pdbFile ≠ "")
  | .pdbFolder => decide (p.geometryParameters.pdbFolder ≠ "")
  | .meshFolder => decide (p.geometryParameters.meshFolder ≠ "")
  | .compartmentReport => decide (p.geometryParameters.report ≠ "")
  | .circuitConfiguration =>
    decide (p.geometryParameters.circuitConfiguration ≠ "") &&
      decide (p.geometryParameters.loadCacheFile = "")
  | .xyzbFile => decide (p.geometryParameters.xyzbFile ≠ "")
  | .molecularSystem => decide (p.geometryParameters.molecularSystemConfig ≠ "")

/-- The loaders `_loadData` calls under given parameters when no loader
raises: those whose condition holds, in the fixed order. -/
def configuredLoaders (p : ParametersManager) : List Loader :=
  Loader.order.filter (Loader.configured p)

/-- The step `f`, run from `s`, never stops on a `runtimeError`; when it
returns it has called the loaders `ls`, in this order, and when it stops on a
fault it has called the first ones of them. -/
def Step.EmitsAt (f : Step) (s : St) (ls : List Loader) : Prop :=
  (∀ w s', f s ≠ .fail (.runtimeError w) s') ∧
  match f s with
  | .ok s' => loaderCalls s'.trace = loaderCalls s.trace ++ ls
  | .fail _ s' => ∃ ls', ls' <+: ls ∧ loaderCalls s'.trace = loaderCalls s.trace ++ ls'

/-- The step `f` calls the loaders `ls` from every state. -/
def Step.Emits (f : Step) (ls : List Loader) : Prop := ∀ s, Step.EmitsAt f s ls

/-- A state whose scene holds a volume handler of dimensions (4, 5, 6) at
offset (1, 1, 1), with element spacing (1/2, 1, 2). -/
def Example.volumeState : St :=
  { impl :=
      { Example.impl with
        _parametersManager :=
          { Example.parameters with volumeParameters := ⟨⟨1 / 2, 1, 2⟩, 32⟩ },
        _engine := some
          { Example.engine 1 with
            scene := { Example.scene with volumeHandler := some ⟨⟨4, 5, 6⟩, ⟨1, 1, 1⟩, 3⟩ } } },
    trace := [] }

/-- A state with the given geometry parameters. -/
def Example.stateWith (gp : GeometryParameters) : St :=
  { impl := { Example.impl with
      _parametersManager := { Example.parameters with geometryParameters := gp } },
    trace := [] }

/-- A configuration with a morphology folder, a report and an XYZB file. -/
def Example.loadState : St :=
  Example.stateWith
    { Example.geometryParameters with morphologyFolder := "m", report := "r", xyzbFile := "x" }

/-- A configuration with a report and a load-cache file but no circuit
configuration. -/
def Example.reportState : St :=
  Example.stateWith
    { Example.geometryParameters with report := "r", loadCacheFile := "cache" }

/-- A state whose rendering parameters name an engine the factory does not
know, with engine 1 active. -/
def Example.unknownEngineState : St :=
  { impl := { Example.impl with
      _parametersManager := { Example.parameters with
        renderingParameters := { Example.parameters.renderingParameters with engine := "foo" } } },
    trace := [] }

/-! ## Timestamp shortcuts (keys `[`, `]` and `r`) -/

/-- The three timestamp shortcuts: `[` decreases by 1, `]` increases by 1, `r`
resets to 0. -/
inductive TimestampPress where
  | decrease
  | increase
  | reset
  deriving DecidableEq, Repr

/-- Effect of one press of a timestamp shortcut: the member function bound to
the key. -/
def Impl.pressTimestamp (i : Impl) : TimestampPress → Impl
  | .decrease => i._decreaseTimestamp
  | .increase => i._increaseTimestamp
  | .reset => i._resetTimestamp

/-- Effect of a sequence of presses, first press first. -/
def Impl.pressTimestampAll (i : Impl) (presses : List TimestampPress) : Impl :=
  presses.foldl Impl.pressTimestamp i

/-- Stored scene timestamp. -/
def Impl.timestamp (i : Impl) : ℚ := i._parametersManager.sceneParameters.timestamp

namespace ExtendedCones

/-- The size of a `float` in bytes. -/
def sizeofFloat : Nat := 4

/-- The data array set on the geometry: its size in bytes and its address. -/
structure Data where
  numBytes : Nat
  data : Nat
  deriving DecidableEq, Repr

/-- The parameters set on the geometry object, `none` where a parameter was
not set (for `extendedcones`: no data, the null reference). -/
structure Params where
  radius : Option ℚ
  length : Option ℚ
  materialID : Option Int
  bytes_per_extended_cone : Option Int
  offset_center : Option Int
  offset_up : Option Int
  offset_radius : Option Int
  offset_length : Option Int
  offset_frame : Option Int
  offset_materialID : Option Int
  extendedcones : Option Data
  deriving DecidableEq, Repr

/-- Getter `getParam1f`: the parameter, or the default when it was not set. -/
def getParam1f (value : Option ℚ) (valIfNotFound : ℚ) : ℚ := value.getD valIfNotFound

/-- Getter `getParam1i`: the `int` parameter, or the default when it was not
set. -/
def getParam1i (value : Option Int) (valIfNotFound : Int) : Int := value.getD valIfNotFound

/-- The `int` parameters are 32-bit integers. -/
def Params.InRange (p : Params) : Prop :=
  ∀ v, p.bytes_per_extended_cone = some v → -(2 : Int) ^ 31 ≤ v ∧ v < 2 ^ 31

/-- Arguments of the call `ispc::ExtendedConesGeometry_set` (the two handles
`getIE()` and `model->getIE()` left out). -/
structure GeometrySet where
  data : Nat
  numExtendedCones : Nat
  bytesPerCone : Nat
  radius : ℚ
  length : ℚ
  materialID : Int
  offset_center : Int
  offset_up : Int
  offset_radius : Int
  offset_length : Int
  offset_frame : Int
  offset_materialID : Int
  deriving DecidableEq, Repr

/-- The message of the error raised by `finalize`. -/
def noData : String := "#ospray:geometry/extendedcones: no 'extendedcones' data specified"

/-- Member `ExtendedCones::finalize`: reads the parameters, raises when there
is no data or the stride is 0, and otherwise hands the data to the backend
with the number of cones `data->numBytes / bytesPerCone`.  The members are
declared in `ExtendedCones.h`; the stride `bytesPerCone` and the count
`numExtendedCones` are sizes, taken as `size_t`, so that the `int` parameter
is converted to `size_t` when it is stored. -/
def finalize (p : Params) : Except String GeometrySet :=
  let radius := getParam1f p.radius (1 / 100)
  let length := getParam1f p.length (1 / 100)
  let materialID := getParam1i p.materialID 0
  let bytesPerCone := Impl.toSizeT (getParam1i p.bytes_per_extended_cone (9 * sizeofFloat))
  let offset_center := getParam1i p.offset_center 0
  let offset_up := getParam1i p.offset_up (3 * sizeofFloat)
  let offset_radius := getParam1i p.offset_radius (6 * sizeofFloat)
  let offset_length := getParam1i p.offset_length (7 * sizeofFloat)
  let offset_frame := getParam1i p.offset_frame (8 * sizeofFloat)
  let offset_materialID := getParam1i p.offset_materialID (-1)
  match p.extendedcones with
  | none => .error noData
  | some data =>
    if bytesPerCone = 0 then .error noData
    else
      let numExtendedCones := data.numBytes / bytesPerCone
      .ok { data := data.data, numExtendedCones := numExtendedCones,
            bytesPerCone := bytesPerCone, radius := radius, length := length,
            materialID := materialID, offset_center := offset_center, offset_up := offset_up,
            offset_radius := offset_radius, offset_length := offset_length,
            offset_frame := offset_frame, offset_materialID := offset_materialID }

/-- The fields of one cone in the data array. -/
inductive Field where
  | center
  | up
  | radius
  | length
  | frame
  deriving DecidableEq, Repr

/-- All the fields. -/
def Field.all : List Field := [.center, .up, .radius, .length, .frame]

/-- Width of a field in bytes: centre and up are vectors of three floats,
radius, length and frame are one float each. -/
def Field.size : Field → Nat
  | .center => 3 * sizeofFloat
  | .up => 3 * sizeofFloat
  | .radius => sizeofFloat
  | .length => sizeofFloat
  | .frame => sizeofFloat

/-- Offset of a field within one cone, as handed to the backend. -/
def GeometrySet.offset (g : GeometrySet) : Field → Int
  | .center => g.offset_center
  | .up => g.offset_up
  | .radius => g.offset_radius
  | .length => g.offset_length
  | .frame => g.offset_frame

/-- Parameters with only the data array set: every other parameter takes its
default. -/
def defaults (data : Data) : Params :=
  { radius := none, length := none, materialID := none, bytes_per_extended_cone := none,
    offset_center := none, offset_up := none, offset_radius := none, offset_length := none,
    offset_frame := none, offset_materialID := none, extendedcones := some data }

/-- The field `f` lies within the stride of one cone. -/
def GeometrySet.Inside (g : GeometrySet) (f : Field) : Prop :=
  0 ≤ g.offset f ∧ g.offset f + f.size ≤ g.bytesPerCone

/-- The fields `f` and `f'` do not overlap. -/
def GeometrySet.Apart (g : GeometrySet) (f f' : Field) : Prop :=
  g.offset f + f.size ≤ g.offset f' ∨ g.offset f' + f'.size ≤ g.offset f

end ExtendedCones

/-! ## Registration of the keyboard shortcuts (lines 588 to 661) -/

/-- Modelled from the spec: `KeyboardHandler::registerKeyboardShortcut` (the
class is defined outside `Brayns.cpp`): the handler is the registry of the
bindings of a key to a description and an action, and a registration adds one
binding. -/
def KeyboardHandler.registerKeyboardShortcut (h : KeyboardHandler) (key : Char)
    (description : String) (action : ShortcutAction) : KeyboardHandler :=
  h ++ [⟨key, description, action⟩]

/-- The bindings made by `_registerKeyboardShortcuts`: key, description and
bound member function of each of the 23 calls of `registerKeyboardShortcut`,
in the order of the source. -/
def Impl.shortcuts : List KeyboardShortcut :=
  [⟨'0', "Black background", .blackBackground⟩,
   ⟨'1', "Gray background", .grayBackground⟩,
   ⟨'2', "White background", .whiteBackground⟩,
   ⟨'6', "Default renderer", .defaultRenderer⟩,
   ⟨'7', "Particle renderer", .particleRenderer⟩,
   ⟨'8', "Proximity renderer", .proximityRenderer⟩,
   ⟨'9', "Simulation renderer", .simulationRenderer⟩,
   ⟨'[', "Decrease timestamp by 1", .decreaseTimestamp⟩,
   ⟨']', "Increase timestamp by 1", .increaseTimestamp⟩,
   ⟨'e', "Enable eletron shading", .electronShading⟩,
   ⟨'f', "Enable fly mode", .flyMode⟩,
   ⟨'i', "Enable inspect mode", .inspectMode⟩,
   ⟨'o', "Decrease ambient occlusion strength", .decreaseAmbientOcclusionStrength⟩,
   ⟨'O', "Increase ambient occlusion strength", .increaseAmbientOcclusionStrength⟩,
   ⟨'p', "Enable diffuse shading", .diffuseShading⟩,
   ⟨'P', "Disable shading", .disableShading⟩,
   ⟨'r', "Set timestamp to 0", .resetTimestamp⟩,
   ⟨'R', "Set timestamp to infinity", .infiniteTimestamp⟩,
   ⟨'u', "Enable/Disable shadows", .toggleShadows⟩,
   ⟨'U', "Enable/Disable soft shadows", .toggleSoftShadows⟩,
   ⟨'t', "Multiply samples per ray by 2", .increaseSamplesPerRay⟩,
   ⟨'T', "Divide samples per ray by 2", .decreaseSamplesPerRay⟩,
   ⟨'y', "Enable/Disable light emitting materials", .toggleLightEmittingMaterials⟩]

/-- Member `_registerKeyboardShortcuts`: registers the bindings one after the
other on the keyboard handler. -/
def Impl._registerKeyboardShortcuts (i : Impl) : Impl :=
  let register := fun (h : KeyboardHandler) (b : KeyboardShortcut) =>
    h.registerKeyboardShortcut b.key b.description b.action
  { i with _keyboardHandler := Impl.shortcuts.foldl register i._keyboardHandler }

/-- The action bound to a key: the first binding of the key. -/
def KeyboardHandler.action? (h : KeyboardHandler) (key : Char) : Option ShortcutAction :=
  (h.find? (fun b => b.key == key)).map (fun b => b.action)

/-- The camera mode set by the closures bound to the keys `f` and `i` (lines
620 to 627); no other shortcut touches the manipulator. -/
def ShortcutAction.cameraMode? : ShortcutAction → Option CameraMode
  | .flyMode => some .flying
  | .inspectMode => some .inspect
  | _ => none

/-- The manipulator of the given mode bound to the camera of the engine
`camera`. -/
def AbstractManipulator.ofMode (mode : CameraMode) (camera : Nat) : AbstractManipulator :=
  match mode with
  | .flying => .FlyingModeManipulator camera
  | .inspect => .InspectCenterManipulator camera

/-- The orchestrator of the examples once the shortcuts are registered, with
the camera of its engine at position (0, 0, 5). -/
def Example.registeredState : St :=
  { impl := { Example.impl._registerKeyboardShortcuts with
      _engine := some { Example.engine 1 with camera := ⟨⟨0, 0, 5⟩, ⟨0, 0, 0⟩, ⟨0, 1, 0⟩⟩ } },
    trace := [] }

/-! ## Calls shared by the two renders -/

/-- The calls only the headless render issues: the camera-pose push and the
two buffer reads. -/
def Call.headlessOnly : Call → Bool
  | .cameraSet _ _ _ => true
  | .getColorBuffer => true
  | .getDepthBuffer => true
  | _ => false

/-- The calls of a trace, without those only the headless render issues. -/
def sharedCalls (trace : List Event) : List Call :=
  (trace.map (fun ev => ev.call)).filter (fun c => !c.headlessOnly)

/-- The orchestrator of the examples with the camera of its engine at the pose
of the example render input. -/
def Example.posedState : St :=
  { impl := { Example.impl with
      _engine := some { Example.engine 1 with camera := ⟨⟨0, 0, 5⟩, ⟨0, 0, 0⟩, ⟨0, 1, 0⟩⟩ } },
    trace := [] }

/-! ## Loaders that return, collaborators that keep the light list -/

/-- Whether a call into a loader returned, with either success flag, rather
than raised. -/
def Import.returns : Import → Bool
  | .returned _ _ => true
  | .raised _ _ => false

/-- The scene a call into a loader leaves. -/
def Import.scene : Import → Scene
  | .returned _ sc => sc
  | .raised _ sc => sc

/-- No loader raises: every call into a loader returns its success flag, true
or false. -/
structure Env.NoRaise (env : Env) : Prop where
  loadFromFile : ∀ file sc, (env.loadFromFile file sc).returns = true
  importMorphology : ∀ gp file progress sc, (env.importMorphology gp file progress sc).returns = true
  importCircuit : ∀ gp file target sc, (env.importCircuit gp file target sc).returns = true
  importCircuitReport :
    ∀ gp file target report sc, (env.importCircuitReport gp file target report sc).returns = true
  importSimulationData :
    ∀ gp file target report sc, (env.importSimulationData gp file target report sc).returns = true
  importNESTCircuit : ∀ gp circuit sc, (env.importNESTCircuit gp circuit sc).returns = true
  importSpikeReport : ∀ gp report sc, (env.importSpikeReport gp report sc).returns = true
  attachSimulationToCacheFile : ∀ gp cacheFile, env.attachSimulationToCacheFile gp cacheFile = none
  importPDBFile : ∀ gp file sc, (env.importPDBFile gp file sc).returns = true
  importFromBinaryFile : ∀ gp file sc, (env.importFromBinaryFile gp file sc).returns = true
  importMeshFromFile :
    ∀ file quality material m sc, (env.importMeshFromFile file quality material m sc).1.returns = true
  importMolecularSystem : ∀ gp m sc, (env.importMolecularSystem gp m sc).1.returns = true

/-- The loaders and the default scene leave the light list of the scene as it
is. -/
structure Env.KeepsLights (env : Env) : Prop where
  setEnvironmentMap : ∀ map sc, (env.setEnvironmentMap map sc).lights = sc.lights
  buildDefault : ∀ sc, (env.buildDefault sc).lights = sc.lights
  loadFromFile : ∀ file sc, (env.loadFromFile file sc).scene.lights = sc.lights
  importMorphology :
    ∀ gp file progress sc, (env.importMorphology gp file progress sc).scene.lights = sc.lights
  importCircuit : ∀ gp file target sc, (env.importCircuit gp file target sc).scene.lights = sc.lights
  importCircuitReport :
    ∀ gp file target report sc,
      (env.importCircuitReport gp file target report sc).scene.lights = sc.lights
  importSimulationData :
    ∀ gp file target report sc,
      (env.importSimulationData gp file target report sc).scene.lights = sc.lights
  importNESTCircuit : ∀ gp circuit sc, (env.importNESTCircuit gp circuit sc).scene.lights = sc.lights
  importSpikeReport : ∀ gp report sc, (env.importSpikeReport gp report sc).scene.lights = sc.lights
  importPDBFile : ∀ gp file sc, (env.importPDBFile gp file sc).scene.lights = sc.lights
  importFromBinaryFile :
    ∀ gp file sc, (env.importFromBinaryFile gp file sc).scene.lights = sc.lights
  importMeshFromFile :
    ∀ file quality material m sc,
      (env.importMeshFromFile file quality material m sc).1.scene.lights = sc.lights
  importMolecularSystem : ∀ gp m sc, (env.importMolecularSystem gp m sc).1.scene.lights = sc.lights

/-- The lights added by the `addLight` calls of a trace, in order. -/
def addLightCalls (tr : List Event) : List Light :=
  tr.filterMap (fun ev => match ev.call with
    | .addLight l => some l
    | _ => none)

/-- Whether a call is `addLight`. -/
def Call.isAddLight : Call → Bool
  | .addLight _ => true
  | _ => false

/-- The step `f`, run from `s` with an active engine: when it returns, the
same engine is active, the parameters are unchanged and no light was added,
and the light list is unchanged if the collaborators keep it; it returns if
no loader raises. -/
def Step.RegularAt (env : Env) (f : Step) (s : St) : Prop :=
  ∀ e, s.impl._engine = some e →
    (∀ s', f s = .ok s' →
      ∃ e', s'.impl._engine = some e' ∧ e'.id = e.id ∧
        s'.impl._parametersManager = s.impl._parametersManager ∧
        addLightCalls s'.trace = addLightCalls s.trace ∧
        (env.KeepsLights → e'.scene.lights = e.scene.lights)) ∧
    (env.NoRaise → ∃ s', f s = .ok s')

/-- The step `f` is regular from every state. -/
def Step.Regular (env : Env) (f : Step) : Prop := ∀ s, Step.RegularAt env f s

/-- The sources handed to the loader function `function` by the calls of a
trace, in order. -/
def importerCalls (function : String) (tr : List Event) : List String :=
  tr.filterMap (fun ev => match ev.call with
    | .importer f source => if f = function then some source else none
    | _ => none)

/-- The state in which `createEngine` enters `buildScene` when the factory
has returned the engine `e0`: the engine is active and the sun light has been
added to its scene. -/
def Impl.sceneConstructionEntry (env : Env) (s : St) (e0 : Engine) : St :=
  (Impl.lookupEngine env (Impl.releaseEngine env s)).advance
    { e0 with scene := e0.scene.addLight (Impl.sunLight env) } [.addLight (Impl.sunLight env)]

/-- The calls with which `buildScene` ends, followed by the installation of
the `recreate` callback that ends `createEngine`. -/
def Impl.lastCalls : List Call :=
  [.sceneCommit, .setupCameraManipulator .inspect, .setDefaultCamera, .setDefaultEpsilon,
   .engineCommit, .setRecreate]

/-- Collaborators as in the examples, with a morphology loader that raises on
every file. -/
def Example.raiseEnv : Env :=
  { Example.env with importMorphology := fun _ _ _ sc => .raised "unreadable morphology" sc }

/-- Collaborators as in the examples, with a morphology loader that reports
failure on every file by returning false, and a compartment-report loader
that returns false as well. -/
def Example.failEnv : Env :=
  { Example.env with
    importMorphology := fun _ _ _ sc => .returned false sc,
    importSimulationData := fun _ _ _ _ sc => .returned false sc }

/-- Collaborators as in the examples, with a factory whose engines come with
an empty light list. -/
def Example.freshEnv : Env :=
  { Example.env with
    factoryGet := fun name f =>
      if name = "ospray"
      then (some { Example.engine (f + 1) with scene := { Example.scene with lights := [] } }, f + 1)
      else (none, f) }

/-! ## Scene construction as a function of the parameters and the scene -/

/-- Number of primitives of a kind in a scene. -/
def Scene.geometryCount (sc : Scene) (kind : GeometryKind) : Nat :=
  (sc.primitives.filter (fun p => p.kind = kind)).length

/-- The scene of the active engine. -/
def St.scene? (s : St) : Option Scene := s.impl._engine.map (fun e => e.scene)

/-- Two states agree on what the data loading reads: the parameters, the state
of the mesh loader and the scene of the active engine. -/
def St.Agree (s s' : St) : Prop :=
  s.impl._parametersManager = s'.impl._parametersManager ∧
  s.impl._meshLoader = s'.impl._meshLoader ∧
  s.scene? = s'.scene?

/-- Two runs end alike: both return or both stop on the same fault, in states
that agree. -/
inductive Outcome.Agree : Outcome St → Outcome St → Prop where
  | ok {a b : St} : St.Agree a b → Outcome.Agree (.ok a) (.ok b)
  | fail {f : Fault} {a b : St} : St.Agree a b → Outcome.Agree (.fail f a) (.fail f b)

/-- The step `f` ends alike from states that agree. -/
def Step.Determined (f : Step) : Prop := ∀ s s', St.Agree s s' → Outcome.Agree (f s) (f s')

/-- The scene that `buildScene` leaves on the engine of `Example.loadState`:
three spheres, one from each file of the morphology folder and one from the
XYZB file. -/
def Example.builtScene : Scene :=
  { Example.scene with
    primitives := [⟨.sphere, 0⟩, ⟨.sphere, 0⟩, ⟨.sphere, 0⟩], committed := 6 }

/-- The configuration of `Example.loadState` with the scene that a first run of
`buildScene` has left on engine 1. -/
def Example.builtState : St :=
  { impl := { Example.loadState.impl with
      _engine := some { Example.engine 1 with scene := Example.builtScene } },
    trace := [] }

end Brayns

/-! # Theorems -/

namespace Brayns
open Impl

/-! ## Lemmas: steps on a state with an active engine -/

theorem St.advance_advance (s : St) (e1 e2 : Engine) (c1 c2 : List Call) (h : e2.id = e1.id) :
    (s.advance e1 c1).advance e2 c2 = s.advance e2 (c1 ++ c2) := by
  simp [St.advance, onEngineId, h]

theorem St.advance_nil (s : St) (e : Engine) (h : s.impl._engine = some e) :
    s.advance e [] = s := by
  obtain ⟨⟨fac, pm, eng, kb, cm, ml⟩, tr⟩ := s
  simp only at h
  subst h
  simp [St.advance, onEngineId]

@[simp] theorem St.advance_engine (s : St) (e : Engine) (c : List Call) :
    (s.advance e c).impl._engine = some e := rfl

@[simp] theorem St.advance_parameters (s : St) (e : Engine) (c : List Call) :
    (s.advance e c).impl._parametersManager = s.impl._parametersManager := rfl

@[simp] theorem St.advance_trace (s : St) (e : Engine) (c : List Call) :
    (s.advance e c).trace = s.trace ++ onEngineId e.id c := rfl

theorem onEngine_ok (call : Call) (f : Engine → Engine) (s : St) (e : Engine)
    (hs : s.impl._engine = some e) :
    onEngine call f s = .ok (s.advance { (f e) with id := e.id } [call]) := by
  simp [onEngine, hs, St.advance, onEngineId]

theorem onScene_ok (call : Call) (f : Scene → Scene) (s : St) (e : Engine)
    (hs : s.impl._engine = some e) :
    onScene call f s = .ok (s.advance { e with scene := f e.scene } [call]) := by
  rw [onScene, onEngine_ok _ _ s e hs]

theorem engineHook_ok (call : Call) (h : Engine → FrameBuffer × Nat) (s : St) (e : Engine)
    (hs : s.impl._engine = some e) :
    ∃ e2 : Engine, engineHook call h s = .ok (s.advance e2 [call]) ∧
      e2.id = e.id ∧ e2.scene = e.scene ∧ e2.camera = e.camera ∧
      e2.frameBuffer = (h e).1 := by
  rw [engineHook, onEngine_ok _ _ s e hs]
  exact ⟨_, rfl, rfl, rfl, rfl, rfl⟩

theorem engineCommitStep_ok (call : Call) (h : Engine → Nat) (s : St) (e : Engine)
    (hs : s.impl._engine = some e) :
    ∃ e2 : Engine, engineCommitStep call h s = .ok (s.advance e2 [call]) ∧
      e2.id = e.id ∧ e2.scene = e.scene ∧ e2.camera = e.camera ∧
      e2.frameBuffer = e.frameBuffer := by
  rw [engineCommitStep, onEngine_ok _ _ s e hs]
  exact ⟨_, rfl, rfl, rfl, rfl, rfl⟩

theorem commitAnimation_ok (env : Env) (s : St) (e : Engine) (hs : s.impl._engine = some e) :
    ∃ e2 : Engine, commitAnimation env s =
        .ok (s.advance e2 (animationCalls s.impl._parametersManager.sceneParameters.animationDelta)) ∧
      e2.id = e.id ∧ e2.scene = e.scene ∧ e2.camera = e.camera := by
  unfold commitAnimation animationCalls Step.when
  by_cases h : s.impl._parametersManager.sceneParameters.animationDelta = 0
  · simp only [h, ne_eq, not_true_eq_false, decide_False, Bool.false_eq_true, if_false]
    exact ⟨e, by rw [St.advance_nil s e hs], rfl, rfl, rfl⟩
  · simp only [h, ne_eq, not_false_eq_true, decide_True, if_true]
    obtain ⟨e2, h2, hid, hsc, hcam, -⟩ := engineHook_ok .engineCommit env.engineCommit s e hs
    exact ⟨e2, h2, hid, hsc, hcam⟩

theorem updateHeadLight_ok (env : Env) (s : St) (e : Engine) (hs : s.impl._engine = some e) :
    ∃ e2 : Engine, updateHeadLight env s =
        .ok (s.advance e2 (headLightCalls s.impl._parametersManager.renderingParameters.headLight e)) ∧
      e2.id = e.id ∧ e2.camera = e.camera ∧ e2.frameBuffer = e.frameBuffer ∧
      (s.impl._parametersManager.renderingParameters.headLight = true →
        ∀ d c i, e.scene.getLight 0 = some (.directional d c i) →
          e2.scene.getLight 0 =
            some (.directional (e.camera.target.sub e.camera.position) c i)) := by
  unfold updateHeadLight headLightCalls
  simp only [hs]
  by_cases hl : s.impl._parametersManager.renderingParameters.headLight = true
  · simp only [hl, if_true]
    cases h0 : e.scene.getLight 0 with
    | none =>
      exact ⟨e, by rw [St.advance_nil s e hs], rfl, rfl, rfl, by intro _ d c i h; cases h⟩
    | some l =>
      cases l with
      | point p c i k =>
        exact ⟨e, by rw [St.advance_nil s e hs], rfl, rfl, rfl, by intro _ d c i h; cases h⟩
      | directional d0 c0 i0 =>
        simp only [Step.seq, sceneCommitStep, onScene_ok _ _ s e hs, Outcome.bind]
        rw [onScene_ok _ _ _ _ (St.advance_engine _ _ _), St.advance_advance _ _ _ _ _ (by rfl)]
        refine ⟨_, rfl, rfl, rfl, rfl, ?_⟩
        intro _ d c i h
        injection h with h
        injection h with h1 h2 h3
        subst h2 h3
        have hlen : 0 < e.scene.lights.length := by
          simp only [Scene.getLight] at h0
          cases hl : e.scene.lights with
          | nil => rw [hl] at h0; cases h0
          | cons a t => simp
        simp [Scene.getLight, hlen]
  · simp only [hl, Bool.false_eq_true, if_false]
    exact ⟨e, by rw [St.advance_nil s e hs], rfl, rfl, rfl, by intro h; exact h.elim⟩


theorem headLightCalls_congr (hl : Bool) (e e2 : Engine) (hsc : e2.scene = e.scene)
    (hcam : e2.camera = e.camera) : headLightCalls hl e2 = headLightCalls hl e := by
  simp only [headLightCalls, hsc, hcam]

theorem selectRenderer_ok (env : Env) (s : St) (e : Engine) (hs : s.impl._engine = some e) :
    ∃ e2 : Engine, selectRenderer env s =
        .ok (s.advance e2 [.setActiveRenderer s.impl._parametersManager.renderingParameters.renderer]) ∧
      e2.id = e.id ∧ e2.scene = e.scene ∧ e2.camera = e.camera ∧
      e2.frameBuffer = e.frameBuffer := by
  unfold selectRenderer
  exact engineCommitStep_ok _ _ s e hs

theorem render_ok (env : Env) (s : St) (e : Engine) (hs : s.impl._engine = some e) :
    ∃ e2 : Engine, _render env s =
        .ok (s.advance e2
          [.setActiveRenderer s.impl._parametersManager.renderingParameters.renderer, .render]) ∧
      e2.id = e.id ∧ e2.scene = e.scene ∧ e2.camera = e.camera := by
  obtain ⟨e1, h1, hid1, hsc1, hcam1, -⟩ := selectRenderer_ok env s e hs
  obtain ⟨e2, h2, hid2, hsc2, hcam2, -⟩ :=
    engineHook_ok .render env.render
      (s.advance e1 [.setActiveRenderer s.impl._parametersManager.renderingParameters.renderer])
      e1 (St.advance_engine s e1 _)
  refine ⟨e2, ?_, hid2.trans hid1, hsc2.trans hsc1, hcam2.trans hcam1⟩
  simp only [_render, Step.seq, h1, Outcome.bind, h2]
  rw [St.advance_advance _ _ _ _ _ hid2]
  rfl

theorem extractBuffers_ok (frameSize : Vector2i)
    (renderOutput colorOutput depthOutput : RenderOutput) (s : St)
    (e : Engine) (hs : s.impl._engine = some e)
    (hc : copyColorBuffer frameSize e.frameBuffer renderOutput = some colorOutput)
    (hd : copyDepthBuffer frameSize e.frameBuffer colorOutput = some depthOutput) :
    extractBuffers frameSize renderOutput s =
      .ok (s.advance e [.getColorBuffer, .getDepthBuffer], depthOutput) := by
  obtain ⟨⟨fac, pm, eng, kb, cm, ml⟩, tr⟩ := s
  simp only at hs
  subst hs
  simp [extractBuffers, hc, hd, St.advance, onEngineId]

/-- A colour copy that throws ends the buffer extraction after the read of
the colour buffer. -/
theorem extractBuffers_color_raises (frameSize : Vector2i) (renderOutput : RenderOutput)
    (s : St) (e : Engine) (hs : s.impl._engine = some e)
    (hc : copyColorBuffer frameSize e.frameBuffer renderOutput = none) :
    extractBuffers frameSize renderOutput s =
      .fail .lengthError (s.advance e [.getColorBuffer]) := by
  obtain ⟨⟨fac, pm, eng, kb, cm, ml⟩, tr⟩ := s
  simp only at hs
  subst hs
  simp [extractBuffers, hc, St.advance, onEngineId]

/-- A depth copy that throws ends the buffer extraction after the read of the
depth buffer. -/
theorem extractBuffers_depth_raises (frameSize : Vector2i)
    (renderOutput colorOutput : RenderOutput)
    (s : St) (e : Engine) (hs : s.impl._engine = some e)
    (hc : copyColorBuffer frameSize e.frameBuffer renderOutput = some colorOutput)
    (hd : copyDepthBuffer frameSize e.frameBuffer colorOutput = none) :
    extractBuffers frameSize renderOutput s =
      .fail .lengthError (s.advance e [.getColorBuffer, .getDepthBuffer]) := by
  obtain ⟨⟨fac, pm, eng, kb, cm, ml⟩, tr⟩ := s
  simp only at hs
  subst hs
  simp [extractBuffers, hc, hd, St.advance, onEngineId]

theorem executeExtensions_swap (env : Env) (windowSize : Vector2ui) (s : St) (e e' : Engine)
    (hs : s.impl._engine = some e) (hx : (env.execute s.impl)._engine = some e')
    (hne : e'.id ≠ e.id) :
    ∃ e2 : Engine, executeExtensions env windowSize s =
        .ok ((⟨env.execute s.impl, s.trace ++ [⟨some e.id, .execute⟩]⟩ : St).advance e2
          [.reshape windowSize, .preRender]) ∧
      e2.id = e'.id ∧ e2.scene = e'.scene ∧ e2.camera = e'.camera := by
  have hne' : (env.execute s.impl).engineId ≠ some e.id := by
    simp [Impl.engineId, hx, hne]
  obtain ⟨e1, h1, hid1, hsc1, hcam1, -⟩ :=
    engineHook_ok (.reshape windowSize) (env.reshape windowSize)
      (⟨env.execute s.impl, s.trace ++ [⟨some e.id, .execute⟩]⟩ : St) e' hx
  obtain ⟨e2, h2, hid2, hsc2, hcam2, -⟩ :=
    engineHook_ok .preRender env.preRender
      ((⟨env.execute s.impl, s.trace ++ [⟨some e.id, .execute⟩]⟩ : St).advance e1
        [.reshape windowSize]) e1 (St.advance_engine _ _ _)
  refine ⟨e2, ?_, hid2.trans hid1, hsc2.trans hsc1, hcam2.trans hcam1⟩
  simp only [executeExtensions, hs, Step.when, hne', ne_eq, not_false_eq_true, decide_True,
    if_true, Step.seq, h1, Outcome.bind, h2]
  rw [St.advance_advance _ _ _ _ _ hid2]
  rfl

theorem executeExtensions_same (env : Env) (windowSize : Vector2ui) (s : St) (e e' : Engine)
    (hs : s.impl._engine = some e) (hx : (env.execute s.impl)._engine = some e')
    (hid : e'.id = e.id) :
    executeExtensions env windowSize s =
      .ok ⟨env.execute s.impl, s.trace ++ [⟨some e.id, .execute⟩]⟩ := by
  have hne' : (env.execute s.impl).engineId = some e.id := by
    simp [Impl.engineId, hx, hid]
  simp only [executeExtensions, hs, Step.when, hne', ne_eq, not_true_eq_false, decide_False,
    Bool.false_eq_true, if_false]

theorem renderPrepare_ok (env : Env) (renderInput : RenderInput) (s : St) (e : Engine)
    (hs : s.impl._engine = some e) :
    ∃ e1 : Engine, renderPrepare env renderInput s =
        .ok (s.advance e1 [.cameraSet renderInput.position renderInput.target renderInput.up,
          .reshape renderInput.windowSize, .preRender]) ∧
      e1.id = e.id ∧ e1.scene = e.scene ∧
      e1.camera = ⟨renderInput.position, renderInput.target, renderInput.up⟩ := by
  obtain ⟨e1, h1, hid1, hsc1, hcam1, -⟩ :=
    engineHook_ok (.reshape renderInput.windowSize) (env.reshape renderInput.windowSize)
      (s.advance { e with camera := e.camera.set renderInput.position renderInput.target renderInput.up }
        [.cameraSet renderInput.position renderInput.target renderInput.up]) _
      (St.advance_engine _ _ _)
  obtain ⟨e2, h2, hid2, hsc2, hcam2, -⟩ :=
    engineHook_ok .preRender env.preRender
      (s.advance e1 [.cameraSet renderInput.position renderInput.target renderInput.up,
        .reshape renderInput.windowSize]) e1 (St.advance_engine _ _ _)
  rw [St.advance_advance _ _ _ _ _ hid1] at h1
  rw [St.advance_advance _ _ _ _ _ hid2] at h2
  refine ⟨e2, ?_, (hid2.trans hid1), hsc2.trans hsc1, hcam2.trans hcam1⟩
  simp only [renderPrepare, Step.seq, onEngine_ok _ _ s e hs, Outcome.bind]
  have h1' := h1
  simp only [List.singleton_append] at h1'
  rw [h1']
  simp only [h2]
  rfl

theorem renderWindowPrepare_ok (env : Env) (windowSize : Vector2ui) (s : St) (e : Engine)
    (hs : s.impl._engine = some e) :
    ∃ e1 : Engine, renderWindowPrepare env windowSize s =
        .ok (s.advance e1 [.reshape windowSize, .preRender]) ∧
      e1.id = e.id ∧ e1.scene = e.scene ∧ e1.camera = e.camera := by
  obtain ⟨e1, h1, hid1, hsc1, hcam1, -⟩ :=
    engineHook_ok (.reshape windowSize) (env.reshape windowSize) s e hs
  obtain ⟨e2, h2, hid2, hsc2, hcam2, -⟩ :=
    engineHook_ok .preRender env.preRender (s.advance e1 [.reshape windowSize]) e1
      (St.advance_engine _ _ _)
  rw [St.advance_advance _ _ _ _ _ hid2] at h2
  refine ⟨e2, ?_, (hid2.trans hid1), hsc2.trans hsc1, hcam2.trans hcam1⟩
  simp only [renderWindowPrepare, Step.seq, h1, Outcome.bind, h2]
  rfl

/-- From a state with an active engine, the part of the interactive render
that follows the extensions returns and issues all its calls on that
engine. -/
theorem renderWindowAfterExtensions_ok (env : Env) (s : St) (e : Engine)
    (hs : s.impl._engine = some e) :
    ∃ (fin : St) (eF : Engine),
      (Step.seq (commitAnimation env)
        (Step.seq (updateHeadLight env)
        (Step.seq (engineCommitStep .cameraCommit env.cameraCommit)
        (Step.seq (_render env) (engineHook .postRender env.postRender))))) s = .ok fin ∧
      fin = s.advance eF
          (animationCalls s.impl._parametersManager.sceneParameters.animationDelta ++
            headLightCalls s.impl._parametersManager.renderingParameters.headLight e ++
            [.cameraCommit,
             .setActiveRenderer s.impl._parametersManager.renderingParameters.renderer, .render,
             .postRender]) ∧
      eF.id = e.id := by
  obtain ⟨e1, h1, hid1, hsc1, hcam1⟩ := commitAnimation_ok env s e hs
  obtain ⟨e2, h2, hid2, -, -, -⟩ :=
    updateHeadLight_ok env
      (s.advance e1 (animationCalls s.impl._parametersManager.sceneParameters.animationDelta))
      e1 (St.advance_engine _ _ _)
  simp only [St.advance_parameters] at h2
  rw [St.advance_advance _ _ _ _ _ hid2, headLightCalls_congr _ e e1 hsc1 hcam1] at h2
  obtain ⟨e3, h3, hid3, -, -, -⟩ :=
    engineCommitStep_ok .cameraCommit env.cameraCommit
      (s.advance e2 (animationCalls s.impl._parametersManager.sceneParameters.animationDelta ++
        headLightCalls s.impl._parametersManager.renderingParameters.headLight e))
      e2 (St.advance_engine _ _ _)
  rw [St.advance_advance _ _ _ _ _ hid3] at h3
  obtain ⟨e4, h4, hid4, -, -⟩ :=
    render_ok env
      (s.advance e3 (animationCalls s.impl._parametersManager.sceneParameters.animationDelta ++
        headLightCalls s.impl._parametersManager.renderingParameters.headLight e ++ [.cameraCommit]))
      e3 (St.advance_engine _ _ _)
  simp only [St.advance_parameters] at h4
  rw [St.advance_advance _ _ _ _ _ hid4] at h4
  obtain ⟨e5, h5, hid5, -, -, -⟩ :=
    engineHook_ok .postRender env.postRender
      (s.advance e4 (animationCalls s.impl._parametersManager.sceneParameters.animationDelta ++
        headLightCalls s.impl._parametersManager.renderingParameters.headLight e ++ [.cameraCommit] ++
        [.setActiveRenderer s.impl._parametersManager.renderingParameters.renderer, .render]))
      e4 (St.advance_engine _ _ _)
  rw [St.advance_advance _ _ _ _ _ hid5] at h5
  refine ⟨_, e5, ?_, rfl, hid5.trans (hid4.trans (hid3.trans (hid2.trans hid1)))⟩
  simp only [Step.seq, h1, Outcome.bind, h2, h3, h4, h5]
  simp only [List.append_assoc, List.singleton_append, List.cons_append, List.nil_append]

theorem toSizeT_wrapInt32_of_lt (n : Nat) (h : n < 2 ^ 31) : toSizeT (wrapInt32 (n : Int)) = n := by
  unfold toSizeT wrapInt32
  norm_num at h ⊢
  omega

theorem colorBufferSize_of_lt (W H C : Nat) (h1 : W * H < 2 ^ 31) (h2 : W * H * C < 2 ^ 64) :
    colorBufferSize ⟨(W : Int), (H : Int)⟩ C = W * H * C := by
  unfold colorBufferSize
  have : ((W : Int) * (H : Int)) = ((W * H : Nat) : Int) := by push_cast; rfl
  simp only [this]
  rw [toSizeT_wrapInt32_of_lt _ h1]
  exact Nat.mod_eq_of_lt h2

theorem maxSize_one : maxSize 1 = 2 ^ 63 - 1 := by
  simp [maxSize]

theorem le_maxSize_four (n : Nat) (h : n < 2 ^ 31) : n ≤ maxSize 4 := by
  have h4 : maxSize 4 = 2305843009213693951 := by norm_num [maxSize]
  rw [h4]
  norm_num at h
  omega

theorem assign_of_le {α : Type} (elementSize : Nat) (buffer : Nat → α) (size : Nat)
    (h : size ≤ maxSize elementSize) :
    assign elementSize buffer size = some ((List.range size).map buffer) := by
  simp [assign, h]

theorem assign_of_lt {α : Type} (elementSize : Nat) (buffer : Nat → α) (size : Nat)
    (h : maxSize elementSize < size) : assign elementSize buffer size = none := by
  simp [assign, Nat.not_le.mpr h]

theorem depthBufferSize_of_lt (W H : Nat) (h : W * H < 2 ^ 31) :
    depthBufferSize ⟨(W : Int), (H : Int)⟩ = W * H := by
  unfold depthBufferSize
  have : ((W : Int) * (H : Int)) = ((W * H : Nat) : Int) := by push_cast; rfl
  simp only [this]
  exact toSizeT_wrapInt32_of_lt _ h

/-- The headless render from the return of the backend render call on, when
neither copy throws. -/
theorem render_of_rendered (env : Env) (renderInput : RenderInput)
    (renderOutput colorOutput depthOutput : RenderOutput)
    (s s2 s3 : St) (e2 e3 : Engine)
    (hsetup : renderSetup env renderInput s = .ok s2) (h2 : s2.impl._engine = some e2)
    (hrender : Step.seq (updateHeadLight env) (_render env) s2 = .ok s3)
    (h3 : s3.impl._engine = some e3)
    (hc : copyColorBuffer e2.frameBuffer.size e3.frameBuffer renderOutput = some colorOutput)
    (hd : copyDepthBuffer e2.frameBuffer.size e3.frameBuffer colorOutput = some depthOutput) :
    ∃ (fin : St) (eF : Engine),
      render env renderInput renderOutput s = .ok (fin, depthOutput) ∧
      fin = s3.advance eF [.getColorBuffer, .getDepthBuffer, .postRender] ∧ eF.id = e3.id := by
  obtain ⟨eF, hF, hidF, -, -, -⟩ :=
    engineHook_ok .postRender env.postRender (s3.advance e3 [.getColorBuffer, .getDepthBuffer]) e3
      (St.advance_engine _ _ _)
  rw [St.advance_advance _ _ _ _ _ hidF] at hF
  refine ⟨_, eF, ?_, rfl, hidF⟩
  simp only [render, hsetup, Outcome.bind, renderFinish, h2, hrender,
    extractBuffers_ok _ _ _ _ s3 e3 h3 hc hd, hF]
  rfl

/-- The headless render from the return of the backend render call on,
whether or not a copy throws: the calls that follow are the first one, two or
three of the colour buffer read, the depth buffer read and postRender, on the
engine that is active then. -/
theorem render_endState (env : Env) (renderInput : RenderInput) (renderOutput : RenderOutput)
    (s s2 s3 : St) (e2 e3 : Engine)
    (hsetup : renderSetup env renderInput s = .ok s2) (h2 : s2.impl._engine = some e2)
    (hrender : Step.seq (updateHeadLight env) (_render env) s2 = .ok s3)
    (h3 : s3.impl._engine = some e3) :
    ∃ (calls : List Call) (eF : Engine),
      calls <+: [.getColorBuffer, .getDepthBuffer, .postRender] ∧
      (render env renderInput renderOutput s).endState = s3.advance eF calls ∧
      eF.id = e3.id := by
  have hr : render env renderInput renderOutput s =
      (extractBuffers e2.frameBuffer.size renderOutput s3).bind
        (fun r => (engineHook .postRender env.postRender r.1).bind (fun s4 => .ok (s4, r.2))) := by
    simp only [render, hsetup, Outcome.bind, renderFinish, h2, hrender]
  cases hc : copyColorBuffer e2.frameBuffer.size e3.frameBuffer renderOutput with
  | none =>
    refine ⟨[.getColorBuffer], e3, ⟨[.getDepthBuffer, .postRender], rfl⟩, ?_, rfl⟩
    rw [hr, extractBuffers_color_raises _ _ s3 e3 h3 hc]
    rfl
  | some colorOutput =>
    cases hd : copyDepthBuffer e2.frameBuffer.size e3.frameBuffer colorOutput with
    | none =>
      refine ⟨[.getColorBuffer, .getDepthBuffer], e3, ⟨[.postRender], rfl⟩, ?_, rfl⟩
      rw [hr, extractBuffers_depth_raises _ _ _ s3 e3 h3 hc hd]
      rfl
    | some depthOutput =>
      obtain ⟨fin, eF, h, hfin, hid⟩ :=
        render_of_rendered env renderInput renderOutput colorOutput depthOutput s s2 s3 e2 e3
          hsetup h2 hrender h3 hc hd
      refine ⟨[.getColorBuffer, .getDepthBuffer, .postRender], eF, List.prefix_refl _, ?_, hid⟩
      rw [h, hfin]
      rfl

/-- Counterexample to C2 as stated: with a frame buffer of 65536 by 65536
pixels at four bytes per pixel and a non-null colour buffer, the `int`
product of the sizes wraps to 0 and the colour buffer returned is empty, not
of length 65536 × 65536 × 4. -/
theorem render_colorBuffer_length_counterexample :
    (((renderSetup Example.env Example.hugeInput Example.state).value?.bind St.frameBuffer?).map
        (fun fb => fb.size) = some ⟨65536, 65536⟩) ∧
    ((((renderSetup Example.env Example.hugeInput Example.state).bind
          (Step.seq (updateHeadLight Example.env) (_render Example.env))).value?.bind
          St.frameBuffer?).map (fun fb => (fb.colorDepth, fb.colorBuffer.isSome)) = some (4, true)) ∧
    ((render Example.env Example.hugeInput Example.renderOutput Example.state).value?.map
        (fun r => r.2.colorBuffer.length) = some 0) ∧
    (0 : Nat) ≠ 65536 * 65536 * 4 := by
  refine ⟨by rfl, by rfl, by rfl, by norm_num⟩

theorem Step.seq_assoc (f g h : Step) (s : St) :
    Step.seq f (Step.seq g h) s = Step.seq (Step.seq f g) h s := by
  simp only [Step.seq, Outcome.bind]
  cases f s <;> rfl

theorem Step.seq_ok {f g : Step} {s s1 s2 : St} (h1 : f s = .ok s1) (h2 : g s1 = .ok s2) :
    Step.seq f g s = .ok s2 := by
  simp only [Step.seq, h1, Outcome.bind, h2]

/-- The head-light block on a state whose head-light mode is on and whose
light 0 is directional. -/
theorem updateHeadLight_directional (env : Env) (s : St) (e : Engine) (d0 c : Vector3f) (i : ℚ)
    (hs : s.impl._engine = some e)
    (hl : s.impl._parametersManager.renderingParameters.headLight = true)
    (h0 : e.scene.getLight 0 = some (.directional d0 c i)) :
    ∃ e2 : Engine, updateHeadLight env s =
        .ok (s.advance e2 [.setDirection (e.camera.target.sub e.camera.position), .commitLights]) ∧
      e2.id = e.id ∧ e2.camera = e.camera ∧
      e2.scene.getLight 0 = some (.directional (e.camera.target.sub e.camera.position) c i) := by
  obtain ⟨e2, h, hid, hcam, -, hdir⟩ := updateHeadLight_ok env s e hs
  refine ⟨e2, ?_, hid, hcam, hdir hl d0 c i h0⟩
  rw [h]
  simp [headLightCalls, hl, h0]

/-- From a state with an active engine, the animation commit and the camera
commit return and leave identity, scene and camera of the engine as they
are. -/
theorem setupTail_ok (env : Env) (s : St) (e : Engine) (hs : s.impl._engine = some e) :
    ∃ (s2 : St) (e2 : Engine),
      Step.seq (commitAnimation env) (engineCommitStep .cameraCommit env.cameraCommit) s
        = .ok s2 ∧
      s2.impl._engine = some e2 ∧ e2.id = e.id ∧ e2.scene = e.scene ∧ e2.camera = e.camera ∧
      s2.impl._parametersManager = s.impl._parametersManager ∧
      s2.trace = s.trace ++ onEngineId e.id
        (animationCalls s.impl._parametersManager.sceneParameters.animationDelta ++
          [.cameraCommit]) := by
  obtain ⟨e1, h1, hid1, hsc1, hcam1⟩ := commitAnimation_ok env s e hs
  obtain ⟨e2, h2, hid2, hsc2, hcam2, -⟩ :=
    engineCommitStep_ok .cameraCommit env.cameraCommit
      (s.advance e1 (animationCalls s.impl._parametersManager.sceneParameters.animationDelta))
      e1 (St.advance_engine _ _ _)
  rw [St.advance_advance _ _ _ _ _ hid2] at h2
  refine ⟨_, e2, Step.seq_ok h1 h2, St.advance_engine _ _ _, hid2.trans hid1, hsc2.trans hsc1,
    hcam2.trans hcam1, rfl, ?_⟩
  rw [St.advance_trace, hid2, hid1]

/-- The three facts behind C4: the head-light block of the headless render,
that of the interactive render, and the camera of a headless render whose
extensions neither replace the engine nor move its camera. -/
theorem headLight_direction_parts (env : Env) :
    (∀ (renderInput : RenderInput) (s s2 : St) (e2 : Engine) (d0 c : Vector3f) (i : ℚ),
      renderSetup env renderInput s = .ok s2 → s2.impl._engine = some e2 →
      s2.impl._parametersManager.renderingParameters.headLight = true →
      e2.scene.getLight 0 = some (.directional d0 c i) →
      ∃ (sR : St) (eR : Engine),
        Step.seq (updateHeadLight env) (selectRenderer env) s2 = .ok sR ∧
        Step.seq (updateHeadLight env) (_render env) s2 = engineHook .render env.render sR ∧
        sR.impl._engine = some eR ∧ eR.id = e2.id ∧ eR.camera = e2.camera ∧
        eR.scene.getLight 0 =
          some (.directional (eR.camera.target.sub eR.camera.position) c i) ∧
        sR.trace = s2.trace ++ onEngineId e2.id
          [.setDirection (eR.camera.target.sub eR.camera.position), .commitLights,
           .setActiveRenderer s2.impl._parametersManager.renderingParameters.renderer]) ∧
    (∀ (windowSize : Vector2ui) (s s2 : St) (e2 : Engine) (d0 c : Vector3f) (i : ℚ),
      renderWindowSetup env windowSize s = .ok s2 → s2.impl._engine = some e2 →
      s2.impl._parametersManager.renderingParameters.headLight = true →
      e2.scene.getLight 0 = some (.directional d0 c i) →
      ∃ (sR : St) (eR : Engine),
        Step.seq (updateHeadLight env)
          (Step.seq (engineCommitStep .cameraCommit env.cameraCommit) (selectRenderer env)) s2
          = .ok sR ∧
        Step.seq (updateHeadLight env)
          (Step.seq (engineCommitStep .cameraCommit env.cameraCommit)
          (Step.seq (_render env) (engineHook .postRender env.postRender))) s2 =
          Step.seq (engineHook .render env.render) (engineHook .postRender env.postRender) sR ∧
        sR.impl._engine = some eR ∧ eR.id = e2.id ∧ eR.camera = e2.camera ∧
        eR.scene.getLight 0 =
          some (.directional (eR.camera.target.sub eR.camera.position) c i) ∧
        sR.trace = s2.trace ++ onEngineId e2.id
          [.setDirection (eR.camera.target.sub eR.camera.position), .commitLights, .cameraCommit,
           .setActiveRenderer s2.impl._parametersManager.renderingParameters.renderer]) ∧
    (∀ (renderInput : RenderInput) (s s1 : St) (e1 ex : Engine),
      renderPrepare env renderInput s = .ok s1 → s1.impl._engine = some e1 →
      (env.execute s1.impl)._engine = some ex → ex.id = e1.id → ex.camera = e1.camera →
      ∃ (s2 : St) (e2 : Engine),
        renderSetup env renderInput s = .ok s2 ∧ s2.impl._engine = some e2 ∧
        e2.scene = ex.scene ∧
        s2.impl._parametersManager = (env.execute s1.impl)._parametersManager ∧
        e2.camera.target.sub e2.camera.position =
          renderInput.target.sub renderInput.position) := by
  refine ⟨?_, ?_, ?_⟩
  · intro renderInput s s2 e2 d0 c i _ h2 hl h0
    obtain ⟨e3, h3, hid3, hcam3, hdir3⟩ := updateHeadLight_directional env s2 e2 d0 c i h2 hl h0
    obtain ⟨e4, h4, hid4, hsc4, hcam4, -⟩ :=
      selectRenderer_ok env
        (s2.advance e3 [.setDirection (e2.camera.target.sub e2.camera.position), .commitLights])
        e3 (St.advance_engine _ _ _)
    rw [St.advance_advance _ _ _ _ _ hid4] at h4
    simp only [St.advance_parameters] at h4
    have hsel : Step.seq (updateHeadLight env) (selectRenderer env) s2 =
        .ok (s2.advance e4
          ([.setDirection (e2.camera.target.sub e2.camera.position), .commitLights] ++
            [.setActiveRenderer s2.impl._parametersManager.renderingParameters.renderer])) := by
      simp only [Step.seq, h3, Outcome.bind]
      exact h4
    refine ⟨_, e4, hsel, ?_, St.advance_engine _ _ _, hid4.trans hid3, hcam4.trans hcam3, ?_, ?_⟩
    · rw [_render, Step.seq_assoc]
      simp only [Step.seq, Outcome.bind] at hsel ⊢
      rw [hsel]
    · rw [hsc4, hcam4, hcam3]
      exact hdir3
    · simp [St.advance_trace, hid4, hid3, hcam4, hcam3]
  · intro windowSize s s2 e2 d0 c i _ h2 hl h0
    obtain ⟨e3, h3, hid3, hcam3, hdir3⟩ := updateHeadLight_directional env s2 e2 d0 c i h2 hl h0
    obtain ⟨e4, h4, hid4, hsc4, hcam4, -⟩ :=
      engineCommitStep_ok .cameraCommit env.cameraCommit
        (s2.advance e3 [.setDirection (e2.camera.target.sub e2.camera.position), .commitLights])
        e3 (St.advance_engine _ _ _)
    rw [St.advance_advance _ _ _ _ _ hid4] at h4
    obtain ⟨e5, h5, hid5, hsc5, hcam5, -⟩ :=
      selectRenderer_ok env
        (s2.advance e4 ([.setDirection (e2.camera.target.sub e2.camera.position), .commitLights] ++
          [.cameraCommit]))
        e4 (St.advance_engine _ _ _)
    rw [St.advance_advance _ _ _ _ _ hid5] at h5
    simp only [St.advance_parameters] at h5
    have hsel : Step.seq (updateHeadLight env)
        (Step.seq (engineCommitStep .cameraCommit env.cameraCommit) (selectRenderer env)) s2
        = .ok (s2.advance e5
          ([.setDirection (e2.camera.target.sub e2.camera.position), .commitLights] ++
            [.cameraCommit] ++
            [.setActiveRenderer s2.impl._parametersManager.renderingParameters.renderer])) := by
      simp only [Step.seq, h3, Outcome.bind, h4]
      exact h5
    refine ⟨_, e5, hsel, ?_, St.advance_engine _ _ _, hid5.trans (hid4.trans hid3),
      hcam5.trans (hcam4.trans hcam3), ?_, ?_⟩
    · simp only [_render, Step.seq, h3, Outcome.bind, h4, h5]
    · rw [hsc5, hcam5, hsc4, hcam4, hcam3]
      exact hdir3
    · simp [St.advance_trace, hid5, hid4, hid3, hcam5, hcam4, hcam3]
  · intro renderInput s s1 e1 ex hprep h1 hx hid hcam
    have hcam1 : e1.camera = ⟨renderInput.position, renderInput.target, renderInput.up⟩ := by
      cases h : s.impl._engine with
      | none => simp [renderPrepare, Step.seq, onEngine, h, Outcome.bind] at hprep
      | some e =>
        obtain ⟨e1', hp, -, -, hc⟩ := renderPrepare_ok env renderInput s e h
        rw [hp] at hprep
        injection hprep with hprep
        subst hprep
        simp only [St.advance_engine, Option.some.injEq] at h1
        subst h1
        exact hc
    have hext := executeExtensions_same env renderInput.windowSize s1 e1 ex h1 hx hid
    obtain ⟨s2, e2, h2, he2, -, hsc2, hcam2, hpm2, -⟩ :=
      setupTail_ok env ⟨env.execute s1.impl, s1.trace ++ [⟨some e1.id, .execute⟩]⟩ ex hx
    refine ⟨s2, e2, ?_, he2, hsc2, hpm2, ?_⟩
    · simp only [renderSetup, Step.seq, hprep, Outcome.bind, hext]
      simp only [Step.seq, Outcome.bind] at h2
      exact h2
    · rw [hcam2, hcam, hcam1]


/-- Claim C4, amended: in a frame rendered with head-light mode on and a
directional light at index 0 of the scene of the active engine, the state `sR`
on which the backend render call is issued has, as direction of light 0, the
target minus the position of the camera of the active engine (not
normalised), and the calls issued since the head-light block are the direction
setter, the light commit, (interactive: the camera commit,) and the renderer
selection: the lights are committed after the direction is set.  Third part:
in a headless render in which the extensions neither replace the engine
(`ex.id = e1.id`) nor move its camera (`ex.camera = e1.camera`), that
direction is `renderInput.target - renderInput.position`. -/
theorem headLight_direction_at_render (env : Env) :
    (∀ (renderInput : RenderInput) (s s2 : St) (e2 : Engine) (d0 c : Vector3f) (i : ℚ),
      renderSetup env renderInput s = .ok s2 → s2.impl._engine = some e2 →
      s2.impl._parametersManager.renderingParameters.headLight = true →
      e2.scene.getLight 0 = some (.directional d0 c i) →
      ∃ (sR : St) (eR : Engine),
        Step.seq (updateHeadLight env) (selectRenderer env) s2 = .ok sR ∧
        Step.seq (updateHeadLight env) (_render env) s2 = engineHook .render env.render sR ∧
        sR.impl._engine = some eR ∧ eR.id = e2.id ∧ eR.camera = e2.camera ∧
        eR.scene.getLight 0 =
          some (.directional (eR.camera.target.sub eR.camera.position) c i) ∧
        sR.trace = s2.trace ++ onEngineId e2.id
          [.setDirection (eR.camera.target.sub eR.camera.position), .commitLights,
           .setActiveRenderer s2.impl._parametersManager.renderingParameters.renderer]) ∧
    (∀ (windowSize : Vector2ui) (s s2 : St) (e2 : Engine) (d0 c : Vector3f) (i : ℚ),
      renderWindowSetup env windowSize s = .ok s2 → s2.impl._engine = some e2 →
      s2.impl._parametersManager.renderingParameters.headLight = true →
      e2.scene.getLight 0 = some (.directional d0 c i) →
      ∃ (sR : St) (eR : Engine),
        Step.seq (updateHeadLight env)
          (Step.seq (engineCommitStep .cameraCommit env.cameraCommit) (selectRenderer env)) s2
          = .ok sR ∧
        Step.seq (updateHeadLight env)
          (Step.seq (engineCommitStep .cameraCommit env.cameraCommit)
          (Step.seq (_render env) (engineHook .postRender env.postRender))) s2 =
          Step.seq (engineHook .render env.render) (engineHook .postRender env.postRender) sR ∧
        sR.impl._engine = some eR ∧ eR.id = e2.id ∧ eR.camera = e2.camera ∧
        eR.scene.getLight 0 =
          some (.directional (eR.camera.target.sub eR.camera.position) c i) ∧
        sR.trace = s2.trace ++ onEngineId e2.id
          [.setDirection (eR.camera.target.sub eR.camera.position), .commitLights, .cameraCommit,
           .setActiveRenderer s2.impl._parametersManager.renderingParameters.renderer]) ∧
    (∀ (renderInput : RenderInput) (s s1 : St) (e1 ex : Engine) (d0 c : Vector3f) (i : ℚ),
      renderPrepare env renderInput s = .ok s1 → s1.impl._engine = some e1 →
      (env.execute s1.impl)._engine = some ex → ex.id = e1.id → ex.camera = e1.camera →
      (env.execute s1.impl)._parametersManager.renderingParameters.headLight = true →
      ex.scene.getLight 0 = some (.directional d0 c i) →
      ∃ (s2 sR : St) (eR : Engine),
        renderSetup env renderInput s = .ok s2 ∧
        Step.seq (updateHeadLight env) (selectRenderer env) s2 = .ok sR ∧
        Step.seq (updateHeadLight env) (_render env) s2 = engineHook .render env.render sR ∧
        sR.impl._engine = some eR ∧
        eR.scene.getLight 0 =
          some (.directional (renderInput.target.sub renderInput.position) c i)) := by
  obtain ⟨h1, h2, h3⟩ := headLight_direction_parts env
  refine ⟨h1, h2, ?_⟩
  intro renderInput s s1 e1 ex d0 c i hprep he1 hx hid hcam hl h0
  obtain ⟨s2, e2, hs2, he2, hsc, hpm, hdir⟩ := h3 renderInput s s1 e1 ex hprep he1 hx hid hcam
  obtain ⟨sR, eR, hsel, hren, heR, -, hcamR, hlight, -⟩ :=
    h1 renderInput s s2 e2 d0 c i hs2 he2 (by rw [hpm]; exact hl) (by rw [hsc]; exact h0)
  refine ⟨s2, sR, eR, hs2, hsel, hren, heR, ?_⟩
  rw [hlight, hcamR, hdir]

/-- Witness of C4: with the camera at (0, 0, 5) looking at the origin, light
0 points along (0, 0, -5) when the render call is issued. -/
theorem headLight_direction_at_render_witness :
    (∃ (sR : St) (eR : Engine),
      Step.seq (updateHeadLight Example.env) (selectRenderer Example.env)
        (renderSetup Example.env Example.renderInput Example.state).state = .ok sR ∧
      sR.impl._engine = some eR ∧
      eR.scene.getLight 0 = some (.directional ⟨0, 0, -5⟩ ⟨1, 1, 1⟩ 1)) ∧
    (∃ (sR : St) (eR : Engine),
      Step.seq (updateHeadLight Example.env)
        (Step.seq (engineCommitStep .cameraCommit Example.env.cameraCommit)
          (selectRenderer Example.env))
        (renderWindowSetup Example.env ⟨2, 1⟩ Example.state).state = .ok sR ∧
      sR.impl._engine = some eR ∧
      eR.scene.getLight 0 = some (.directional ⟨0, 0, 0⟩ ⟨1, 1, 1⟩ 1)) ∧
    (∃ (s2 sR : St) (eR : Engine),
      renderSetup Example.env Example.renderInput Example.state = .ok s2 ∧
      Step.seq (updateHeadLight Example.env) (selectRenderer Example.env) s2 = .ok sR ∧
      sR.impl._engine = some eR ∧
      eR.scene.getLight 0 = some (.directional
        (Example.renderInput.target.sub Example.renderInput.position) ⟨1, 1, 1⟩ 1)) := by
  refine ⟨?_, ?_, ?_⟩
  · obtain ⟨sR, eR, h1, -, h2, -, hc, h3, -⟩ :=
      (headLight_direction_at_render Example.env).1 Example.renderInput Example.state
        (renderSetup Example.env Example.renderInput Example.state).state
        { (Example.engine 1) with
          camera := ⟨⟨0, 0, 5⟩, ⟨0, 0, 0⟩, ⟨0, 1, 0⟩⟩,
          frameBuffer := { Example.frameBuffer with size := ⟨2, 1⟩ } }
        ⟨0, 0, -1⟩ ⟨1, 1, 1⟩ 1 rfl rfl rfl rfl
    refine ⟨sR, eR, h1, h2, ?_⟩
    rw [h3, hc]
    simp [Vector3f.sub]
  · obtain ⟨sR, eR, h1, -, h2, -, hc, h3, -⟩ :=
      (headLight_direction_at_render Example.env).2.1 ⟨2, 1⟩ Example.state
        (renderWindowSetup Example.env ⟨2, 1⟩ Example.state).state
        { (Example.engine 1) with frameBuffer := { Example.frameBuffer with size := ⟨2, 1⟩ } }
        ⟨0, 0, -1⟩ ⟨1, 1, 1⟩ 1 rfl rfl rfl rfl
    refine ⟨sR, eR, h1, h2, ?_⟩
    rw [h3, hc]
    simp [Vector3f.sub, Example.engine]
  · obtain ⟨s2, sR, eR, h1, h2, -, h3, h4⟩ :=
      (headLight_direction_at_render Example.env).2.2 Example.renderInput Example.state
        (renderPrepare Example.env Example.renderInput Example.state).state
        { (Example.engine 1) with
          camera := ⟨⟨0, 0, 5⟩, ⟨0, 0, 0⟩, ⟨0, 1, 0⟩⟩,
          frameBuffer := { Example.frameBuffer with size := ⟨2, 1⟩ } }
        { (Example.engine 1) with
          camera := ⟨⟨0, 0, 5⟩, ⟨0, 0, 0⟩, ⟨0, 1, 0⟩⟩,
          frameBuffer := { Example.frameBuffer with size := ⟨2, 1⟩ } }
        ⟨0, 0, -1⟩ ⟨1, 1, 1⟩ 1 rfl rfl rfl rfl rfl rfl rfl
    exact ⟨s2, sR, eR, h1, h2, h3, h4⟩

/-- Counterexample to C4 as stated: a headless render with head light on and
a directional light at index 0, in which the extensions do not replace the
engine (the engine reference is the same before and after, no reshape or
preRender is re-issued) but move its camera to position (1, 1, 1), looking at
the origin.  When the render call is issued the direction of light 0 is
(0, 0, 0) - (1, 1, 1), target minus position of the camera of the engine, and
not `renderInput.target - renderInput.position`, which is (0, 0, 0) -
(0, 0, 5). -/
theorem headLight_direction_at_render_counterexample :
    ∃ (s1 s2 sR : St),
      renderPrepare Example.moveEnv Example.renderInput Example.state = .ok s1 ∧
      (Example.moveEnv.execute s1.impl).engineId = s1.impl.engineId ∧
      renderSetup Example.moveEnv Example.renderInput Example.state = .ok s2 ∧
      s2.trace = onEngineId 1 [.cameraSet ⟨0, 0, 5⟩ ⟨0, 0, 0⟩ ⟨0, 1, 0⟩, .reshape ⟨2, 1⟩,
        .preRender, .execute, .cameraCommit] ∧
      s2.impl._parametersManager.renderingParameters.headLight = true ∧
      s2.impl._engine.bind (fun e => e.scene.getLight 0) =
        some (.directional ⟨0, 0, -1⟩ ⟨1, 1, 1⟩ 1) ∧
      Step.seq (updateHeadLight Example.moveEnv) (selectRenderer Example.moveEnv) s2 = .ok sR ∧
      Step.seq (updateHeadLight Example.moveEnv) (_render Example.moveEnv) s2 =
        engineHook .render Example.moveEnv.render sR ∧
      sR.impl._engine.bind (fun e => e.scene.getLight 0) =
        some (.directional (Vector3f.sub ⟨0, 0, 0⟩ ⟨1, 1, 1⟩) ⟨1, 1, 1⟩ 1) ∧
      Vector3f.sub ⟨0, 0, 0⟩ ⟨1, 1, 1⟩ ≠
        Example.renderInput.target.sub Example.renderInput.position := by
  refine ⟨(renderPrepare Example.moveEnv Example.renderInput Example.state).state,
    (renderSetup Example.moveEnv Example.renderInput Example.state).state,
    (Step.seq (updateHeadLight Example.moveEnv) (selectRenderer Example.moveEnv)
      (renderSetup Example.moveEnv Example.renderInput Example.state).state).state,
    by rfl, by rfl, by rfl, by rfl, by rfl, by rfl, by rfl, by rfl, by rfl, ?_⟩
  intro h
  have h3 := congrArg Vector3f.z h
  exact absurd h3 (by
    show (0 : ℚ) - 1 ≠ 0 - 5
    norm_num)

/-! ## Buffers of the headless render -/

theorem renderPrepare_eq_ok (env : Env) (renderInput : RenderInput) (s s1 : St)
    (hprep : renderPrepare env renderInput s = .ok s1) :
    ∃ e1 : Engine, s1.impl._engine = some e1 := by
  cases h : s.impl._engine with
  | none => simp [renderPrepare, Step.seq, onEngine, h, Outcome.bind] at hprep
  | some e =>
    obtain ⟨e1, hp, -, -, -⟩ := renderPrepare_ok env renderInput s e h
    rw [hp] at hprep
    injection hprep with hprep
    subst hprep
    exact ⟨e1, rfl⟩

theorem executeExtensions_some (env : Env) (windowSize : Vector2ui) (s : St) (e ex : Engine)
    (hs : s.impl._engine = some e) (hx : (env.execute s.impl)._engine = some ex) :
    ∃ (s2 : St) (e2 : Engine), executeExtensions env windowSize s = .ok s2 ∧
      s2.impl._engine = some e2 ∧
      s2.impl._parametersManager = (env.execute s.impl)._parametersManager := by
  by_cases hid : ex.id = e.id
  · exact ⟨_, ex, executeExtensions_same env windowSize s e ex hs hx hid, hx, rfl⟩
  · obtain ⟨e2, h2, -, -, -⟩ := executeExtensions_swap env windowSize s e ex hs hx hid
    exact ⟨_, e2, h2, St.advance_engine _ _ _, rfl⟩

/-- The first half of the headless render returns when an engine is active at
entry and after the extension run. -/
theorem renderSetup_returns (env : Env) (renderInput : RenderInput) (s s1 : St) (ex : Engine)
    (hprep : renderPrepare env renderInput s = .ok s1)
    (hx : (env.execute s1.impl)._engine = some ex) :
    ∃ (s2 : St) (e2 : Engine), renderSetup env renderInput s = .ok s2 ∧
      s2.impl._engine = some e2 := by
  obtain ⟨e1, he1⟩ := renderPrepare_eq_ok env renderInput s s1 hprep
  obtain ⟨sx, e2, hext, hsx, -⟩ :=
    executeExtensions_some env renderInput.windowSize s1 e1 ex he1 hx
  obtain ⟨s2, e3, h2, he3, -⟩ := setupTail_ok env sx e2 hsx
  exact ⟨s2, e3, Step.seq_ok hprep (Step.seq_ok hext h2), he3⟩

/-- From a state with an active engine the head-light block and `_render`
return. -/
theorem renderCall_returns (env : Env) (s : St) (e : Engine) (hs : s.impl._engine = some e) :
    ∃ (s3 : St) (e3 : Engine),
      Step.seq (updateHeadLight env) (_render env) s = .ok s3 ∧ s3.impl._engine = some e3 := by
  obtain ⟨e1, h1, -⟩ := updateHeadLight_ok env s e hs
  obtain ⟨e2, h2, -⟩ :=
    render_ok env (s.advance e1 (headLightCalls s.impl._parametersManager.renderingParameters.headLight e))
      e1 (St.advance_engine _ _ _)
  exact ⟨_, e2, Step.seq_ok h1 h2, St.advance_engine _ _ _⟩

/-- From a state with an active engine the head-light block and `_render`
return, on that engine, with the calls of the head-light block, the renderer
selection and the render call. -/
theorem renderCall_ok (env : Env) (s : St) (e : Engine) (hs : s.impl._engine = some e) :
    ∃ (s3 : St) (e3 : Engine),
      Step.seq (updateHeadLight env) (_render env) s = .ok s3 ∧ s3.impl._engine = some e3 ∧
      e3.id = e.id ∧
      s3.trace = s.trace ++ onEngineId e.id
        (headLightCalls s.impl._parametersManager.renderingParameters.headLight e ++
          [.setActiveRenderer s.impl._parametersManager.renderingParameters.renderer,
           .render]) := by
  obtain ⟨e1, h1, hid1, -⟩ := updateHeadLight_ok env s e hs
  obtain ⟨e2, h2, hid2, -⟩ :=
    render_ok env (s.advance e1 (headLightCalls s.impl._parametersManager.renderingParameters.headLight e))
      e1 (St.advance_engine _ _ _)
  simp only [St.advance_parameters] at h2
  rw [St.advance_advance _ _ _ _ _ hid2] at h2
  refine ⟨_, e2, Step.seq_ok h1 h2, St.advance_engine _ _ _, hid2.trans hid1, ?_⟩
  rw [St.advance_trace, hid2, hid1]

theorem copyColorBuffer_null (frameSize : Vector2i) (fb : FrameBuffer) (out : RenderOutput)
    (h : fb.colorBuffer = none) : copyColorBuffer frameSize fb out = some out := by
  simp [copyColorBuffer, h]

theorem copyDepthBuffer_null (frameSize : Vector2i) (fb : FrameBuffer) (out : RenderOutput)
    (h : fb.depthBuffer = none) : copyDepthBuffer frameSize fb out = some out := by
  simp [copyDepthBuffer, h]

theorem copyColorBuffer_of_lt (W H : Nat) (fb : FrameBuffer) (out : RenderOutput)
    (buf : Nat → Nat) (hbuf : fb.colorBuffer = some buf)
    (h1 : W * H < 2 ^ 31) (h2 : W * H * fb.colorDepth < 2 ^ 63) :
    copyColorBuffer ⟨(W : Int), (H : Int)⟩ fb out =
      some { out with colorBuffer := (List.range (W * H * fb.colorDepth)).map buf,
                      colorBufferFormat := fb.frameBufferFormat } := by
  have h64 : W * H * fb.colorDepth < 2 ^ 64 := lt_trans h2 (by norm_num)
  have hle : W * H * fb.colorDepth ≤ maxSize 1 := by
    rw [maxSize_one]
    norm_num at h2 ⊢
    omega
  simp only [copyColorBuffer, hbuf, colorBufferSize_of_lt W H _ h1 h64,
    assign_of_le 1 buf _ hle, Option.map_some']

theorem copyDepthBuffer_of_lt (W H : Nat) (fb : FrameBuffer) (out : RenderOutput)
    (buf : Nat → ℚ) (hbuf : fb.depthBuffer = some buf) (h1 : W * H < 2 ^ 31) :
    copyDepthBuffer ⟨(W : Int), (H : Int)⟩ fb out =
      some { out with depthBuffer := (List.range (W * H)).map buf } := by
  simp only [copyDepthBuffer, hbuf, depthBufferSize_of_lt W H h1,
    assign_of_le 4 buf _ (le_maxSize_four _ h1), Option.map_some']

/-- Within the bounds neither copy throws; a non-null buffer is copied out
element by element, a null one leaves the output as it is. -/
theorem copyBuffers_of_lt (W H : Nat) (fb : FrameBuffer) (out : RenderOutput)
    (h1 : W * H < 2 ^ 31) (h2 : W * H * fb.colorDepth < 2 ^ 63) :
    ∃ colorOutput depthOutput : RenderOutput,
      copyColorBuffer ⟨(W : Int), (H : Int)⟩ fb out = some colorOutput ∧
      copyDepthBuffer ⟨(W : Int), (H : Int)⟩ fb colorOutput = some depthOutput ∧
      (∀ buf, fb.colorBuffer = some buf →
        depthOutput.colorBuffer = (List.range (W * H * fb.colorDepth)).map buf ∧
        depthOutput.colorBufferFormat = fb.frameBufferFormat) ∧
      (fb.colorBuffer = none →
        depthOutput.colorBuffer = out.colorBuffer ∧
        depthOutput.colorBufferFormat = out.colorBufferFormat) ∧
      (∀ buf, fb.depthBuffer = some buf →
        depthOutput.depthBuffer = (List.range (W * H)).map buf) ∧
      (fb.depthBuffer = none → depthOutput.depthBuffer = out.depthBuffer) := by
  cases hcb : fb.colorBuffer with
  | none =>
    cases hdb : fb.depthBuffer with
    | none =>
      refine ⟨out, out, copyColorBuffer_null _ _ _ hcb, copyDepthBuffer_null _ _ _ hdb,
        ?_, fun _ => ⟨rfl, rfl⟩, ?_, fun _ => rfl⟩
      · intro buf h; cases h
      · intro buf h; cases h
    | some dbuf =>
      refine ⟨out, _, copyColorBuffer_null _ _ _ hcb, copyDepthBuffer_of_lt W H fb out dbuf hdb h1,
        ?_, fun _ => ⟨rfl, rfl⟩, ?_, ?_⟩
      · intro buf h; cases h
      · intro buf h; cases h; rfl
      · intro h; cases h
  | some cbuf =>
    cases hdb : fb.depthBuffer with
    | none =>
      refine ⟨_, _, copyColorBuffer_of_lt W H fb out cbuf hcb h1 h2,
        copyDepthBuffer_null _ _ _ hdb, ?_, ?_, ?_, fun _ => rfl⟩
      · intro buf h; cases h; exact ⟨rfl, rfl⟩
      · intro h; cases h
      · intro buf h; cases h
    | some dbuf =>
      refine ⟨_, _, copyColorBuffer_of_lt W H fb out cbuf hcb h1 h2,
        copyDepthBuffer_of_lt W H fb _ dbuf hdb h1, ?_, ?_, ?_, ?_⟩
      · intro buf h; cases h; exact ⟨rfl, rfl⟩
      · intro h; cases h
      · intro buf h; cases h; rfl
      · intro h; cases h

/-- Claim C2, amended: in a headless render entered with an active engine,
and with an engine active after the extension run, the setup and the backend
render call return.  If the frame buffer has size W×H when the frame size is
read (engine `e2`, after reshape, extensions and camera commit), declares
colour depth C and has a non-null colour buffer when the render call has
returned (engine `e3`), and W×H is below 2^31 and W×H×C below 2^63, then the
render returns, the colour buffer of the render output holds the first W×H×C
bytes of the colour buffer of the frame buffer, so that its length is exactly
W×H×C, and its format tag is the declared format of the frame buffer. -/
theorem render_colorBuffer_length (env : Env) (renderInput : RenderInput)
    (renderOutput : RenderOutput) (s s1 : St) (ex : Engine)
    (hprep : renderPrepare env renderInput s = .ok s1)
    (hx : (env.execute s1.impl)._engine = some ex) :
    ∃ (s2 s3 : St) (e2 e3 : Engine),
      renderSetup env renderInput s = .ok s2 ∧ s2.impl._engine = some e2 ∧
      Step.seq (updateHeadLight env) (_render env) s2 = .ok s3 ∧ s3.impl._engine = some e3 ∧
      ∀ (W H C : Nat) (colorBuffer : Nat → Nat),
        e2.frameBuffer.size = ⟨(W : Int), (H : Int)⟩ →
        e3.frameBuffer.colorDepth = C →
        e3.frameBuffer.colorBuffer = some colorBuffer →
        W * H < 2 ^ 31 → W * H * C < 2 ^ 63 →
        ∃ (fin : St) (out : RenderOutput),
          render env renderInput renderOutput s = .ok (fin, out) ∧
          out.colorBuffer = (List.range (W * H * C)).map colorBuffer ∧
          out.colorBuffer.length = W * H * C ∧
          out.colorBufferFormat = e3.frameBuffer.frameBufferFormat := by
  obtain ⟨s2, e2, hsetup, h2⟩ := renderSetup_returns env renderInput s s1 ex hprep hx
  obtain ⟨s3, e3, hrender, h3⟩ := renderCall_returns env s2 e2 h2
  refine ⟨s2, s3, e2, e3, hsetup, h2, hrender, h3, ?_⟩
  intro W H C colorBuffer hsize hdepth hcolor hint hsizet
  subst hdepth
  obtain ⟨colorOutput, depthOutput, hc, hd, hcol, -, -, -⟩ :=
    copyBuffers_of_lt W H e3.frameBuffer renderOutput hint hsizet
  rw [← hsize] at hc hd
  obtain ⟨fin, eF, h, -, -⟩ :=
    render_of_rendered env renderInput renderOutput colorOutput depthOutput s s2 s3 e2 e3
      hsetup h2 hrender h3 hc hd
  obtain ⟨hbytes, hfmt⟩ := hcol colorBuffer hcolor
  exact ⟨fin, depthOutput, h, hbytes, by rw [hbytes]; simp, hfmt⟩

/-- Claim C3, amended: in a headless render entered with an active engine,
and with an engine active after the extension run, the setup and the backend
render call return.  If the frame buffer has a null depth buffer when the
render call has returned (engine `e3`), and the colour copy stays within the
sizes a vector accepts (the colour buffer is null, or the frame size W×H read
from engine `e2` and the colour depth C satisfy W×H below 2^31 and W×H×C below
2^63), then the render returns, its last calls being the two buffer reads and
postRender, and the depth buffer of the render output is left as it was
passed in, hence empty when an empty one was passed. -/
theorem render_depthBuffer_absent (env : Env) (renderInput : RenderInput)
    (renderOutput : RenderOutput) (s s1 : St) (ex : Engine)
    (hprep : renderPrepare env renderInput s = .ok s1)
    (hx : (env.execute s1.impl)._engine = some ex) :
    ∃ (s2 s3 : St) (e2 e3 : Engine),
      renderSetup env renderInput s = .ok s2 ∧ s2.impl._engine = some e2 ∧
      Step.seq (updateHeadLight env) (_render env) s2 = .ok s3 ∧ s3.impl._engine = some e3 ∧
      (e3.frameBuffer.depthBuffer = none →
        (e3.frameBuffer.colorBuffer = none ∨
          ∃ W H : Nat, e2.frameBuffer.size = ⟨(W : Int), (H : Int)⟩ ∧ W * H < 2 ^ 31 ∧
            W * H * e3.frameBuffer.colorDepth < 2 ^ 63) →
        ∃ (fin : St) (out : RenderOutput),
          render env renderInput renderOutput s = .ok (fin, out) ∧
          fin.trace =
            s3.trace ++ onEngineId e3.id [.getColorBuffer, .getDepthBuffer, .postRender] ∧
          out.depthBuffer = renderOutput.depthBuffer ∧
          (renderOutput.depthBuffer = [] → out.depthBuffer = [])) := by
  obtain ⟨s2, e2, hsetup, h2⟩ := renderSetup_returns env renderInput s s1 ex hprep hx
  obtain ⟨s3, e3, hrender, h3⟩ := renderCall_returns env s2 e2 h2
  refine ⟨s2, s3, e2, e3, hsetup, h2, hrender, h3, ?_⟩
  intro hnull hcolor
  have hcopy : ∃ colorOutput depthOutput : RenderOutput,
      copyColorBuffer e2.frameBuffer.size e3.frameBuffer renderOutput = some colorOutput ∧
      copyDepthBuffer e2.frameBuffer.size e3.frameBuffer colorOutput = some depthOutput ∧
      depthOutput.depthBuffer = renderOutput.depthBuffer := by
    rcases hcolor with hcnull | ⟨W, H, hsize, hint, hsizet⟩
    · exact ⟨renderOutput, renderOutput, copyColorBuffer_null _ _ _ hcnull,
        copyDepthBuffer_null _ _ _ hnull, rfl⟩
    · obtain ⟨colorOutput, depthOutput, hc, hd, -, -, -, hdep⟩ :=
        copyBuffers_of_lt W H e3.frameBuffer renderOutput hint hsizet
      rw [← hsize] at hc hd
      exact ⟨colorOutput, depthOutput, hc, hd, hdep hnull⟩
  obtain ⟨colorOutput, depthOutput, hc, hd, hdep⟩ := hcopy
  obtain ⟨fin, eF, h, hfin, hidF⟩ :=
    render_of_rendered env renderInput renderOutput colorOutput depthOutput s s2 s3 e2 e3
      hsetup h2 hrender h3 hc hd
  refine ⟨fin, depthOutput, h, ?_, hdep, fun h0 => by rw [hdep, h0]⟩
  rw [hfin, St.advance_trace, hidF]

/-- Witness of C2 (amended): a window of two by one pixels at four bytes per
pixel gives eight bytes. -/
theorem render_colorBuffer_length_witness :
    ∃ fin out, render Example.env Example.renderInput Example.renderOutput Example.state
        = .ok (fin, out) ∧
      out.colorBuffer.length = 2 * 1 * 4 ∧ out.colorBufferFormat = 1 := by
  obtain ⟨s2, s3, e2, e3, h2, he2, h3, he3, hlen⟩ :=
    render_colorBuffer_length Example.env Example.renderInput Example.renderOutput Example.state
      (renderPrepare Example.env Example.renderInput Example.state).state
      { (Example.engine 1) with
        camera := ⟨⟨0, 0, 5⟩, ⟨0, 0, 0⟩, ⟨0, 1, 0⟩⟩,
        frameBuffer := { Example.frameBuffer with size := ⟨2, 1⟩ } } rfl rfl
  have hs2 : s2 = (renderSetup Example.env Example.renderInput Example.state).state := by
    rw [h2]; rfl
  subst hs2
  have he2' : e2 = { (Example.engine 1) with
        camera := ⟨⟨0, 0, 5⟩, ⟨0, 0, 0⟩, ⟨0, 1, 0⟩⟩,
        frameBuffer := { Example.frameBuffer with size := ⟨2, 1⟩ } } :=
    (Option.some.inj he2).symm
  have hs3 : s3 = (Step.seq (updateHeadLight Example.env) (_render Example.env)
      (renderSetup Example.env Example.renderInput Example.state).state).state := by
    rw [h3]; rfl
  subst hs3
  have he3' : e3.frameBuffer = { Example.frameBuffer with size := ⟨2, 1⟩ } := by
    have := (Option.some.inj he3).symm
    rw [this]
    rfl
  obtain ⟨fin, out, h, -, hl, hf⟩ :=
    hlen 2 1 4 (fun i => i % 256) (by rw [he2']; rfl) (by rw [he3']; rfl)
      (by rw [he3']; rfl) (by norm_num) (by norm_num)
  exact ⟨fin, out, h, hl, by rw [hf, he3']; rfl⟩

/-- Witness of C3 (amended): on a window of two by one pixels at four bytes
per pixel, an empty render output stays without depth buffer. -/
theorem render_depthBuffer_absent_witness :
    ∃ fin out, render Example.env Example.renderInput Example.emptyOutput Example.state
        = .ok (fin, out) ∧ out.depthBuffer = [] := by
  obtain ⟨s2, s3, e2, e3, h2, he2, h3, he3, hd⟩ :=
    render_depthBuffer_absent Example.env Example.renderInput Example.emptyOutput Example.state
      (renderPrepare Example.env Example.renderInput Example.state).state
      { (Example.engine 1) with
        camera := ⟨⟨0, 0, 5⟩, ⟨0, 0, 0⟩, ⟨0, 1, 0⟩⟩,
        frameBuffer := { Example.frameBuffer with size := ⟨2, 1⟩ } } rfl rfl
  have hs2 : s2 = (renderSetup Example.env Example.renderInput Example.state).state := by
    rw [h2]; rfl
  subst hs2
  have he2' : e2 = { (Example.engine 1) with
        camera := ⟨⟨0, 0, 5⟩, ⟨0, 0, 0⟩, ⟨0, 1, 0⟩⟩,
        frameBuffer := { Example.frameBuffer with size := ⟨2, 1⟩ } } :=
    (Option.some.inj he2).symm
  have hs3 : s3 = (Step.seq (updateHeadLight Example.env) (_render Example.env)
      (renderSetup Example.env Example.renderInput Example.state).state).state := by
    rw [h3]; rfl
  subst hs3
  have he3' : e3.frameBuffer = { Example.frameBuffer with size := ⟨2, 1⟩ } := by
    have := (Option.some.inj he3).symm
    rw [this]
    rfl
  obtain ⟨fin, out, h, -, -, hempty⟩ :=
    hd (by rw [he3']; rfl)
      (Or.inr ⟨2, 1, by rw [he2']; rfl, by norm_num, by rw [he3']; norm_num [Example.frameBuffer]⟩)
  exact ⟨fin, out, h, hempty rfl⟩

/-- Counterexample to C3 as stated, at two inputs.  First, on a window of two
by one pixels the backend reports no depth buffer, the render output passed in
holds the depth buffer `[1/2]` of an earlier frame, and it still holds it when
the call returns.  Second, on a window of 46341 by 46341 pixels at four bytes
per pixel, with a colour buffer and no depth buffer, the `int` product of the
sizes wraps to a negative number, the colour copy throws, and the call ends
there: its last call is the read of the colour buffer, no postRender is
issued. -/
theorem render_depthBuffer_absent_counterexample :
    (((((renderSetup Example.env Example.renderInput Example.state).bind
          (Step.seq (updateHeadLight Example.env) (_render Example.env))).value?.bind
          St.frameBuffer?).map (fun fb => fb.depthBuffer.isNone) = some true) ∧
      ((render Example.env Example.renderInput Example.renderOutput Example.state).value?.map
        (fun r => r.2.depthBuffer) = some [1 / 2]) ∧
      ([1 / 2] : List ℚ) ≠ []) ∧
    ((((renderSetup Example.env Example.wideInput Example.state).value?.bind St.frameBuffer?).map
        (fun fb => fb.size) = some ⟨46341, 46341⟩) ∧
      ((((renderSetup Example.env Example.wideInput Example.state).bind
          (Step.seq (updateHeadLight Example.env) (_render Example.env))).value?.bind
          St.frameBuffer?).map
          (fun fb => (fb.colorDepth, fb.colorBuffer.isSome, fb.depthBuffer.isNone))
        = some (4, true, true)) ∧
      wrapInt32 (46341 * 46341) = -2147479015 ∧
      (render Example.env Example.wideInput Example.emptyOutput Example.state).fault?
        = some .lengthError ∧
      (render Example.env Example.wideInput Example.emptyOutput Example.state).endState.trace.getLast?
        = some ⟨some 1, .getColorBuffer⟩) := by
  refine ⟨⟨by rfl, by rfl, by simp⟩, by rfl, by rfl, by rfl, by rfl, by rfl⟩

/-- The bound 2^63 of C2 (amended) cannot be raised: on a frame of one pixel
whose frame buffer declares 2^63 bytes per pixel, with a colour buffer, the
colour copy throws and the headless render ends on the read of the colour
buffer. -/
theorem render_colorBuffer_above_maxSize :
    ((((renderSetup Example.deepEnv Example.pixelInput Example.state).bind
        (Step.seq (updateHeadLight Example.deepEnv) (_render Example.deepEnv))).value?.bind
        St.frameBuffer?).map (fun fb => (fb.size, fb.colorDepth, fb.colorBuffer.isSome))
      = some (⟨1, 1⟩, 2 ^ 63, true)) ∧
    (render Example.deepEnv Example.pixelInput Example.renderOutput Example.state).fault?
      = some .lengthError ∧
    (render Example.deepEnv Example.pixelInput Example.renderOutput
      Example.state).endState.trace.getLast? = some ⟨some 1, .getColorBuffer⟩ := by
  refine ⟨by rfl, by rfl, by rfl⟩

/-! ## Engine replaced by the extensions -/

/-- Claim C1, amended: in a frame, headless or interactive, in which the
engine reference differs after the extension run from what it was before (the
engine `e'` the extensions leave has another identity than the engine `e` they
were run on), the calls that follow the extension run are, in this order and
all on the new engine: reshape with the window size of the frame, preRender,
then the remaining calls of the frame, among them the renderer selection and
the render call.  In the headless render the setup and the render call
return (states `s2` and `s3`, whose engines `e2` and `e3` have the identity of
the new engine); whatever the frame size, the calls after the render call
are the first one, two or three of the colour buffer read, the depth buffer
read and postRender, on the new engine; and when the frame size W×H read from
`e2` and the colour depth C of `e3` satisfy W×H below 2^31 and W×H×C below
2^63, the render returns through postRender and the buffers of the render
output are those of the frame buffer of `e3`: its first W×H×C colour bytes
with its format tag, and its first W×H depth values.  The interactive render
returns.  The calls on the old engine are those up to the extension run
only. -/
theorem render_after_engine_swap (env : Env) :
    (∀ (renderInput : RenderInput) (renderOutput : RenderOutput) (s s1 : St) (e e' : Engine),
      s.impl._engine = some e → renderPrepare env renderInput s = .ok s1 →
      (env.execute s1.impl)._engine = some e' → e'.id ≠ e.id →
      ∃ (s2 s3 : St) (e2 e3 : Engine),
        renderSetup env renderInput s = .ok s2 ∧ s2.impl._engine = some e2 ∧
        e2.id = e'.id ∧
        Step.seq (updateHeadLight env) (_render env) s2 = .ok s3 ∧
        s3.impl._engine = some e3 ∧ e3.id = e'.id ∧
        s3.trace = s.trace ++
          onEngineId e.id [.cameraSet renderInput.position renderInput.target renderInput.up,
            .reshape renderInput.windowSize, .preRender, .execute] ++
          onEngineId e'.id (renderCallsAfterSwap renderInput.windowSize
            (env.execute s1.impl)._parametersManager e') ∧
        (∃ calls : List Call, calls <+: [.getColorBuffer, .getDepthBuffer, .postRender] ∧
          (render env renderInput renderOutput s).endState.impl.engineId = some e'.id ∧
          (render env renderInput renderOutput s).endState.trace =
            s3.trace ++ onEngineId e'.id calls) ∧
        (∀ W H : Nat, e2.frameBuffer.size = ⟨(W : Int), (H : Int)⟩ →
          W * H < 2 ^ 31 → W * H * e3.frameBuffer.colorDepth < 2 ^ 63 →
          ∃ (fin : St) (out : RenderOutput),
            render env renderInput renderOutput s = .ok (fin, out) ∧
            fin.impl.engineId = some e'.id ∧
            fin.trace = s3.trace ++
              onEngineId e'.id [.getColorBuffer, .getDepthBuffer, .postRender] ∧
            (∀ buf, e3.frameBuffer.colorBuffer = some buf →
              out.colorBuffer = (List.range (W * H * e3.frameBuffer.colorDepth)).map buf ∧
              out.colorBufferFormat = e3.frameBuffer.frameBufferFormat) ∧
            (∀ buf, e3.frameBuffer.depthBuffer = some buf →
              out.depthBuffer = (List.range (W * H)).map buf))) ∧
    (∀ (s s1 : St) (e e' : Engine),
      s.impl._engine = some e →
      renderWindowPrepare env s.impl._parametersManager.applicationParameters.windowSize s = .ok s1 →
      (env.execute s1.impl)._engine = some e' → e'.id ≠ e.id →
      ∃ fin, renderWindow env s = .ok fin ∧
        fin.impl.engineId = some e'.id ∧
        fin.trace = s.trace ++
          onEngineId e.id [.reshape s.impl._parametersManager.applicationParameters.windowSize,
            .preRender, .execute] ++
          onEngineId e'.id (renderWindowCallsAfterSwap
            s.impl._parametersManager.applicationParameters.windowSize
            (env.execute s1.impl)._parametersManager e')) := by
  constructor
  · intro renderInput renderOutput s s1 e e' hs hprep hx hne
    obtain ⟨e1, h1, hid1, -, -⟩ := renderPrepare_ok env renderInput s e hs
    have hs1 := hprep
    rw [h1] at hs1
    injection hs1 with hs1
    have he1 : s1.impl._engine = some e1 := by rw [← hs1]; rfl
    have htr1 : s1.trace = s.trace ++ onEngineId e.id
        [.cameraSet renderInput.position renderInput.target renderInput.up,
          .reshape renderInput.windowSize, .preRender] := by
      rw [← hs1, St.advance_trace, hid1]
    obtain ⟨ex2, hext, hidx, hscx, hcamx⟩ :=
      executeExtensions_swap env renderInput.windowSize s1 e1 e' he1 hx
        (by rw [hid1]; exact hne)
    obtain ⟨sx, hsx⟩ : ∃ sx : St,
        sx = (⟨env.execute s1.impl, s1.trace ++ [⟨some e1.id, .execute⟩]⟩ : St).advance ex2
          [.reshape renderInput.windowSize, .preRender] := ⟨_, rfl⟩
    rw [← hsx] at hext
    have hex : sx.impl._engine = some ex2 := by rw [hsx]; rfl
    have hpmx : sx.impl._parametersManager = (env.execute s1.impl)._parametersManager := by
      rw [hsx]; rfl
    have htrx : sx.trace = s1.trace ++ [⟨some e1.id, .execute⟩] ++
        onEngineId ex2.id [.reshape renderInput.windowSize, .preRender] := by
      rw [hsx]; rfl
    obtain ⟨s2, e2, htail, he2, hid2, hsc2, hcam2, hpm2, htr2⟩ := setupTail_ok env sx ex2 hex
    have hsetup : renderSetup env renderInput s = .ok s2 :=
      Step.seq_ok hprep (Step.seq_ok hext htail)
    obtain ⟨s3, e3, hrender, he3, hid3, htr3⟩ := renderCall_ok env s2 e2 he2
    have hidn2 : e2.id = e'.id := hid2.trans hidx
    have hidn3 : e3.id = e'.id := hid3.trans hidn2
    refine ⟨s2, s3, e2, e3, hsetup, he2, hidn2, hrender, he3, hidn3, ?_, ?_, ?_⟩
    · rw [htr3, htr2, htrx, htr1, hpm2, hpmx, hidn2, hidx, hid1,
        headLightCalls_congr _ e' e2 (hsc2.trans hscx) (hcam2.trans hcamx)]
      simp [renderCallsAfterSwap, onEngineId, List.append_assoc]
    · obtain ⟨calls, eF, hpre, hend, hidF⟩ :=
        render_endState env renderInput renderOutput s s2 s3 e2 e3 hsetup he2 hrender he3
      refine ⟨calls, hpre, ?_, ?_⟩
      · rw [hend]
        simp [Impl.engineId, St.advance, hidF, hidn3]
      · rw [hend, St.advance_trace, hidF, hidn3]
    · intro W H hsize hint hsizet
      obtain ⟨colorOutput, depthOutput, hc, hd, hcol, -, hdep, -⟩ :=
        copyBuffers_of_lt W H e3.frameBuffer renderOutput hint hsizet
      rw [← hsize] at hc hd
      obtain ⟨fin, eF, h, hfin, hidF⟩ :=
        render_of_rendered env renderInput renderOutput colorOutput depthOutput s s2 s3 e2 e3
          hsetup he2 hrender he3 hc hd
      refine ⟨fin, depthOutput, h, ?_, ?_, hcol, hdep⟩
      · rw [hfin]
        simp [Impl.engineId, St.advance, hidF, hidn3]
      · rw [hfin, St.advance_trace, hidF, hidn3]
  · intro s s1 e e' hs hprep hx hne
    obtain ⟨e1, h1, hid1, -, -⟩ :=
      renderWindowPrepare_ok env s.impl._parametersManager.applicationParameters.windowSize s e hs
    rw [h1] at hprep
    injection hprep with hprep
    subst hprep
    obtain ⟨e2, h2, hid2, hsc2, hcam2⟩ :=
      executeExtensions_swap env s.impl._parametersManager.applicationParameters.windowSize _
        e1 e' (St.advance_engine _ _ _) hx (by rw [hid1]; exact hne)
    obtain ⟨fin, eF, h3, hfin, hidF⟩ :=
      renderWindowAfterExtensions_ok env
        ((⟨env.execute (s.advance e1
            [.reshape s.impl._parametersManager.applicationParameters.windowSize, .preRender]).impl,
          (s.advance e1
            [.reshape s.impl._parametersManager.applicationParameters.windowSize, .preRender]).trace ++
            [⟨some e1.id, .execute⟩]⟩ : St).advance e2
          [.reshape s.impl._parametersManager.applicationParameters.windowSize, .preRender])
        e2 (St.advance_engine _ _ _)
    refine ⟨fin, ?_, ?_, ?_⟩
    · simp only [renderWindow, renderWindowSetup, Step.seq, h1, Outcome.bind, h2]
      simp only [Step.seq, Outcome.bind] at h3
      exact h3
    · rw [hfin]
      simp [Impl.engineId, St.advance, hidF, hid2]
    · rw [hfin]
      simp only [St.advance_trace, St.advance_parameters, hidF, hid2, hid1,
        headLightCalls_congr _ e' e2 hsc2 hcam2, renderWindowCallsAfterSwap, onEngineId,
        List.map_append, List.append_assoc, List.map_cons, List.map_nil]
      simp [St.advance]

/-- Witness of C1 (amended): the extensions replace engine 1 by the new
engine 2; on a window of two by one pixels both renders return, reshape and
preRender are issued again on engine 2, and the headless render output holds
the eight colour bytes of the frame buffer of engine 2. -/
theorem render_after_engine_swap_witness :
    (∃ fin out, render Example.swapEnv Example.renderInput Example.renderOutput Example.state
        = .ok (fin, out) ∧
      fin.impl.engineId = some 2 ∧
      fin.trace =
        onEngineId 1 [.cameraSet ⟨0, 0, 5⟩ ⟨0, 0, 0⟩ ⟨0, 1, 0⟩, .reshape ⟨2, 1⟩, .preRender, .execute] ++
        onEngineId 2 [.reshape ⟨2, 1⟩, .preRender, .cameraCommit, .setDirection ⟨0, 0, 0⟩,
          .commitLights, .setActiveRenderer .basic, .render, .getColorBuffer, .getDepthBuffer,
          .postRender] ∧
      out.colorBuffer = [0, 1, 2, 3, 4, 5, 6, 7] ∧ out.colorBufferFormat = 1) ∧
    (∃ fin, renderWindow Example.swapEnv Example.state = .ok fin ∧
      fin.impl.engineId = some 2 ∧
      fin.trace =
        onEngineId 1 [.reshape ⟨2, 1⟩, .preRender, .execute] ++
        onEngineId 2 [.reshape ⟨2, 1⟩, .preRender, .setDirection ⟨0, 0, 0⟩,
          .commitLights, .cameraCommit, .setActiveRenderer .basic, .render, .postRender]) := by
  constructor
  · obtain ⟨s2, s3, e2, e3, h2, he2, -, h3, he3, -, htr, -, hbuf⟩ :=
      (render_after_engine_swap Example.swapEnv).1 Example.renderInput Example.renderOutput
        Example.state _ (Example.engine 1) (Example.engine 2) rfl rfl rfl (by decide)
    have hs2 : s2 = (renderSetup Example.swapEnv Example.renderInput Example.state).state := by
      rw [h2]; rfl
    subst hs2
    have he2' : e2.frameBuffer = { Example.frameBuffer with size := ⟨2, 1⟩ } := by
      have := (Option.some.inj he2).symm
      rw [this]
      rfl
    have hs3 : s3 = (Step.seq (updateHeadLight Example.swapEnv) (_render Example.swapEnv)
        (renderSetup Example.swapEnv Example.renderInput Example.state).state).state := by
      rw [h3]; rfl
    subst hs3
    have he3' : e3.frameBuffer = { Example.frameBuffer with size := ⟨2, 1⟩ } := by
      have := (Option.some.inj he3).symm
      rw [this]
      rfl
    obtain ⟨fin, out, h, hid, hfin, hcol, -⟩ :=
      hbuf 2 1 (by rw [he2']; rfl) (by norm_num) (by rw [he3']; norm_num [Example.frameBuffer])
    obtain ⟨hbytes, hfmt⟩ := hcol (fun i => i % 256) (by rw [he3']; rfl)
    refine ⟨fin, out, h, hid, ?_, ?_, ?_⟩
    · rw [hfin, htr]
      simp [Example.state, renderCallsAfterSwap, animationCalls, headLightCalls, Example.swapEnv,
        Example.env, Example.impl, Example.parameters, Example.engine, Example.scene,
        Scene.getLight, Example.renderInput, onEngineId, Vector3f.sub]
    · rw [hbytes, he3']
      rfl
    · rw [hfmt, he3']
      rfl
  · have h := (render_after_engine_swap Example.swapEnv).2
      Example.state _ (Example.engine 1) (Example.engine 2) rfl rfl rfl (by decide)
    obtain ⟨fin, h1, h2, h3⟩ := h
    refine ⟨fin, h1, h2, ?_⟩
    rw [h3]
    simp [Example.state, renderWindowCallsAfterSwap, animationCalls, headLightCalls, Example.swapEnv,
      Example.env, Example.impl, Example.parameters, Example.engine, Example.scene, Scene.getLight,
      onEngineId, Vector3f.sub]

/-- Counterexample to C1 as stated: the extensions release the active engine
and install a newly built engine at the address the released one had.  The
engine is replaced (the old one had been reshaped to two by one pixels and had
received the camera pose, the new one has a frame buffer of size 0 by 0 and
its camera at the origin), but the engine reference is the same before and
after the extension run.  In both renders no reshape and no preRender follows
the extension run, and the headless render on a window of two by one pixels
returns an empty colour buffer. -/
theorem render_after_engine_swap_counterexample :
    (∃ (s1 : St),
      renderPrepare Example.reuseEnv Example.renderInput Example.state = .ok s1 ∧
      s1.impl._engine.map (fun e => (e.id, e.frameBuffer.size, e.camera.position))
        = some (1, ⟨2, 1⟩, ⟨0, 0, 5⟩) ∧
      (Example.reuseEnv.execute s1.impl)._engine.map
          (fun e => (e.id, e.frameBuffer.size, e.camera.position))
        = some (1, ⟨0, 0⟩, ⟨0, 0, 0⟩) ∧
      (render Example.reuseEnv Example.renderInput Example.renderOutput Example.state).value?.map
          (fun r => (r.1.trace, r.2.colorBuffer))
        = some (onEngineId 1 [.cameraSet ⟨0, 0, 5⟩ ⟨0, 0, 0⟩ ⟨0, 1, 0⟩, .reshape ⟨2, 1⟩,
            .preRender, .execute, .cameraCommit,
            .setDirection (Vector3f.sub ⟨0, 0, 0⟩ ⟨0, 0, 0⟩), .commitLights,
            .setActiveRenderer .basic, .render, .getColorBuffer, .getDepthBuffer,
            .postRender], [])) ∧
    (∃ (s1 : St),
      renderWindowPrepare Example.reuseEnv ⟨2, 1⟩ Example.state = .ok s1 ∧
      s1.impl._engine.map (fun e => (e.id, e.frameBuffer.size)) = some (1, ⟨2, 1⟩) ∧
      (Example.reuseEnv.execute s1.impl)._engine.map (fun e => (e.id, e.frameBuffer.size))
        = some (1, ⟨0, 0⟩) ∧
      (renderWindow Example.reuseEnv Example.state).value?.map (fun fin => fin.trace)
        = some (onEngineId 1 [.reshape ⟨2, 1⟩, .preRender, .execute,
            .setDirection (Vector3f.sub ⟨0, 0, 0⟩ ⟨0, 0, 0⟩), .commitLights, .cameraCommit,
            .setActiveRenderer .basic, .render, .postRender])) := by
  refine ⟨⟨(renderPrepare Example.reuseEnv Example.renderInput Example.state).state,
      by rfl, by rfl, by rfl, by rfl⟩,
    ⟨(renderWindowPrepare Example.reuseEnv ⟨2, 1⟩ Example.state).state,
      by rfl, by rfl, by rfl, by rfl⟩⟩

/-! ## Ambient occlusion shortcuts -/

/-- One press on the stored strength alone. -/
theorem ambientOcclusionStrength_press (i : Impl) (p : AmbientOcclusionPress) :
    (i.pressAmbientOcclusion p).ambientOcclusionStrength =
      match p with
      | .increase =>
        if i.ambientOcclusionStrength + 1 / 10 > 1 then 1 else i.ambientOcclusionStrength + 1 / 10
      | .decrease =>
        if i.ambientOcclusionStrength - 1 / 10 < 0 then 0 else i.ambientOcclusionStrength - 1 / 10 := by
  cases p <;> rfl

theorem ambientOcclusionStrength_press_mem (i : Impl) (p : AmbientOcclusionPress)
    (h0 : 0 ≤ i.ambientOcclusionStrength) (h1 : i.ambientOcclusionStrength ≤ 1) :
    0 ≤ (i.pressAmbientOcclusion p).ambientOcclusionStrength ∧
      (i.pressAmbientOcclusion p).ambientOcclusionStrength ≤ 1 := by
  rw [ambientOcclusionStrength_press]
  cases p with
  | increase =>
    simp only
    split
    · exact ⟨by norm_num, le_refl _⟩
    · constructor
      · linarith
      · linarith
  | decrease =>
    simp only
    split
    · exact ⟨le_refl _, by norm_num⟩
    · constructor
      · linarith
      · linarith

theorem ambientOcclusionStrength_pressAll_mem (presses : List AmbientOcclusionPress) :
    ∀ (i : Impl), 0 ≤ i.ambientOcclusionStrength → i.ambientOcclusionStrength ≤ 1 →
      0 ≤ (i.pressAmbientOcclusionAll presses).ambientOcclusionStrength ∧
        (i.pressAmbientOcclusionAll presses).ambientOcclusionStrength ≤ 1 := by
  induction presses with
  | nil => intro i h0 h1; exact ⟨h0, h1⟩
  | cons p ps ih =>
    intro i h0 h1
    obtain ⟨h0', h1'⟩ := ambientOcclusionStrength_press_mem i p h0 h1
    exact ih _ h0' h1'

theorem ambientOcclusionStrength_increase_of_eq (i : Impl) (k : ℚ)
    (h : i.ambientOcclusionStrength = k) :
    (i.pressAmbientOcclusion .increase).ambientOcclusionStrength =
      if k + 1 / 10 > 1 then 1 else k + 1 / 10 := by
  rw [ambientOcclusionStrength_press, h]

/-- Claim C5: with the step 0.1 taken as the rational 1/10, a stored
ambient-occlusion strength in [0, 1] stays in [0, 1] under every finite
sequence of increase and decrease presses; from 0, fifteen increase presses
leave exactly 1, and one decrease press leaves exactly 0. -/
theorem ambientOcclusion_strength_clamped (i : Impl) (presses : List AmbientOcclusionPress)
    (h0 : 0 ≤ i.ambientOcclusionStrength) (h1 : i.ambientOcclusionStrength ≤ 1) :
    (0 ≤ (i.pressAmbientOcclusionAll presses).ambientOcclusionStrength ∧
      (i.pressAmbientOcclusionAll presses).ambientOcclusionStrength ≤ 1) ∧
    (i.ambientOcclusionStrength = 0 →
      (i.pressAmbientOcclusionAll (List.replicate 15 .increase)).ambientOcclusionStrength = 1) ∧
    (i.ambientOcclusionStrength = 0 →
      (i.pressAmbientOcclusionAll [.decrease]).ambientOcclusionStrength = 0) := by
  refine ⟨ambientOcclusionStrength_pressAll_mem presses i h0 h1, ?_, ?_⟩
  · intro hz
    simp only [pressAmbientOcclusionAll, List.replicate, List.foldl]
    have s1 := ambientOcclusionStrength_increase_of_eq i 0 hz
    norm_num at s1
    have s2 := ambientOcclusionStrength_increase_of_eq _ _ s1
    norm_num at s2
    have s3 := ambientOcclusionStrength_increase_of_eq _ _ s2
    norm_num at s3
    have s4 := ambientOcclusionStrength_increase_of_eq _ _ s3
    norm_num at s4
    have s5 := ambientOcclusionStrength_increase_of_eq _ _ s4
    norm_num at s5
    have s6 := ambientOcclusionStrength_increase_of_eq _ _ s5
    norm_num at s6
    have s7 := ambientOcclusionStrength_increase_of_eq _ _ s6
    norm_num at s7
    have s8 := ambientOcclusionStrength_increase_of_eq _ _ s7
    norm_num at s8
    have s9 := ambientOcclusionStrength_increase_of_eq _ _ s8
    norm_num at s9
    have s10 := ambientOcclusionStrength_increase_of_eq _ _ s9
    norm_num at s10
    have s11 := ambientOcclusionStrength_increase_of_eq _ _ s10
    norm_num at s11
    have s12 := ambientOcclusionStrength_increase_of_eq _ _ s11
    norm_num at s12
    have s13 := ambientOcclusionStrength_increase_of_eq _ _ s12
    norm_num at s13
    have s14 := ambientOcclusionStrength_increase_of_eq _ _ s13
    norm_num at s14
    have s15 := ambientOcclusionStrength_increase_of_eq _ _ s14
    norm_num at s15
    exact s15
  · intro hz
    simp only [pressAmbientOcclusionAll, List.foldl]
    rw [ambientOcclusionStrength_press, hz]
    norm_num

/-- Witness of C5, from a stored strength of 0. -/
theorem ambientOcclusion_strength_clamped_witness :
    (0 ≤ (Example.impl.pressAmbientOcclusionAll [.increase, .decrease, .decrease]).ambientOcclusionStrength ∧
      (Example.impl.pressAmbientOcclusionAll [.increase, .decrease, .decrease]).ambientOcclusionStrength ≤ 1) ∧
    (Example.impl.pressAmbientOcclusionAll (List.replicate 15 .increase)).ambientOcclusionStrength = 1 ∧
    (Example.impl.pressAmbientOcclusionAll [.decrease]).ambientOcclusionStrength = 0 :=
  have h := ambientOcclusion_strength_clamped Example.impl [.increase, .decrease, .decrease]
    (by simp [ambientOcclusionStrength, Example.impl, Example.parameters])
    (by simp [ambientOcclusionStrength, Example.impl, Example.parameters])
  ⟨h.1, h.2.1 rfl, h.2.2 rfl⟩

/-! ## World bounds of a volume -/

theorem Boxf.contains_merge_self (b : Boxf) (p : Vector3f) : (b.merge p).contains p := by
  simp only [Boxf.contains, Boxf.merge, Vector3f.le, Vector3f.min, Vector3f.max]
  exact ⟨⟨min_le_right _ _, min_le_right _ _, min_le_right _ _⟩,
    ⟨le_max_right _ _, le_max_right _ _, le_max_right _ _⟩⟩

theorem Boxf.contains_merge_of_contains (b : Boxf) (p q : Vector3f) (h : b.contains q) :
    (b.merge p).contains q := by
  simp only [Boxf.contains, Boxf.merge, Vector3f.le, Vector3f.min, Vector3f.max] at h ⊢
  obtain ⟨⟨h1, h2, h3⟩, ⟨h4, h5, h6⟩⟩ := h
  exact ⟨⟨le_trans (min_le_left _ _) h1, le_trans (min_le_left _ _) h2,
      le_trans (min_le_left _ _) h3⟩,
    ⟨le_trans h4 (le_max_left _ _), le_trans h5 (le_max_left _ _),
      le_trans h6 (le_max_left _ _)⟩⟩

theorem mergeVolumeBounds_worldBounds (spacing : Vector3f) (scene : Scene) (vh : VolumeHandler)
    (hv : scene.volumeHandler = some vh) :
    (mergeVolumeBounds spacing scene).worldBounds =
      (scene.worldBounds.merge ⟨0, 0, 0⟩).merge
        (vh.offset.add ((Vector3f.ofVector3ui vh.dimensions).mul spacing)) := by
  simp only [mergeVolumeBounds, hv, VolumeHandler.setTimestamp]

/-- Claim C7: when the loaders of `_loadData` have returned and the scene
then holds a volume handler with dimensions D and offset O, `_loadData`
returns, and the world bounds it leaves contain the origin, the point
O + D×S (S the configured element spacing, product componentwise), and every
point the world bounds contained when the loaders had returned. -/
theorem loadData_worldBounds_contains_volume (env : Env) (s s1 : St) (e0 e1 : Engine)
    (vh : VolumeHandler)
    (hs : s.impl._engine = some e0) (hload : _loadSources env s = .ok s1)
    (h1 : s1.impl._engine = some e1) (hv : e1.scene.volumeHandler = some vh) :
    ∃ (s2 : St) (e2 : Engine), _loadData env s = .ok s2 ∧ s2.impl._engine = some e2 ∧
      e2.scene.worldBounds.contains ⟨0, 0, 0⟩ ∧
      e2.scene.worldBounds.contains
        (vh.offset.add ((Vector3f.ofVector3ui vh.dimensions).mul
          s.impl._parametersManager.volumeParameters.elementSpacing)) ∧
      ∀ p, e1.scene.worldBounds.contains p → e2.scene.worldBounds.contains p := by
  refine ⟨s1.setScene e1 (mergeVolumeBounds
      s.impl._parametersManager.volumeParameters.elementSpacing e1.scene), _, ?_, rfl, ?_, ?_, ?_⟩
  · simp only [_loadData, hs, Step.seq, hload, Outcome.bind, volumeBoundsStep, h1]
  · show (mergeVolumeBounds _ e1.scene).worldBounds.contains _
    rw [mergeVolumeBounds_worldBounds _ _ vh hv]
    exact Boxf.contains_merge_of_contains _ _ _ (Boxf.contains_merge_self _ _)
  · show (mergeVolumeBounds _ e1.scene).worldBounds.contains _
    rw [mergeVolumeBounds_worldBounds _ _ vh hv]
    exact Boxf.contains_merge_self _ _
  · intro p hp
    show (mergeVolumeBounds _ e1.scene).worldBounds.contains _
    rw [mergeVolumeBounds_worldBounds _ _ vh hv]
    exact Boxf.contains_merge_of_contains _ _ _ (Boxf.contains_merge_of_contains _ _ _ hp)

theorem loaderCalls_append (a b : List Event) :
    loaderCalls (a ++ b) = loaderCalls a ++ loaderCalls b := by
  simp [loaderCalls, List.filterMap_append]

theorem Step.emitsAt_congr {f g : Step} {s : St} {ls : List Loader} (h : f s = g s)
    (hg : Step.EmitsAt g s ls) : Step.EmitsAt f s ls := by
  unfold Step.EmitsAt at hg ⊢
  rw [h]
  exact hg

theorem Step.emits_skip : Step.Emits Step.skip [] := by
  intro s
  refine ⟨(by intro w s' h; cases h), ?_⟩
  simp [Step.skip]

theorem Step.emitsAt_seq {f g : Step} {s : St} {l1 l2 : List Loader}
    (hf : Step.EmitsAt f s l1) (hg : Step.Emits g l2) :
    Step.EmitsAt (Step.seq f g) s (l1 ++ l2) := by
  obtain ⟨hf1, hf2⟩ := hf
  unfold Step.EmitsAt Step.seq
  cases hfs : f s with
  | ok s1 =>
    rw [hfs] at hf2
    simp only at hf2
    obtain ⟨hg1, hg2⟩ := hg s1
    simp only [Outcome.bind]
    refine ⟨hg1, ?_⟩
    cases hgs : g s1 with
    | ok s2 =>
      rw [hgs] at hg2
      simp only at hg2 ⊢
      rw [hg2, hf2, List.append_assoc]
    | fail ft s2 =>
      rw [hgs] at hg2
      simp only at hg2 ⊢
      obtain ⟨ls', hp, he⟩ := hg2
      refine ⟨l1 ++ ls', ?_, ?_⟩
      · exact (List.prefix_append_right_inj l1).mpr hp
      · rw [he, hf2, List.append_assoc]
  | fail ft s1 =>
    rw [hfs] at hf2
    simp only at hf2
    obtain ⟨ls', hp, he⟩ := hf2
    simp only [Outcome.bind]
    refine ⟨?_, ls', ?_, he⟩
    · intro w s' h
      exact hf1 w s' (by rw [hfs]; exact h)
    · exact hp.trans (List.prefix_append l1 l2)

theorem Step.emits_seq {f g : Step} {l1 l2 : List Loader}
    (hf : Step.Emits f l1) (hg : Step.Emits g l2) : Step.Emits (Step.seq f g) (l1 ++ l2) :=
  fun s => Step.emitsAt_seq (hf s) hg

theorem Step.emits_seq_nil {f g : Step} (hf : Step.Emits f []) (hg : Step.Emits g []) :
    Step.Emits (Step.seq f g) [] :=
  Step.emits_seq hf hg

theorem Step.emits_when {f : Step} {l : List Loader} (c : Bool) (hf : Step.Emits f l) :
    Step.Emits (Step.when c f) (if c then l else []) := by
  intro s
  cases c with
  | true => simpa [Step.when] using hf s
  | false =>
    refine ⟨by intro w s' h; simp [Step.when] at h, ?_⟩
    simp [Step.when]

theorem Step.emits_when_nil {f : Step} (c : Bool) (hf : Step.Emits f []) :
    Step.Emits (Step.when c f) [] := by
  have h := Step.emits_when c hf
  simpa using h

theorem emits_onEngine (call : Call) (f : Engine → Engine) (hc : ∀ l, call ≠ .load l) :
    Step.Emits (onEngine call f) [] := by
  intro s
  unfold Step.EmitsAt onEngine
  cases s.impl._engine with
  | none =>
    refine ⟨(by intro w s' h; cases h), ?_⟩
    exact ⟨[], List.prefix_refl _, by simp⟩
  | some e =>
    refine ⟨(by intro w s' h; cases h), ?_⟩
    simp only [loaderCalls_append, List.append_nil]
    cases call <;> simp [loaderCalls] at hc ⊢

theorem emits_onScene (call : Call) (f : Scene → Scene) (hc : ∀ l, call ≠ .load l) :
    Step.Emits (onScene call f) [] :=
  emits_onEngine call _ hc

theorem emits_sceneCommitStep (call : Call) (h : Scene → Nat) (hc : ∀ l, call ≠ .load l) :
    Step.Emits (sceneCommitStep call h) [] :=
  emits_onScene call _ hc

theorem emits_engineHook (call : Call) (h : Engine → FrameBuffer × Nat)
    (hc : ∀ l, call ≠ .load l) : Step.Emits (engineHook call h) [] :=
  emits_onEngine call _ hc

theorem emits_engineCommitStep (call : Call) (h : Engine → Nat) (hc : ∀ l, call ≠ .load l) :
    Step.Emits (engineCommitStep call h) [] :=
  emits_onEngine call _ hc

theorem emits_logError (what : String) : Step.Emits (logError what) [] := by
  intro s
  refine ⟨(by intro w s' h; cases h), ?_⟩
  simp [logError, loaderCalls_append, loaderCalls]

theorem emits_reportFailure (file : String) (success : Bool) :
    Step.Emits (reportFailure file success) [] :=
  Step.emits_when_nil _ (emits_logError _)

/-- A step that first appends calls that are no loader call sites, then
continues with a step that calls no loader, calls no loader. -/
theorem emitsAt_of_prefix (f g : Step) (s s1 : St) (evs : List Event)
    (hfg : f s = g s1) (htr : s1.trace = s.trace ++ evs) (hevs : loaderCalls evs = [])
    (hg : Step.Emits g []) : Step.EmitsAt f s [] := by
  obtain ⟨hg1, hg2⟩ := hg s1
  unfold Step.EmitsAt
  rw [hfg]
  refine ⟨hg1, ?_⟩
  have hl : loaderCalls s1.trace = loaderCalls s.trace := by
    rw [htr, loaderCalls_append, hevs, List.append_nil]
  rw [hl] at hg2
  exact hg2

theorem emits_fail (ft : Fault) (hft : ∀ w, ft ≠ .runtimeError w) (f : Step) (s s1 : St)
    (evs : List Event) (hf : f s = .fail ft s1) (htr : s1.trace = s.trace ++ evs)
    (hevs : loaderCalls evs = []) : Step.EmitsAt f s [] := by
  unfold Step.EmitsAt
  rw [hf]
  refine ⟨?_, [], List.prefix_refl _, ?_⟩
  · intro w s' h
    injection h with h1 h2
    exact hft w h1
  · rw [htr, loaderCalls_append, hevs]

theorem emits_callImporter (function source : String) (f : Scene → Import) (k : Bool → Step)
    (hk : ∀ b, Step.Emits (k b) []) : Step.Emits (callImporter function source f k) [] := by
  intro s
  cases he : s.impl._engine with
  | none =>
    exact emits_fail .nullEngine (by intro w h; cases h) _ s s [] (by simp [callImporter, he]) (by simp) rfl
  | some e =>
    cases hr : f e.scene with
    | returned b sc =>
      exact emitsAt_of_prefix _ (k b) s _ [⟨some e.id, .importer function source⟩]
        (by simp only [callImporter, he, hr]; rfl) (by rfl) (by rfl) (hk b)
    | raised w sc =>
      exact emits_fail (.raised w) (by intro w h; cases h) _ s _
        [⟨some e.id, .importer function source⟩]
        (by simp only [callImporter, he, hr]; rfl) (by rfl) (by rfl)

theorem emits_callMeshImporter (function source : String) (f : Nat → Scene → Import × Nat)
    (k : Bool → Step) (hk : ∀ b, Step.Emits (k b) []) :
    Step.Emits (callMeshImporter function source f k) [] := by
  intro s
  cases he : s.impl._engine with
  | none =>
    exact emits_fail .nullEngine (by intro w h; cases h) _ s s [] (by simp [callMeshImporter, he]) (by simp) rfl
  | some e =>
    cases hr : (f s.impl._meshLoader e.scene).1 with
    | returned b sc =>
      exact emitsAt_of_prefix _ (k b) s _ [⟨some e.id, .importer function source⟩]
        (by simp only [callMeshImporter, he, hr]; rfl) (by rfl) (by rfl) (hk b)
    | raised w sc =>
      exact emits_fail (.raised w) (by intro w h; cases h) _ s _
        [⟨some e.id, .importer function source⟩]
        (by simp only [callMeshImporter, he, hr]; rfl) (by rfl) (by rfl)

theorem emits_loadMorphologyFiles (env : Env) (gp : GeometryParameters) (files : List String) :
    ∀ progress, Step.Emits (_loadMorphologyFiles env gp files progress) [] := by
  induction files with
  | nil => intro _; exact Step.emits_skip
  | cons file files ih =>
    intro progress
    exact Step.emits_seq_nil (emits_callImporter _ _ _ _ (emits_reportFailure file)) (ih _)

theorem emits_loadMorphologyFolder (env : Env) : Step.Emits (_loadMorphologyFolder env) [] :=
  fun s => emits_loadMorphologyFiles env _ _ 0 s

theorem emits_reloadTransferFunction (env : Env) :
    Step.Emits (reloadTransferFunction env) [] :=
  fun s => Step.emits_when_nil _
    (emits_callImporter _ _ _ _ (fun _ => emits_sceneCommitStep _ _ (by intro l h; cases h))) s

theorem emits_attachSpikeSimulation (env : Env) (gp : GeometryParameters) (cacheFile : String) :
    Step.Emits (attachSpikeSimulation env gp cacheFile) [] := by
  intro s
  cases he : s.impl._engine with
  | none =>
    exact emits_fail .nullEngine (by intro w h; cases h) _ s s [] (by simp [attachSpikeSimulation, he]) (by simp) rfl
  | some e =>
    cases hr : env.attachSimulationToCacheFile gp cacheFile with
    | some w =>
      exact emits_fail (.raised w) (by intro w h; cases h) _ s _
        [⟨some e.id, .importer "attachSimulationToCacheFile" cacheFile⟩]
        (by simp only [attachSpikeSimulation, he, hr]; rfl) (by rfl) (by rfl)
    | none =>
      exact emitsAt_of_prefix _ Step.skip s _
        [⟨some e.id, .importer "attachSimulationToCacheFile" cacheFile⟩]
        (by simp only [attachSpikeSimulation, he, hr, Step.skip]; rfl) (by rfl) (by rfl) Step.emits_skip

theorem emits_loadNESTCircuit (env : Env) : Step.Emits (_loadNESTCircuit env) [] :=
  fun s => Step.emits_when_nil _
    (emits_callImporter _ _ _ _ (fun _ =>
      emits_callImporter _ _ _ _ (fun _ =>
        Step.emits_seq_nil (Step.emits_when_nil _ (emits_attachSpikeSimulation env _ _))
          (emits_reloadTransferFunction env)))) s

theorem emits_loadPDBFile (env : Env) (filename : String) :
    Step.Emits (_loadPDBFile env filename) [] := by
  intro s
  refine Step.emits_seq_nil (emits_callImporter _ _ _ _ (emits_reportFailure _)) ?_ s
  intro s1
  cases he : s1.impl._engine with
  | none =>
    exact emits_fail .nullEngine (by intro w h; cases h) _ s1 s1 [] (by simp only [he]) (by simp) rfl
  | some e =>
    exact emitsAt_of_prefix _ Step.skip s1 _ []
      (by simp only [he, Step.skip]; rfl) (by simp [St.setScene]) rfl Step.emits_skip

theorem emits_loadPDBFiles (env : Env) (files : List String) :
    Step.Emits (_loadPDBFiles env files) [] := by
  induction files with
  | nil => exact Step.emits_skip
  | cons file files ih => exact Step.emits_seq_nil (emits_loadPDBFile env file) ih

theorem emits_loadPDBFolder (env : Env) : Step.Emits (_loadPDBFolder env) [] :=
  fun s => emits_loadPDBFiles env _ s

theorem emits_loadXYZBFile (env : Env) : Step.Emits (_loadXYZBFile env) [] :=
  fun s => emits_callImporter _ _ _ _ (emits_reportFailure _) s

theorem emits_loadMeshFiles (env : Env) (gp : GeometryParameters) (files : List String) :
    ∀ progress, Step.Emits (_loadMeshFiles env gp files progress) [] := by
  induction files with
  | nil => intro _; exact Step.emits_skip
  | cons file files ih =>
    intro progress
    exact Step.emits_seq_nil (emits_callMeshImporter _ _ _ _ (emits_reportFailure file)) (ih _)

theorem emits_loadMeshFolder (env : Env) (folder : String) :
    Step.Emits (_loadMeshFolder env folder) [] := by
  intro s
  unfold _loadMeshFolder
  cases env.BRAYNS_USE_ASSIMP with
  | true => exact emits_loadMeshFiles env _ _ 0 s
  | false => exact emits_logError _ s

theorem emits_loadCircuitConfiguration (env : Env) :
    Step.Emits (_loadCircuitConfiguration env) [] := by
  intro s
  by_cases h : s.impl._parametersManager.geometryParameters.report = ""
  · exact Step.emitsAt_congr (by simp only [_loadCircuitConfiguration, h, if_true]; rfl)
      (emits_callImporter _ _ _ _ (fun _ => Step.emits_skip) s)
  · exact Step.emitsAt_congr (by simp only [_loadCircuitConfiguration, h, if_false]; rfl)
      (emits_callImporter _ _ _ _ (fun _ => Step.emits_skip) s)

theorem emits_loadCompartmentReport (env : Env) :
    Step.Emits (_loadCompartmentReport env) [] :=
  fun s => emits_callImporter _ _ _ _
    (fun _ => Step.emits_when_nil _ (emits_reloadTransferFunction env)) s

theorem emits_loadMolecularSystem (env : Env) : Step.Emits (_loadMolecularSystem env) [] := by
  intro s
  unfold _loadMolecularSystem
  cases env.BRAYNS_USE_ASSIMP with
  | true => exact emits_callMeshImporter _ _ _ _ (fun _ => Step.emits_skip) s
  | false => exact emits_logError _ s

theorem emits_loadWith (loader : Loader) (body : Step) (hb : Step.Emits body []) :
    Step.Emits (loadWith loader body) [loader] := by
  intro s
  obtain ⟨h1, h2⟩ :=
    hb { s with trace := s.trace ++ [⟨s.impl.engineId, .load loader⟩] }
  have hl : loaderCalls (s.trace ++ [⟨s.impl.engineId, .load loader⟩]) =
      loaderCalls s.trace ++ [loader] := by
    simp [loaderCalls_append, loaderCalls]
  unfold Step.EmitsAt loadWith
  refine ⟨h1, ?_⟩
  cases hr : body { s with trace := s.trace ++ [⟨s.impl.engineId, .load loader⟩] } with
  | ok s2 =>
    rw [hr] at h2
    simp only [List.append_nil] at h2 ⊢
    rw [h2, hl]
  | fail ft s2 =>
    rw [hr] at h2
    simp only at h2 ⊢
    obtain ⟨ls', hp, he⟩ := h2
    have : ls' = [] := List.prefix_nil.mp hp
    subst this
    refine ⟨[loader], List.prefix_refl _, ?_⟩
    rw [he, hl, List.append_nil]

theorem emits_site (c : Bool) (loader : Loader) (body : Step) (hb : Step.Emits body []) :
    Step.Emits (Step.when c (loadWith loader body)) (if c then [loader] else []) :=
  Step.emits_when c (emits_loadWith loader body hb)

theorem filter_cons_ite {α : Type} (p : α → Bool) (a : α) (l : List α) :
    List.filter p (a :: l) = (if p a then [a] else []) ++ List.filter p l := by
  cases h : p a <;> simp [List.filter, h]

theorem emits_loadSources (env : Env) (s : St) :
    Step.EmitsAt (_loadSources env) s (configuredLoaders s.impl._parametersManager) := by
  have h : Step.EmitsAt (_loadSources env) s
      ((if Loader.configured s.impl._parametersManager .environmentMap
          then [Loader.environmentMap] else []) ++
      ((if Loader.configured s.impl._parametersManager .splashMeshFolder
          then [Loader.splashMeshFolder] else []) ++
      ((if Loader.configured s.impl._parametersManager .colorMap
          then [Loader.colorMap] else []) ++
      ([] ++
      ((if Loader.configured s.impl._parametersManager .morphologyFolder
          then [Loader.morphologyFolder] else []) ++
      ((if Loader.configured s.impl._parametersManager .nestCircuit
          then [Loader.nestCircuit] else []) ++
      ((if Loader.configured s.impl._parametersManager .pdbFile
          then [Loader.pdbFile] else []) ++
      ((if Loader.configured s.impl._parametersManager .pdbFolder
          then [Loader.pdbFolder] else []) ++
      ((if Loader.configured s.impl._parametersManager .meshFolder
          then [Loader.meshFolder] else []) ++
      ((if Loader.configured s.impl._parametersManager .compartmentReport
          then [Loader.compartmentReport] else []) ++
      ((if Loader.configured s.impl._parametersManager .circuitConfiguration
          then [Loader.circuitConfiguration] else []) ++
      ((if Loader.configured s.impl._parametersManager .xyzbFile
          then [Loader.xyzbFile] else []) ++
      (if Loader.configured s.impl._parametersManager .molecularSystem
          then [Loader.molecularSystem] else []))))))))))))) := by
    refine Step.emitsAt_congr (g := Step.seq _ _) rfl ?_
    exact Step.emits_seq
      (emits_site _ _ _ (emits_onScene _ _ (by intro l h; cases h)))
      (Step.emits_seq (emits_site _ _ _ (emits_loadMeshFolder env _))
      (Step.emits_seq
        (emits_site _ _ _ (emits_callImporter _ _ _ _ (fun _ => Step.emits_skip)))
      (Step.emits_seq (emits_sceneCommitStep _ _ (by intro l h; cases h))
      (Step.emits_seq (emits_site _ _ _ (emits_loadMorphologyFolder env))
      (Step.emits_seq (emits_site _ _ _ (emits_loadNESTCircuit env))
      (Step.emits_seq (emits_site _ _ _ (emits_loadPDBFile env _))
      (Step.emits_seq (emits_site _ _ _ (emits_loadPDBFolder env))
      (Step.emits_seq (emits_site _ _ _ (emits_loadMeshFolder env _))
      (Step.emits_seq (emits_site _ _ _ (emits_loadCompartmentReport env))
      (Step.emits_seq (emits_site _ _ _ (emits_loadCircuitConfiguration env))
      (Step.emits_seq (emits_site _ _ _ (emits_loadXYZBFile env))
        (emits_site _ _ _ (emits_loadMolecularSystem env))))))))))))) s
  simp only [List.nil_append] at h
  simp only [configuredLoaders, Loader.order, filter_cons_ite, List.filter_nil, List.append_nil]
  exact h

theorem emits_volumeBoundsStep (spacing : Vector3f) :
    Step.Emits (volumeBoundsStep spacing) [] := by
  intro s1
  cases he1 : s1.impl._engine with
  | none =>
    exact emits_fail .nullEngine (by intro w h; cases h) _ s1 s1 []
      (by simp only [volumeBoundsStep, he1]) (by simp) rfl
  | some e1 =>
    exact emitsAt_of_prefix _ Step.skip s1 _ []
      (by simp only [volumeBoundsStep, he1, Step.skip]; rfl) (by simp [St.setScene]) rfl
      Step.emits_skip

theorem emits_loadData (env : Env) (s : St) :
    Step.EmitsAt (_loadData env) s (configuredLoaders s.impl._parametersManager) := by
  cases he : s.impl._engine with
  | none =>
    unfold Step.EmitsAt
    simp only [_loadData, he]
    exact ⟨(by intro w s' h; cases h), [], List.nil_prefix, by simp⟩
  | some e =>
    have h := Step.emitsAt_seq (emits_loadSources env s)
      (emits_volumeBoundsStep s.impl._parametersManager.volumeParameters.elementSpacing)
    rw [List.append_nil] at h
    exact Step.emitsAt_congr (by simp only [_loadData, he]) h

/-- The loader calls of a run of `_loadData`: those of the configured loaders,
all of them when the run returns, the first ones when it stops on a fault. -/
theorem loadData_loaderCalls (env : Env) (s : St) :
    ∃ ls : List Loader,
      loaderCalls (_loadData env s).state.trace = loaderCalls s.trace ++ ls ∧
      ls <+: configuredLoaders s.impl._parametersManager ∧
      ((_loadData env s).isOk = true → ls = configuredLoaders s.impl._parametersManager) := by
  obtain ⟨-, h⟩ := emits_loadData env s
  cases hr : _loadData env s with
  | ok s1 =>
    rw [hr] at h
    exact ⟨_, h, List.prefix_refl _, fun _ => rfl⟩
  | fail ft s1 =>
    rw [hr] at h
    obtain ⟨ls', hp, he⟩ := h
    exact ⟨ls', he, hp, by intro h; simp [Outcome.isOk] at h⟩

theorem mem_configuredLoaders (p : ParametersManager) (l : Loader) :
    l ∈ configuredLoaders p ↔ Loader.configured p l = true := by
  simp only [configuredLoaders, List.mem_filter, and_iff_right_iff_imp]
  intro _
  cases l <;> simp [Loader.order]

/-- Claim C10, amended: the compartment-report loader is called only if the
report parameter is not empty (whatever the circuit configuration and the
load-cache file), and the circuit-configuration loader is called only if a
circuit configuration is set and no load-cache file is requested; when
`_loadData` returns, each is called exactly under its condition. -/
theorem loadData_report_and_circuit (env : Env) (s : St) :
    ∃ ls : List Loader,
      loaderCalls (_loadData env s).state.trace = loaderCalls s.trace ++ ls ∧
      (Loader.compartmentReport ∈ ls →
        s.impl._parametersManager.geometryParameters.report ≠ "") ∧
      (Loader.circuitConfiguration ∈ ls →
        s.impl._parametersManager.geometryParameters.circuitConfiguration ≠ "" ∧
        s.impl._parametersManager.geometryParameters.loadCacheFile = "") ∧
      ((_loadData env s).isOk = true →
        (Loader.compartmentReport ∈ ls ↔
          s.impl._parametersManager.geometryParameters.report ≠ "") ∧
        (Loader.circuitConfiguration ∈ ls ↔
          (s.impl._parametersManager.geometryParameters.circuitConfiguration ≠ "" ∧
           s.impl._parametersManager.geometryParameters.loadCacheFile = ""))) := by
  obtain ⟨ls, h1, h2, h3⟩ := loadData_loaderCalls env s
  refine ⟨ls, h1, ?_, ?_, ?_⟩
  · intro hm
    have := (mem_configuredLoaders _ _).mp (h2.subset hm)
    simpa [Loader.configured] using this
  · intro hm
    have := (mem_configuredLoaders _ _).mp (h2.subset hm)
    simpa [Loader.configured] using this
  · intro hok
    rw [h3 hok, mem_configuredLoaders, mem_configuredLoaders]
    simp [Loader.configured]

theorem Step.seq_eq_ok {f g : Step} {s s2 : St} (h : Step.seq f g s = .ok s2) :
    ∃ s1, f s = .ok s1 ∧ g s1 = .ok s2 := by
  unfold Step.seq at h
  cases hf : f s with
  | ok s1 => rw [hf] at h; exact ⟨s1, rfl, h⟩
  | fail ft s1 => rw [hf] at h; cases h

theorem onEngine_eq_ok {call : Call} {f : Engine → Engine} {s s1 : St}
    (h : onEngine call f s = .ok s1) :
    ∃ e, s.impl._engine = some e ∧ s1 = s.advance { (f e) with id := e.id } [call] := by
  cases he : s.impl._engine with
  | none => simp [onEngine, he] at h
  | some e =>
    rw [onEngine_ok _ _ s e he] at h
    injection h with h
    exact ⟨e, rfl, h.symm⟩

/-- When the first part of `buildScene` returns, its last call was
`buildGeometry`. -/
theorem buildSceneGeometry_last (env : Env) (s s1 : St) (e1 : Engine)
    (hgeo : buildSceneGeometry env s = .ok s1) (h1 : s1.impl._engine = some e1) :
    ∃ tr, s1.trace = tr ++ [⟨some e1.id, .buildGeometry⟩] := by
  unfold buildSceneGeometry at hgeo
  obtain ⟨_, -, h⟩ := Step.seq_eq_ok hgeo
  obtain ⟨_, -, h⟩ := Step.seq_eq_ok h
  obtain ⟨_, -, h⟩ := Step.seq_eq_ok h
  obtain ⟨_, -, h⟩ := Step.seq_eq_ok h
  obtain ⟨s0, -, h⟩ := Step.seq_eq_ok h
  obtain ⟨e, -, hs1⟩ := onEngine_eq_ok h
  subst hs1
  simp only [St.advance_engine, Option.some.injEq] at h1
  subst h1
  exact ⟨s0.trace, rfl⟩

theorem buildSceneDefault_ok (env : Env) (s : St) (e : Engine) (hs : s.impl._engine = some e) :
    ∃ (eC : Engine), buildSceneDefault env s =
        .ok (s.advance eC (if e.scene.empty = true ∧ e.scene.volumeHandler = none
          then [.buildDefault, .buildGeometry] else [])) ∧
      eC.id = e.id ∧
      ((∀ sc, (env.buildDefault sc).empty = false) → e.scene.volumeHandler = none →
        eC.scene.empty = false) := by
  unfold buildSceneDefault
  simp only [hs]
  by_cases hc : e.scene.empty = true ∧ e.scene.volumeHandler = none
  · have hb : (e.scene.empty && e.scene.volumeHandler.isNone) = true := by
      simp [hc.1, hc.2]
    simp only [hb, Step.when, if_true, hc, and_self, Step.seq, sceneCommitStep,
      onScene_ok _ _ s e hs, Outcome.bind]
    rw [onScene_ok _ _ _ _ (St.advance_engine _ _ _), St.advance_advance _ _ _ _ _ (by rfl)]
    refine ⟨_, rfl, rfl, ?_⟩
    intro hd _
    exact hd e.scene
  · have hb : (e.scene.empty && e.scene.volumeHandler.isNone) = false := by
      cases h1 : e.scene.empty <;> cases h2 : e.scene.volumeHandler <;> simp_all
    simp only [hb, Step.when, Bool.false_eq_true, if_false, hc]
    refine ⟨e, by rw [St.advance_nil s e hs], rfl, ?_⟩
    intro _ hv
    cases h1 : e.scene.empty with
    | false => rfl
    | true => exact absurd ⟨h1, hv⟩ hc

theorem buildSceneCommit_ok (env : Env) (s : St) (e : Engine) (hs : s.impl._engine = some e) :
    ∃ fin : St, buildSceneCommit env s = .ok fin ∧
      fin.trace = s.trace ++ onEngineId e.id [.sceneCommit, .setupCameraManipulator .inspect,
        .setDefaultCamera, .setDefaultEpsilon, .engineCommit] ∧
      fin.impl.engineId = some e.id := by
  obtain ⟨⟨fac, pm, eng, kb, cm, ml⟩, tr⟩ := s
  simp only at hs
  subst hs
  simp only [buildSceneCommit, Step.seq, sceneCommitStep, onScene, onEngine, Outcome.bind,
    _setupCameraManipulator, engineCommitStep, engineHook]
  exact ⟨_, rfl, by simp [onEngineId], by simp [Impl.engineId]⟩

/-- Claim C6: when the first part of `buildScene` (data loading up to the
first `buildGeometry`) has returned in state `s1` with active engine `e1`,
`buildScene` returns and its remaining calls are `buildDefault` followed by a
second `buildGeometry` exactly when the scene of `e1` reports empty and has no
volume handler, then the scene commit and the four calls after it.  If
`buildDefault` makes every scene non-empty and `e1` has no volume handler,
the scene is non-empty in the state `sC` on which the scene commit is
issued. -/
theorem buildScene_default_scene (env : Env) (s s1 : St) (e1 : Engine)
    (hgeo : buildSceneGeometry env s = .ok s1) (h1 : s1.impl._engine = some e1) :
    (∃ tr, s1.trace = tr ++ [⟨some e1.id, .buildGeometry⟩]) ∧
    ∃ (sC fin : St) (eC : Engine),
      buildSceneDefault env s1 = .ok sC ∧ sC.impl._engine = some eC ∧
      buildSceneCommit env sC = .ok fin ∧ buildScene env s = .ok fin ∧
      fin.trace = s1.trace ++ onEngineId e1.id
        ((if e1.scene.empty = true ∧ e1.scene.volumeHandler = none
            then [.buildDefault, .buildGeometry] else []) ++
          [.sceneCommit, .setupCameraManipulator .inspect, .setDefaultCamera,
           .setDefaultEpsilon, .engineCommit]) ∧
      ((∀ sc, (env.buildDefault sc).empty = false) → e1.scene.volumeHandler = none →
        eC.scene.empty = false) := by
  refine ⟨buildSceneGeometry_last env s s1 e1 hgeo h1, ?_⟩
  obtain ⟨eC, hC, hidC, hne⟩ := buildSceneDefault_ok env s1 e1 h1
  obtain ⟨fin, hF, htr, -⟩ :=
    buildSceneCommit_ok env
      (s1.advance eC (if e1.scene.empty = true ∧ e1.scene.volumeHandler = none
        then [.buildDefault, .buildGeometry] else [])) eC (St.advance_engine _ _ _)
  refine ⟨_, fin, eC, hC, St.advance_engine _ _ _, hF, ?_, ?_, hne⟩
  · simp only [buildScene, Step.seq, hgeo, Outcome.bind, hC, hF]
  · rw [htr, St.advance_trace, hidC]
    simp [onEngineId, List.append_assoc]

/-- Witness of C6: without any configured loader and without volume handler
the default scene is built, and the scene committed is not empty. -/
theorem buildScene_default_scene_witness :
    ∃ (fin : St) (eC : Engine),
      buildScene Example.env Example.state = .ok fin ∧
      (buildSceneDefault Example.env
        (buildSceneGeometry Example.env Example.state).state).state.impl._engine = some eC ∧
      fin.trace = (buildSceneGeometry Example.env Example.state).state.trace ++
        onEngineId 1 [.buildDefault, .buildGeometry, .sceneCommit,
          .setupCameraManipulator .inspect, .setDefaultCamera, .setDefaultEpsilon,
          .engineCommit] ∧
      eC.scene.empty = false := by
  obtain ⟨-, sC, fin, eC, hC, heC, -, hB, htr, hne⟩ :=
    buildScene_default_scene Example.env Example.state
      (buildSceneGeometry Example.env Example.state).state _ rfl rfl
  refine ⟨fin, eC, hB, ?_, ?_, hne (fun sc => by simp [Example.env, Scene.empty]) rfl⟩
  · rw [hC]
    exact heC
  · rw [htr]
    rfl

/-! ## Engine creation -/

theorem Step.seq_no_runtimeError {f g : Step}
    (hf : ∀ s w s', f s ≠ .fail (.runtimeError w) s')
    (hg : ∀ s w s', g s ≠ .fail (.runtimeError w) s') :
    ∀ s w s', Step.seq f g s ≠ .fail (.runtimeError w) s' := by
  intro s w s' h
  unfold Step.seq at h
  cases hfs : f s with
  | ok s1 => rw [hfs] at h; exact hg s1 w s' h
  | fail ft s1 => rw [hfs] at h; exact hf s w s' (by rw [hfs]; exact h)

theorem emits_no_runtimeError {f : Step} {ls : List Loader} (h : Step.Emits f ls) :
    ∀ s w s', f s ≠ .fail (.runtimeError w) s' :=
  fun s => (h s).1

theorem setupCameraManipulator_no_runtimeError (mode : CameraMode) :
    ∀ s w s', _setupCameraManipulator mode s ≠ .fail (.runtimeError w) s' := by
  intro s w s' h
  unfold _setupCameraManipulator at h
  cases he : s.impl._engine with
  | none => simp [he] at h
  | some e => simp [he] at h

theorem buildScene_no_runtimeError (env : Env) :
    ∀ s w s', buildScene env s ≠ .fail (.runtimeError w) s' := by
  have hc : ∀ (call : Call) (h : Scene → Nat), (∀ l, call ≠ .load l) →
      ∀ s w s', sceneCommitStep call h s ≠ .fail (.runtimeError w) s' :=
    fun call h hcall => emits_no_runtimeError (emits_sceneCommitStep call h hcall)
  refine Step.seq_no_runtimeError ?_ (Step.seq_no_runtimeError ?_ ?_)
  · refine Step.seq_no_runtimeError ?_ (Step.seq_no_runtimeError ?_
      (Step.seq_no_runtimeError ?_ (Step.seq_no_runtimeError ?_
      (Step.seq_no_runtimeError ?_ ?_))))
    · intro s w s' h
      cases h
    · exact fun s => (emits_loadData env s).1
    · exact hc _ _ (by intro l h; cases h)
    · exact hc _ _ (by intro l h; cases h)
    · exact hc _ _ (by intro l h; cases h)
    · exact hc _ _ (by intro l h; cases h)
  · intro s w s' h
    unfold buildSceneDefault at h
    cases he : s.impl._engine with
    | none => simp [he] at h
    | some e =>
      simp only [he] at h
      exact emits_no_runtimeError (Step.emits_when_nil _
        (Step.emits_seq_nil (emits_onScene _ _ (by intro l h; cases h))
          (emits_sceneCommitStep _ _ (by intro l h; cases h)))) s w s' h
  · refine Step.seq_no_runtimeError (hc _ _ (by intro l h; cases h))
      (Step.seq_no_runtimeError (setupCameraManipulator_no_runtimeError _)
      (Step.seq_no_runtimeError
        (emits_no_runtimeError (emits_onEngine _ _ (by intro l h; cases h)))
      (Step.seq_no_runtimeError
        (emits_no_runtimeError (emits_engineCommitStep _ _ (by intro l h; cases h)))
        (emits_no_runtimeError (emits_engineHook _ _ (by intro l h; cases h))))))

/-- The calls with which `createEngine` releases the engine that is active
when it is entered. -/
theorem releaseEngine_trace (env : Env) (s : St) :
    (releaseEngine env s).trace = s.trace ++
      (match s.impl._engine with
       | some e => [⟨some e.id, .factoryRemove⟩, ⟨some e.id, .engineReset⟩]
       | none => []) ∧
    (releaseEngine env s).impl._engine = none ∧
    (releaseEngine env s).impl._parametersManager = s.impl._parametersManager ∧
    (releaseEngine env s).impl._engineFactory =
      (match s.impl._engine with
       | some e => env.factoryRemove e s.impl._engineFactory
       | none => s.impl._engineFactory) := by
  unfold releaseEngine
  cases he : s.impl._engine with
  | none => simp [he]
  | some e => simp

/-- Claim C8: `createEngine` stops with the error "Unsupported engine: "
followed by the engine name of the rendering parameters if and only if the
factory returns no engine for that name; and when it stops with a
`runtime_error`, the calls it has issued are the removal from the factory and
the release of the engine that was active (if any) and the factory lookup,
nothing else: no light added, no scene construction, no recreate callback;
no engine is active afterwards. -/
theorem createEngine_unsupported (env : Env) (s : St) :
    ((∃ s', createEngine env s =
        .fail (.runtimeError
          ("Unsupported engine: " ++ s.impl._parametersManager.renderingParameters.engine)) s') ↔
      (env.factoryGet s.impl._parametersManager.renderingParameters.engine
        (releaseEngine env s).impl._engineFactory).1 = none) ∧
    (∀ w s', createEngine env s = .fail (.runtimeError w) s' →
      w = "Unsupported engine: " ++ s.impl._parametersManager.renderingParameters.engine ∧
      s'.impl._engine = none ∧
      s'.trace = s.trace ++
        (match s.impl._engine with
         | some e => [⟨some e.id, .factoryRemove⟩, ⟨some e.id, .engineReset⟩]
         | none => []) ++
        [⟨none, .factoryGet s.impl._parametersManager.renderingParameters.engine⟩] ∧
      s'.impl._cameraManipulator = s.impl._cameraManipulator ∧
      s'.impl._meshLoader = s.impl._meshLoader ∧
      s'.impl._engineFactory =
        (env.factoryGet s.impl._parametersManager.renderingParameters.engine
          (match s.impl._engine with
           | some e => env.factoryRemove e s.impl._engineFactory
           | none => s.impl._engineFactory)).2) := by
  obtain ⟨htr, hnone, hpm, hfac⟩ := releaseEngine_trace env s
  have hcases : ∀ w s', createEngine env s = .fail (.runtimeError w) s' →
      (env.factoryGet s.impl._parametersManager.renderingParameters.engine
        (releaseEngine env s).impl._engineFactory).1 = none ∧
      w = "Unsupported engine: " ++ s.impl._parametersManager.renderingParameters.engine ∧
      s' = lookupEngine env (releaseEngine env s) := by
    intro w s' h
    unfold createEngine at h
    simp only at h
    cases hg : (lookupEngine env (releaseEngine env s)).impl._engine with
    | none =>
      rw [hg] at h
      simp only at h
      injection h with h1 h2
      injection h1 with h1
      refine ⟨?_, ?_, h2.symm⟩
      · simpa [lookupEngine, hpm] using hg
      · rw [← h1]
        simp [lookupEngine, hpm]
    | some e =>
      rw [hg] at h
      simp only at h
      exact absurd h (Step.seq_no_runtimeError
        (emits_no_runtimeError (emits_onScene _ _ (by intro l h; cases h)))
        (Step.seq_no_runtimeError (buildScene_no_runtimeError env)
          (emits_no_runtimeError (emits_onEngine _ _ (by intro l h; cases h)))) _ w s')
  refine ⟨⟨?_, ?_⟩, ?_⟩
  · rintro ⟨s', h⟩
    exact (hcases _ s' h).1
  · intro hg
    refine ⟨lookupEngine env (releaseEngine env s), ?_⟩
    have hg' : (lookupEngine env (releaseEngine env s)).impl._engine = none := by
      simpa [lookupEngine, hpm] using hg
    unfold createEngine
    simp only [hg']
    simp [lookupEngine, hpm]
  · intro w s' h
    obtain ⟨-, hw, hs'⟩ := hcases w s' h
    subst hs'
    have hg := (hcases w _ h).1
    refine ⟨hw, ?_, ?_, ?_, ?_, ?_⟩
    · simpa [lookupEngine, hpm] using hg
    · simp [lookupEngine, htr, hpm]
    · unfold lookupEngine releaseEngine
      cases s.impl._engine <;> rfl
    · unfold lookupEngine releaseEngine
      cases s.impl._engine <;> rfl
    · simp [lookupEngine, hpm, hfac]

/-! ## Witnesses for data loading and engine creation -/

/-- Witness of C7: a volume of dimensions (4, 5, 6) at offset (1, 1, 1) with
spacing (1/2, 1, 2); the world bounds contain the origin, the far corner
(3, 6, 13) and a point of the former bounds. -/
theorem loadData_worldBounds_contains_volume_witness :
    ∃ (s2 : St) (e2 : Engine), _loadData Example.env Example.volumeState = .ok s2 ∧
      s2.impl._engine = some e2 ∧
      e2.scene.worldBounds.contains ⟨0, 0, 0⟩ ∧
      e2.scene.worldBounds.contains ⟨3, 6, 13⟩ ∧
      e2.scene.worldBounds.contains ⟨2, 1, 3 / 2⟩ := by
  obtain ⟨s2, e2, h1, h2, h3, h4, h5⟩ :=
    loadData_worldBounds_contains_volume Example.env Example.volumeState
      (_loadSources Example.env Example.volumeState).state _ _ ⟨⟨4, 5, 6⟩, ⟨1, 1, 1⟩, 3⟩
      rfl rfl rfl rfl
  refine ⟨s2, e2, h1, h2, h3, ?_, h5 _ ?_⟩
  · have : (⟨3, 6, 13⟩ : Vector3f) =
        (⟨1, 1, 1⟩ : Vector3f).add ((Vector3f.ofVector3ui ⟨4, 5, 6⟩).mul
          Example.volumeState.impl._parametersManager.volumeParameters.elementSpacing) := by
      simp [Vector3f.add, Vector3f.mul, Vector3f.ofVector3ui, Example.volumeState]
      norm_num
    rw [this]
    exact h4
  · simp [Boxf.contains, Vector3f.le, Example.scene]
    norm_num

/-- Witness of C10 (amended): with a report and a load-cache file but no
circuit configuration, the compartment-report loader is called and the
circuit-configuration loader is not. -/
theorem loadData_report_and_circuit_witness :
    ∃ ls : List Loader,
      loaderCalls (_loadData Example.env Example.reportState).state.trace = ls ∧
      (Loader.compartmentReport ∈ ls ↔ "r" ≠ "") ∧
      (Loader.circuitConfiguration ∈ ls ↔ ("" ≠ "" ∧ "cache" = "")) := by
  obtain ⟨ls, h1, -, -, h4⟩ := loadData_report_and_circuit Example.env Example.reportState
  exact ⟨ls, h1, (h4 rfl).1, (h4 rfl).2⟩

/-- Counterexample to C10 as stated: with the report "r", no circuit
configuration and the load-cache file "cache", the compartment-report loader
is called. -/
theorem loadData_report_counterexample :
    Loader.compartmentReport ∈
        loaderCalls (_loadData Example.env Example.reportState).state.trace ∧
      Example.reportState.impl._parametersManager.geometryParameters.circuitConfiguration = "" ∧
      Example.reportState.impl._parametersManager.geometryParameters.loadCacheFile ≠ "" := by
  refine ⟨?_, rfl, by decide⟩
  decide

/-- Witness of C8: the engine name "foo" is unknown to the factory; engine 1
is removed and released, the lookup fails, and nothing else is called. -/
theorem createEngine_unsupported_witness :
    ∃ s', createEngine Example.env Example.unknownEngineState =
        .fail (.runtimeError "Unsupported engine: foo") s' ∧
      s'.impl._engine = none ∧
      s'.trace = [⟨some 1, .factoryRemove⟩, ⟨some 1, .engineReset⟩, ⟨none, .factoryGet "foo"⟩] := by
  obtain ⟨s', h⟩ := (createEngine_unsupported Example.env Example.unknownEngineState).1.mpr rfl
  obtain ⟨-, h2, h3, -⟩ :=
    (createEngine_unsupported Example.env Example.unknownEngineState).2 _ s' h
  exact ⟨s', h, h2, h3⟩

/-! ## Timestamp shortcuts -/

theorem timestamp_setTimestamp (i : Impl) (ts : ℚ) : (i.setTimestamp ts).timestamp = ts := rfl

/-- The decrease shortcut subtracts 1 from a timestamp greater than 0 and
leaves any other timestamp unchanged. -/
theorem decreaseTimestamp_timestamp (i : Impl) :
    (i.pressTimestamp .decrease).timestamp
      = if i.timestamp > 0 then i.timestamp - 1 else i.timestamp := by
  simp only [pressTimestamp, _decreaseTimestamp, timestamp]
  split <;> rfl

/-- One press of a timestamp shortcut keeps the timestamp above -1 when it was
non-negative or above -1 already. -/
theorem pressTimestamp_gt (i : Impl) (p : TimestampPress) (h : -1 < i.timestamp) :
    -1 < (i.pressTimestamp p).timestamp := by
  cases p
  · rw [decreaseTimestamp_timestamp]
    split
    · linarith
    · exact h
  · show -1 < i.timestamp + 1
    linarith
  · show (-1 : ℚ) < 0
    norm_num

/-- Whatever the presses, a timestamp above -1 stays above -1. -/
theorem pressTimestampAll_gt (presses : List TimestampPress) (i : Impl) (h : -1 < i.timestamp) :
    -1 < (i.pressTimestampAll presses).timestamp := by
  induction presses generalizing i with
  | nil => exact h
  | cons p ps ih => exact ih _ (pressTimestamp_gt i p h)

/-- One press of a timestamp shortcut takes a whole, non-negative timestamp to
a whole, non-negative timestamp. -/
theorem pressTimestamp_whole (i : Impl) (p : TimestampPress) (n : ℕ) (h : i.timestamp = n) :
    ∃ m : ℕ, (i.pressTimestamp p).timestamp = m := by
  cases p
  · rw [decreaseTimestamp_timestamp, h]
    cases n with
    | zero => exact ⟨0, by simp⟩
    | succ k =>
      refine ⟨k, ?_⟩
      have hk : (0 : ℚ) < ((k + 1 : ℕ) : ℚ) := by exact_mod_cast Nat.succ_pos k
      rw [if_pos hk]
      push_cast
      ring
  · exact ⟨n + 1, by show i.timestamp + 1 = _; rw [h]; push_cast; ring⟩
  · exact ⟨0, by show (0 : ℚ) = _; simp⟩

/-- Whatever the presses, a whole, non-negative timestamp stays whole and
non-negative. -/
theorem pressTimestampAll_whole (presses : List TimestampPress) (i : Impl) (n : ℕ)
    (h : i.timestamp = n) :
    ∃ m : ℕ, (i.pressTimestampAll presses).timestamp = m := by
  induction presses generalizing i n with
  | nil => exact ⟨n, h⟩
  | cons p ps ih =>
    obtain ⟨m, hm⟩ := pressTimestamp_whole i p n h
    exact ih _ m hm

namespace ExtendedCones

theorem toSizeT_eq_zero (v : Int) (h1 : -(2 : Int) ^ 31 ≤ v) (h2 : v < 2 ^ 31) :
    Impl.toSizeT v = 0 ↔ v = 0 := by
  unfold Impl.toSizeT
  constructor
  · intro h
    have h0 : v % 2 ^ 64 ≤ 0 := Int.toNat_eq_zero.mp h
    have h3 : 0 ≤ v % 2 ^ 64 := Int.emod_nonneg _ (by norm_num)
    have h4 : v % 2 ^ 64 = 0 := le_antisymm h0 h3
    norm_num at h1 h2 h4
    omega
  · rintro rfl
    rfl

theorem toSizeT_of_nonneg (v : Int) (h1 : 0 ≤ v) (h2 : v < 2 ^ 31) :
    (Impl.toSizeT v : Int) = v := by
  unfold Impl.toSizeT
  have h3 : v % 2 ^ 64 = v := Int.emod_eq_of_lt h1 (by norm_num at h2 ⊢; omega)
  rw [h3]
  exact Int.toNat_of_nonneg h1

theorem stride_in_range (p : Params) (h : p.InRange) :
    -(2 : Int) ^ 31 ≤ getParam1i p.bytes_per_extended_cone (9 * sizeofFloat)
    ∧ getParam1i p.bytes_per_extended_cone (9 * sizeofFloat) < 2 ^ 31 := by
  unfold getParam1i
  cases hv : p.bytes_per_extended_cone with
  | none => simp [sizeofFloat]
  | some v => simpa using h v hv

/-- With the data array set and a non-zero stride, `finalize` returns the
arguments computed from the parameters. -/
theorem finalize_ok (p : Params) (data : Data) (hd : p.extendedcones = some data)
    (hb : Impl.toSizeT (getParam1i p.bytes_per_extended_cone (9 * sizeofFloat)) ≠ 0) :
    ∃ g, finalize p = .ok g
      ∧ g.bytesPerCone = Impl.toSizeT (getParam1i p.bytes_per_extended_cone (9 * sizeofFloat))
      ∧ g.numExtendedCones = data.numBytes / g.bytesPerCone := by
  simp only [finalize, hd, if_neg hb]
  exact ⟨_, rfl, rfl, rfl⟩

/-- Claim C18: for 32-bit `int` parameters, `finalize` raises the "no
'extendedcones' data specified" error exactly when the data parameter is
absent or the parameter `bytes_per_extended_cone` is 0, and raises no other
error; otherwise it returns, the stride handed to the backend is not 0 (it is
the parameter itself when that is positive), the cone count handed to the
backend is the floor of `numBytes / bytesPerCone`, and
`count * bytesPerCone ≤ numBytes < (count + 1) * bytesPerCone`; with the
default parameters the stride is 36, the offsets of centre, up, radius, length
and frame are 0, 12, 24, 28 and 32, every field lies within the stride and no
two fields overlap. -/
theorem finalize_cone_count (p : Params) (h : p.InRange) :
    (finalize p = .error noData ↔
      (p.extendedcones = none ∨ getParam1i p.bytes_per_extended_cone (9 * sizeofFloat) = 0))
    ∧ (∀ msg, finalize p = .error msg → msg = noData)
    ∧ (∀ data, p.extendedcones = some data →
        getParam1i p.bytes_per_extended_cone (9 * sizeofFloat) ≠ 0 →
        ∃ g, finalize p = .ok g
          ∧ g.bytesPerCone ≠ 0
          ∧ (0 < getParam1i p.bytes_per_extended_cone (9 * sizeofFloat) →
              (g.bytesPerCone : Int) = getParam1i p.bytes_per_extended_cone (9 * sizeofFloat))
          ∧ g.numExtendedCones = ⌊(data.numBytes : ℚ) / (g.bytesPerCone : ℚ)⌋₊
          ∧ g.numExtendedCones * g.bytesPerCone ≤ data.numBytes
          ∧ data.numBytes < (g.numExtendedCones + 1) * g.bytesPerCone)
    ∧ (∀ data, ∃ g, finalize (defaults data) = .ok g
          ∧ g.bytesPerCone = 36
          ∧ Field.all.map g.offset = [0, 12, 24, 28, 32]
          ∧ (∀ f, g.Inside f)
          ∧ (∀ f f', f ≠ f' → g.Apart f f')) := by
  obtain ⟨r1, r2⟩ := stride_in_range p h
  have hz := toSizeT_eq_zero _ r1 r2
  refine ⟨?_, ?_, ?_, ?_⟩
  · cases hd : p.extendedcones with
    | none => simp [finalize, hd]
    | some data =>
      by_cases hb : getParam1i p.bytes_per_extended_cone (9 * sizeofFloat) = 0
      · simp [finalize, hd, hb, Impl.toSizeT]
      · have hb2 := mt hz.mp hb
        obtain ⟨g, hg, -⟩ := finalize_ok p data hd hb2
        simp [hg, hb]
  · intro msg hm
    cases hd : p.extendedcones with
    | none =>
      simp only [finalize, hd] at hm
      exact (Except.error.inj hm).symm
    | some data =>
      by_cases hb : Impl.toSizeT (getParam1i p.bytes_per_extended_cone (9 * sizeofFloat)) = 0
      · simp only [finalize, hd, if_pos hb] at hm
        exact (Except.error.inj hm).symm
      · obtain ⟨g, hg, -⟩ := finalize_ok p data hd hb
        rw [hg] at hm
        exact absurd hm (by simp)
  · intro data hd hb
    have hb2 := mt hz.mp hb
    obtain ⟨g, hg, hs, hc⟩ := finalize_ok p data hd hb2
    have hpos : 0 < g.bytesPerCone := by
      rw [hs]
      exact Nat.pos_of_ne_zero hb2
    refine ⟨g, hg, Nat.pos_iff_ne_zero.mp hpos, ?_, ?_, ?_, ?_⟩
    · intro hp
      rw [hs]
      exact toSizeT_of_nonneg _ (le_of_lt hp) r2
    · rw [hc]
      exact (Nat.floor_div_eq_div _ _).symm
    · rw [hc]
      exact Nat.div_mul_le_self _ _
    · rw [hc]
      have h1 := Nat.div_add_mod data.numBytes g.bytesPerCone
      have h2 := Nat.mod_lt data.numBytes hpos
      rw [Nat.add_mul, Nat.one_mul, Nat.mul_comm]
      omega
  · intro data
    refine ⟨_, rfl, rfl, rfl, ?_, ?_⟩
    · intro f
      cases f <;>
        simp [GeometrySet.Inside, GeometrySet.offset, Field.size, sizeofFloat, getParam1i,
          defaults, Impl.toSizeT]
    · intro f f' hf
      cases f <;> cases f' <;>
        first
        | exact absurd rfl hf
        | simp [GeometrySet.Apart, GeometrySet.offset, Field.size, sizeofFloat, getParam1i,
            defaults]

/-- Witness of C18: 100 bytes of data with the default stride of 36 bytes hold
2 cones. -/
theorem finalize_cone_count_witness :
    (defaults ⟨100, 0⟩).InRange ∧
    ∃ g, finalize (defaults ⟨100, 0⟩) = .ok g ∧ g.numExtendedCones = 2
      ∧ g.numExtendedCones * g.bytesPerCone ≤ 100
      ∧ 100 < (g.numExtendedCones + 1) * g.bytesPerCone := by
  have hr : (defaults ⟨100, 0⟩).InRange := by
    intro v hv
    simp [defaults] at hv
  obtain ⟨g, hg, -, -, -, h5, h6⟩ :=
    (finalize_cone_count (defaults ⟨100, 0⟩) hr).2.2.1 ⟨100, 0⟩ rfl (by decide)
  refine ⟨hr, g, hg, ?_, h5, h6⟩
  have hg2 : finalize (defaults ⟨100, 0⟩) = .ok g := hg
  rw [show finalize (defaults ⟨100, 0⟩) = .ok _ from rfl] at hg2
  rw [← Except.ok.inj hg2]
  rfl

end ExtendedCones

/-! ## Camera manipulator selection -/

theorem registerKeyboardShortcuts_handler (i : Impl) :
    i._registerKeyboardShortcuts._keyboardHandler = i._keyboardHandler ++ Impl.shortcuts := by
  have h : ∀ (l : List KeyboardShortcut) (h0 : KeyboardHandler),
      l.foldl (fun h b => h.registerKeyboardShortcut b.key b.description b.action) h0
        = h0 ++ l := by
    intro l
    induction l with
    | nil => intro h0; simp
    | cons b bs ih =>
      intro h0
      rw [List.foldl_cons, ih]
      simp [KeyboardHandler.registerKeyboardShortcut]
  exact h _ _

/-- Claim C15: on a state with an active engine, whatever its camera pose,
`_setupCameraManipulator` returns for either mode; the active engine, hence
the position, target and up vector of its camera, is unchanged; the
manipulator is the one new manipulator of the requested variant bound to the
camera of the active engine; the keyboard handler and its registered
shortcuts are unchanged; the keys `f` and `i` are bound to the flying and
inspect mode switches. -/
theorem setupCameraManipulator_frame (mode : CameraMode) (s : St) (e : Engine)
    (h : s.impl._engine = some e) :
    (∃ s', _setupCameraManipulator mode s = .ok s'
      ∧ s'.impl._engine = some e
      ∧ s'.impl._cameraManipulator = some (AbstractManipulator.ofMode mode e.id)
      ∧ s'.impl._keyboardHandler = s.impl._keyboardHandler
      ∧ s'.impl._parametersManager = s.impl._parametersManager
      ∧ s'.trace = s.trace ++ [⟨some e.id, .setupCameraManipulator mode⟩])
    ∧ (∀ i : Impl, i._keyboardHandler = [] →
        i._registerKeyboardShortcuts._keyboardHandler.length = 23
        ∧ (i._registerKeyboardShortcuts._keyboardHandler.action? 'f').bind
            ShortcutAction.cameraMode? = some .flying
        ∧ (i._registerKeyboardShortcuts._keyboardHandler.action? 'i').bind
            ShortcutAction.cameraMode? = some .inspect
        ∧ ∀ key a, i._registerKeyboardShortcuts._keyboardHandler.action? key = some a →
            a.cameraMode? ≠ none → key = 'f' ∨ key = 'i') := by
  refine ⟨?_, ?_⟩
  · simp only [_setupCameraManipulator, h]
    refine ⟨_, rfl, rfl, ?_, rfl, rfl, rfl⟩
    cases mode <;> rfl
  · intro i hi
    have hk : i._registerKeyboardShortcuts._keyboardHandler = Impl.shortcuts := by
      rw [registerKeyboardShortcuts_handler, hi]
      rfl
    rw [hk]
    refine ⟨rfl, rfl, rfl, ?_⟩
    intro key a ha hm
    simp only [KeyboardHandler.action?, Option.map_eq_some'] at ha
    obtain ⟨b, hb, rfl⟩ := ha
    have hmem := List.mem_of_find?_eq_some hb
    have hkey := List.find?_some hb
    have hall : ∀ b ∈ Impl.shortcuts, b.action.cameraMode? ≠ none → b.key = 'f' ∨ b.key = 'i' := by
      decide
    have := hall b hmem hm
    simp only [beq_iff_eq] at hkey
    rw [← hkey]
    exact this

/-- Witness of C15: switching to the flying mode with the camera at position
(0, 0, 5) and the 23 shortcuts registered. -/
theorem setupCameraManipulator_frame_witness :
    ∃ s', _setupCameraManipulator .flying Example.registeredState = .ok s'
      ∧ s'.impl._engine.map (fun e => e.camera) = some ⟨⟨0, 0, 5⟩, ⟨0, 0, 0⟩, ⟨0, 1, 0⟩⟩
      ∧ s'.impl._cameraManipulator = some (.FlyingModeManipulator 1)
      ∧ s'.impl._keyboardHandler = Impl.shortcuts := by
  obtain ⟨s', h1, h2, h3, h4, -⟩ :=
    (setupCameraManipulator_frame .flying Example.registeredState _ rfl).1
  exact ⟨s', h1, by rw [h2]; rfl, h3, by rw [h4]; rfl⟩

/-! ## The two renders side by side -/

/-- Claim C13, at an input on which it fails: with the head light on, the same
window size, and the camera already at the pose of the render input, the
headless render commits the camera before the head-light update (direction,
then light commit) and the interactive render after it, so that the calls the
two renders share are not issued in the same order; the other calls agree. -/
theorem render_camera_commit_order :
    ∃ finH out finW,
      render Example.env Example.renderInput Example.renderOutput Example.posedState
        = .ok (finH, out) ∧
      renderWindow Example.env Example.posedState = .ok finW ∧
      sharedCalls finH.trace =
        [.reshape ⟨2, 1⟩, .preRender, .execute, .cameraCommit,
         .setDirection (Vector3f.sub ⟨0, 0, 0⟩ ⟨0, 0, 5⟩), .commitLights,
         .setActiveRenderer .basic, .render, .postRender] ∧
      sharedCalls finW.trace =
        [.reshape ⟨2, 1⟩, .preRender, .execute,
         .setDirection (Vector3f.sub ⟨0, 0, 0⟩ ⟨0, 0, 5⟩), .commitLights, .cameraCommit,
         .setActiveRenderer .basic, .render, .postRender] ∧
      sharedCalls finH.trace ≠ sharedCalls finW.trace := by
  refine ⟨_, _, _, rfl, rfl, rfl, rfl, ?_⟩
  intro h
  have h4 := congrArg (fun l => l.get? 3) h
  exact absurd h4 (by
    show some Call.cameraCommit ≠ some (Call.setDirection (Vector3f.sub ⟨0, 0, 0⟩ ⟨0, 0, 5⟩))
    simp)

theorem addLightCalls_append (a b : List Event) :
    addLightCalls (a ++ b) = addLightCalls a ++ addLightCalls b := by
  simp [addLightCalls, List.filterMap_append]

theorem addLightCalls_single (id : Option Nat) (call : Call) (hc : call.isAddLight = false) :
    addLightCalls [⟨id, call⟩] = [] := by
  cases call <;> simp_all [addLightCalls, Call.isAddLight]

theorem addLightCalls_snoc (tr : List Event) (id : Option Nat) (call : Call)
    (hc : call.isAddLight = false) :
    addLightCalls (tr ++ [⟨id, call⟩]) = addLightCalls tr := by
  rw [addLightCalls_append, addLightCalls_single id call hc, List.append_nil]

theorem Step.regular_skip (env : Env) : Step.Regular env Step.skip := by
  intro s e he
  refine ⟨?_, fun _ => ⟨s, rfl⟩⟩
  intro s' h
  simp only [Step.skip] at h
  injection h with h
  subst h
  exact ⟨e, he, rfl, rfl, rfl, fun _ => rfl⟩

theorem Step.regularAt_seq {env : Env} {f g : Step} {s : St}
    (hf : Step.RegularAt env f s) (hg : Step.Regular env g) :
    Step.RegularAt env (Step.seq f g) s := by
  intro e he
  obtain ⟨hf1, hf2⟩ := hf e he
  constructor
  · intro s' h
    obtain ⟨s1, h1, h2⟩ := Step.seq_eq_ok h
    obtain ⟨e1, he1, hid1, hp1, ha1, hl1⟩ := hf1 s1 h1
    obtain ⟨hg1, -⟩ := hg s1 e1 he1
    obtain ⟨e2, he2, hid2, hp2, ha2, hl2⟩ := hg1 s' h2
    exact ⟨e2, he2, hid2.trans hid1, hp2.trans hp1, ha2.trans ha1,
      fun hL => (hl2 hL).trans (hl1 hL)⟩
  · intro hT
    obtain ⟨s1, h1⟩ := hf2 hT
    obtain ⟨e1, he1, -⟩ := hf1 s1 h1
    obtain ⟨s2, h2⟩ := (hg s1 e1 he1).2 hT
    exact ⟨s2, Step.seq_ok h1 h2⟩

theorem Step.regular_seq {env : Env} {f g : Step}
    (hf : Step.Regular env f) (hg : Step.Regular env g) : Step.Regular env (Step.seq f g) :=
  fun s => Step.regularAt_seq (hf s) hg

theorem Step.regular_when {env : Env} {f : Step} (c : Bool) (hf : Step.Regular env f) :
    Step.Regular env (Step.when c f) := by
  intro s
  cases c with
  | true => exact hf s
  | false => exact Step.regular_skip env s

theorem Step.regularAt_congr {env : Env} {f g : Step} {s : St} (h : f s = g s)
    (hg : Step.RegularAt env g s) : Step.RegularAt env f s := by
  unfold Step.RegularAt at hg ⊢
  rw [h]
  exact hg

/-- A step that returns in a state with the same engine identity, the same
parameters and no light added is regular there. -/
theorem regularAt_of_ok (env : Env) (f : Step) (s s1 : St) (e e1 : Engine)
    (he : s.impl._engine = some e) (hf : f s = .ok s1) (he1 : s1.impl._engine = some e1)
    (hid : e1.id = e.id) (hp : s1.impl._parametersManager = s.impl._parametersManager)
    (ha : addLightCalls s1.trace = addLightCalls s.trace)
    (hl : env.KeepsLights → e1.scene.lights = e.scene.lights) :
    Step.RegularAt env f s := by
  intro e0 he0
  rw [he] at he0
  injection he0 with he0
  subst he0
  refine ⟨?_, fun _ => ⟨s1, hf⟩⟩
  intro s' h
  rw [hf] at h
  injection h with h
  subst h
  exact ⟨e1, he1, hid, hp, ha, hl⟩

/-- A step that first moves to the state `s1`, with the same engine identity,
parameters and added lights, and then runs the regular step `g`. -/
theorem regularAt_of_prefix (env : Env) (f g : Step) (s s1 : St) (e e1 : Engine)
    (he : s.impl._engine = some e) (hfg : f s = g s1) (he1 : s1.impl._engine = some e1)
    (hid : e1.id = e.id) (hp : s1.impl._parametersManager = s.impl._parametersManager)
    (ha : addLightCalls s1.trace = addLightCalls s.trace)
    (hl : env.KeepsLights → e1.scene.lights = e.scene.lights)
    (hg : Step.Regular env g) : Step.RegularAt env f s := by
  intro e0 he0
  rw [he] at he0
  injection he0 with he0
  subst he0
  obtain ⟨h1, h2⟩ := hg s1 e1 he1
  rw [hfg]
  refine ⟨?_, h2⟩
  intro s' h
  obtain ⟨e', he', hid', hp', ha', hl'⟩ := h1 s' h
  exact ⟨e', he', hid'.trans hid, hp'.trans hp, ha'.trans ha, fun hL => (hl' hL).trans (hl hL)⟩

theorem regularAt_none (env : Env) (f : Step) (s : St) (he : s.impl._engine = none) :
    Step.RegularAt env f s := by
  intro e h
  rw [he] at h
  cases h

theorem regular_onEngine (env : Env) (call : Call) (f : Engine → Engine)
    (hc : call.isAddLight = false)
    (hl : env.KeepsLights → ∀ e, (f e).scene.lights = e.scene.lights) :
    Step.Regular env (onEngine call f) := by
  intro s
  cases he : s.impl._engine with
  | none => exact regularAt_none env _ s he
  | some e =>
    refine regularAt_of_ok env _ s _ e _ he (onEngine_ok call f s e he) (St.advance_engine _ _ _)
      rfl rfl ?_ (fun hL => hl hL e)
    simp only [St.advance_trace, onEngineId, List.map_cons, List.map_nil]
    exact addLightCalls_snoc _ _ _ hc

theorem regular_onScene (env : Env) (call : Call) (f : Scene → Scene)
    (hc : call.isAddLight = false) (hl : env.KeepsLights → ∀ sc, (f sc).lights = sc.lights) :
    Step.Regular env (onScene call f) :=
  regular_onEngine env call _ hc (fun hL e => hl hL e.scene)

theorem regular_sceneCommitStep (env : Env) (call : Call) (h : Scene → Nat)
    (hc : call.isAddLight = false) : Step.Regular env (sceneCommitStep call h) :=
  regular_onScene env call _ hc (fun _ _ => rfl)

theorem regular_engineHook (env : Env) (call : Call) (h : Engine → FrameBuffer × Nat)
    (hc : call.isAddLight = false) : Step.Regular env (engineHook call h) :=
  regular_onEngine env call _ hc (fun _ _ => rfl)

theorem regular_engineCommitStep (env : Env) (call : Call) (h : Engine → Nat)
    (hc : call.isAddLight = false) : Step.Regular env (engineCommitStep call h) :=
  regular_onEngine env call _ hc (fun _ _ => rfl)

theorem regular_logError (env : Env) (what : String) : Step.Regular env (logError what) := by
  intro s
  cases he : s.impl._engine with
  | none => exact regularAt_none env _ s he
  | some e =>
    exact regularAt_of_ok env _ s _ e e he rfl he rfl rfl (addLightCalls_snoc _ _ _ rfl)
      (fun _ => rfl)

theorem regular_reportFailure (env : Env) (file : String) (success : Bool) :
    Step.Regular env (reportFailure file success) :=
  Step.regular_when _ (regular_logError env _)

theorem regular_callImporter (env : Env) (function source : String) (f : Scene → Import)
    (k : Bool → Step) (hT : env.NoRaise → ∀ sc, (f sc).returns = true)
    (hL : env.KeepsLights → ∀ sc, (f sc).scene.lights = sc.lights)
    (hk : ∀ b, Step.Regular env (k b)) :
    Step.Regular env (callImporter function source f k) := by
  intro s
  cases he : s.impl._engine with
  | none => exact regularAt_none env _ s he
  | some e =>
    cases hr : f e.scene with
    | returned b sc =>
      refine regularAt_of_prefix env _ (k b) s
        { impl := { s.impl with _engine := some { e with scene := sc } },
          trace := s.trace ++ [⟨some e.id, .importer function source⟩] }
        e { e with scene := sc } he
        (by simp only [callImporter, he, hr]) rfl rfl rfl (addLightCalls_snoc _ _ _ rfl) ?_ (hk b)
      intro h
      have := hL h e.scene
      rw [hr] at this
      exact this
    | raised w sc =>
      intro e0 _
      have hs : callImporter function source f k s =
          .fail (.raised w)
            { impl := { s.impl with _engine := some { e with scene := sc } },
              trace := s.trace ++ [⟨some e.id, .importer function source⟩] } := by
        simp only [callImporter, he, hr]
      rw [hs]
      refine ⟨fun s' h => (by cases h), fun h => ?_⟩
      have := hT h e.scene
      rw [hr] at this
      cases this

theorem regular_callMeshImporter (env : Env) (function source : String)
    (f : Nat → Scene → Import × Nat) (k : Bool → Step)
    (hT : env.NoRaise → ∀ m sc, (f m sc).1.returns = true)
    (hL : env.KeepsLights → ∀ m sc, (f m sc).1.scene.lights = sc.lights)
    (hk : ∀ b, Step.Regular env (k b)) :
    Step.Regular env (callMeshImporter function source f k) := by
  intro s
  cases he : s.impl._engine with
  | none => exact regularAt_none env _ s he
  | some e =>
    cases hr : (f s.impl._meshLoader e.scene).1 with
    | returned b sc =>
      refine regularAt_of_prefix env _ (k b) s
        { impl := { s.impl with _engine := some { e with scene := sc },
                                _meshLoader := (f s.impl._meshLoader e.scene).2 },
          trace := s.trace ++ [⟨some e.id, .importer function source⟩] }
        e { e with scene := sc } he
        (by simp only [callMeshImporter, he, hr]) rfl rfl rfl (addLightCalls_snoc _ _ _ rfl) ?_
        (hk b)
      intro h
      have := hL h s.impl._meshLoader e.scene
      rw [hr] at this
      exact this
    | raised w sc =>
      intro e0 _
      have hs : callMeshImporter function source f k s =
          .fail (.raised w)
            { impl := { s.impl with _engine := some { e with scene := sc },
                                    _meshLoader := (f s.impl._meshLoader e.scene).2 },
              trace := s.trace ++ [⟨some e.id, .importer function source⟩] } := by
        simp only [callMeshImporter, he, hr]
      rw [hs]
      refine ⟨fun s' h => (by cases h), fun h => ?_⟩
      have := hT h s.impl._meshLoader e.scene
      rw [hr] at this
      cases this

theorem regular_loadMorphologyFiles (env : Env) (gp : GeometryParameters)
    (files : List String) :
    ∀ progress, Step.Regular env (_loadMorphologyFiles env gp files progress) := by
  induction files with
  | nil => intro _; exact Step.regular_skip env
  | cons file files ih =>
    intro progress
    exact Step.regular_seq
      (regular_callImporter env _ _ _ _ (fun h => h.importMorphology _ _ _)
        (fun h => h.importMorphology _ _ _) (regular_reportFailure env file)) (ih _)

theorem regular_loadMorphologyFolder (env : Env) :
    Step.Regular env (_loadMorphologyFolder env) :=
  fun s => regular_loadMorphologyFiles env _ _ 0 s

theorem regular_reloadTransferFunction (env : Env) :
    Step.Regular env (reloadTransferFunction env) :=
  fun s => Step.regular_when _
    (regular_callImporter env _ _ _ _ (fun h => h.loadFromFile _) (fun h => h.loadFromFile _)
      (fun _ => regular_sceneCommitStep env _ _ (by rfl))) s

theorem regular_attachSpikeSimulation (env : Env) (gp : GeometryParameters)
    (cacheFile : String) : Step.Regular env (attachSpikeSimulation env gp cacheFile) := by
  intro s
  cases he : s.impl._engine with
  | none => exact regularAt_none env _ s he
  | some e =>
    cases hr : env.attachSimulationToCacheFile gp cacheFile with
    | some w =>
      intro e0 _
      have hs : attachSpikeSimulation env gp cacheFile s =
          .fail (.raised w)
            { s with trace := s.trace ++
                [⟨some e.id, .importer "attachSimulationToCacheFile" cacheFile⟩] } := by
        simp only [attachSpikeSimulation, he, hr]
      rw [hs]
      refine ⟨fun s' h => (by cases h), fun h => ?_⟩
      have := h.attachSimulationToCacheFile gp cacheFile
      rw [hr] at this
      cases this
    | none =>
      exact regularAt_of_ok env _ s
        (({ s with trace := s.trace ++
            [⟨some e.id, .importer "attachSimulationToCacheFile" cacheFile⟩] } : St).setScene e
          { e.scene with simulationHandler := some (.spike cacheFile) })
        e { e with scene := { e.scene with simulationHandler := some (.spike cacheFile) } } he
        (by simp only [attachSpikeSimulation, he, hr]) rfl rfl rfl
        (addLightCalls_snoc _ _ _ (by rfl)) (fun _ => rfl)

theorem regular_loadNESTCircuit (env : Env) : Step.Regular env (_loadNESTCircuit env) :=
  fun s => Step.regular_when _
    (regular_callImporter env _ _ _ _ (fun h => h.importNESTCircuit _ _)
      (fun h => h.importNESTCircuit _ _) (fun _ =>
      regular_callImporter env _ _ _ _ (fun h => h.importSpikeReport _ _)
        (fun h => h.importSpikeReport _ _) (fun _ =>
        Step.regular_seq (Step.regular_when _ (regular_attachSpikeSimulation env _ _))
          (regular_reloadTransferFunction env)))) s

theorem regular_loadPDBFile (env : Env) (filename : String) :
    Step.Regular env (_loadPDBFile env filename) := by
  intro s
  refine Step.regular_seq
    (regular_callImporter env _ _ _ _ (fun h => h.importPDBFile _ _)
      (fun h => h.importPDBFile _ _) (regular_reportFailure env _)) ?_ s
  intro s1
  cases he : s1.impl._engine with
  | none => exact regularAt_none env _ s1 he
  | some e =>
    have hm : ∃ materials : List Material, materials =
        setMaterialColors (env.getMaterialKd s.impl._parametersManager.geometryParameters)
          e.scene.materials := ⟨_, rfl⟩
    obtain ⟨materials, hm⟩ := hm
    exact regularAt_of_ok env _ s1 (s1.setScene e { e.scene with materials := materials })
      e _ he (by simp only [he, hm]) rfl rfl rfl rfl (fun _ => rfl)

theorem regular_loadPDBFiles (env : Env) (files : List String) :
    Step.Regular env (_loadPDBFiles env files) := by
  induction files with
  | nil => exact Step.regular_skip env
  | cons file files ih => exact Step.regular_seq (regular_loadPDBFile env file) ih

theorem regular_loadPDBFolder (env : Env) : Step.Regular env (_loadPDBFolder env) :=
  fun s => regular_loadPDBFiles env _ s

theorem regular_loadXYZBFile (env : Env) : Step.Regular env (_loadXYZBFile env) :=
  fun s => regular_callImporter env _ _ _ _ (fun h => h.importFromBinaryFile _ _)
    (fun h => h.importFromBinaryFile _ _) (regular_reportFailure env _) s

theorem regular_loadMeshFiles (env : Env) (gp : GeometryParameters) (files : List String) :
    ∀ progress, Step.Regular env (_loadMeshFiles env gp files progress) := by
  induction files with
  | nil => intro _; exact Step.regular_skip env
  | cons file files ih =>
    intro progress
    exact Step.regular_seq
      (regular_callMeshImporter env _ _ _ _ (fun h => h.importMeshFromFile _ _ _)
        (fun h => h.importMeshFromFile _ _ _) (regular_reportFailure env file)) (ih _)

theorem regular_loadMeshFolder (env : Env) (folder : String) :
    Step.Regular env (_loadMeshFolder env folder) := by
  intro s
  unfold _loadMeshFolder
  cases env.BRAYNS_USE_ASSIMP with
  | true => exact regular_loadMeshFiles env _ _ 0 s
  | false => exact regular_logError env _ s

theorem regular_loadCircuitConfiguration (env : Env) :
    Step.Regular env (_loadCircuitConfiguration env) := by
  intro s
  by_cases h : s.impl._parametersManager.geometryParameters.report = ""
  · exact Step.regularAt_congr (by simp only [_loadCircuitConfiguration, h, if_true]; rfl)
      (regular_callImporter env _ _ _ _ (fun h => h.importCircuit _ _ _)
        (fun h => h.importCircuit _ _ _) (fun _ => Step.regular_skip env) s)
  · exact Step.regularAt_congr (by simp only [_loadCircuitConfiguration, h, if_false]; rfl)
      (regular_callImporter env _ _ _ _ (fun h => h.importCircuitReport _ _ _ _)
        (fun h => h.importCircuitReport _ _ _ _) (fun _ => Step.regular_skip env) s)

theorem regular_loadCompartmentReport (env : Env) :
    Step.Regular env (_loadCompartmentReport env) :=
  fun s => regular_callImporter env _ _ _ _ (fun h => h.importSimulationData _ _ _ _)
    (fun h => h.importSimulationData _ _ _ _)
    (fun _ => Step.regular_when _ (regular_reloadTransferFunction env)) s

theorem regular_loadMolecularSystem (env : Env) :
    Step.Regular env (_loadMolecularSystem env) := by
  intro s
  unfold _loadMolecularSystem
  cases env.BRAYNS_USE_ASSIMP with
  | true =>
    exact regular_callMeshImporter env _ _ _ _ (fun h => h.importMolecularSystem _)
      (fun h => h.importMolecularSystem _) (fun _ => Step.regular_skip env) s
  | false => exact regular_logError env _ s

theorem regular_loadWith (env : Env) (loader : Loader) (body : Step)
    (hb : Step.Regular env body) : Step.Regular env (loadWith loader body) := by
  intro s
  cases he : s.impl._engine with
  | none => exact regularAt_none env _ s he
  | some e =>
    exact regularAt_of_prefix env _ body s
      { s with trace := s.trace ++ [⟨s.impl.engineId, .load loader⟩] } e e he rfl he rfl rfl
      (addLightCalls_snoc _ _ _ (by rfl)) (fun _ => rfl) hb

theorem regular_site (env : Env) (c : Bool) (loader : Loader) (body : Step)
    (hb : Step.Regular env body) : Step.Regular env (Step.when c (loadWith loader body)) :=
  Step.regular_when c (regular_loadWith env loader body hb)

theorem regular_loadSources (env : Env) : Step.Regular env (_loadSources env) := by
  intro s
  refine Step.regularAt_congr (g := Step.seq _ _) rfl ?_
  exact Step.regular_seq
    (regular_site env _ _ _
      (regular_onScene env _ _ (by rfl) (fun h => h.setEnvironmentMap _)))
    (Step.regular_seq (regular_site env _ _ _ (regular_loadMeshFolder env _))
    (Step.regular_seq
      (regular_site env _ _ _
        (regular_callImporter env _ _ _ _ (fun h => h.loadFromFile _)
          (fun h => h.loadFromFile _) (fun _ => Step.regular_skip env)))
    (Step.regular_seq (regular_sceneCommitStep env _ _ (by rfl))
    (Step.regular_seq (regular_site env _ _ _ (regular_loadMorphologyFolder env))
    (Step.regular_seq (regular_site env _ _ _ (regular_loadNESTCircuit env))
    (Step.regular_seq (regular_site env _ _ _ (regular_loadPDBFile env _))
    (Step.regular_seq (regular_site env _ _ _ (regular_loadPDBFolder env))
    (Step.regular_seq (regular_site env _ _ _ (regular_loadMeshFolder env _))
    (Step.regular_seq (regular_site env _ _ _ (regular_loadCompartmentReport env))
    (Step.regular_seq (regular_site env _ _ _ (regular_loadCircuitConfiguration env))
    (Step.regular_seq (regular_site env _ _ _ (regular_loadXYZBFile env))
      (regular_site env _ _ _ (regular_loadMolecularSystem env))))))))))))) s

theorem mergeVolumeBounds_lights (spacing : Vector3f) (scene : Scene) :
    (mergeVolumeBounds spacing scene).lights = scene.lights := by
  unfold mergeVolumeBounds
  cases scene.volumeHandler <;> rfl

theorem regular_volumeBoundsStep (env : Env) (spacing : Vector3f) :
    Step.Regular env (volumeBoundsStep spacing) := by
  intro s
  cases he : s.impl._engine with
  | none => exact regularAt_none env _ s he
  | some e =>
    exact regularAt_of_ok env _ s (s.setScene e (mergeVolumeBounds spacing e.scene)) e _ he
      (by simp only [volumeBoundsStep, he]) rfl rfl rfl rfl
      (fun _ => mergeVolumeBounds_lights _ _)

theorem regular_loadData (env : Env) : Step.Regular env (_loadData env) := by
  intro s
  cases he : s.impl._engine with
  | none => exact regularAt_none env _ s he
  | some e =>
    exact Step.regularAt_congr (by simp only [_loadData, he]; rfl)
      (Step.regular_seq (regular_loadSources env) (regular_volumeBoundsStep env _) s)

theorem regular_setupCameraManipulator (env : Env) (mode : CameraMode) :
    Step.Regular env (_setupCameraManipulator mode) := by
  intro s
  cases he : s.impl._engine with
  | none => exact regularAt_none env _ s he
  | some e =>
    exact regularAt_of_ok env _ s
      { impl := { s.impl with _cameraManipulator := some (AbstractManipulator.ofMode mode e.id) },
        trace := s.trace ++ [⟨some e.id, .setupCameraManipulator mode⟩] }
      e e he (by simp only [_setupCameraManipulator, he]; cases mode <;> rfl) he rfl
      rfl (addLightCalls_snoc _ _ _ (by rfl)) (fun _ => rfl)

theorem regular_buildSceneGeometry (env : Env) : Step.Regular env (buildSceneGeometry env) := by
  refine Step.regular_seq ?_
    (Step.regular_seq (regular_loadData env)
    (Step.regular_seq (regular_sceneCommitStep env _ _ (by rfl))
    (Step.regular_seq (regular_sceneCommitStep env _ _ (by rfl))
    (Step.regular_seq (regular_sceneCommitStep env _ _ (by rfl))
      (regular_sceneCommitStep env _ _ (by rfl))))))
  intro s
  cases he : s.impl._engine with
  | none => exact regularAt_none env _ s he
  | some e =>
    exact regularAt_of_ok env _ s
      { impl := { s.impl with _meshLoader := env.meshLoaderClear s.impl._meshLoader },
        trace := s.trace ++ [⟨s.impl.engineId, .meshLoaderClear⟩] }
      e e he rfl he rfl rfl (addLightCalls_snoc _ _ _ (by rfl)) (fun _ => rfl)

theorem regular_buildSceneDefault (env : Env) : Step.Regular env (buildSceneDefault env) := by
  intro s
  cases he : s.impl._engine with
  | none => exact regularAt_none env _ s he
  | some e =>
    exact Step.regularAt_congr (by simp only [buildSceneDefault, he])
      (Step.regular_when (e.scene.empty && e.scene.volumeHandler.isNone)
        (Step.regular_seq (regular_onScene env .buildDefault _ (by rfl) (fun h => h.buildDefault))
          (regular_sceneCommitStep env .buildGeometry env.buildGeometry (by rfl))) s)

theorem regular_buildSceneCommit (env : Env) : Step.Regular env (buildSceneCommit env) :=
  Step.regular_seq (regular_sceneCommitStep env _ _ (by rfl))
    (Step.regular_seq (regular_setupCameraManipulator env _)
    (Step.regular_seq (regular_onEngine env _ _ (by rfl) (fun _ _ => rfl))
    (Step.regular_seq (regular_engineCommitStep env _ _ (by rfl))
      (regular_engineHook env _ _ (by rfl)))))

theorem regular_buildScene (env : Env) : Step.Regular env (buildScene env) :=
  Step.regular_seq (regular_buildSceneGeometry env)
    (Step.regular_seq (regular_buildSceneDefault env) (regular_buildSceneCommit env))

/-! ## Engine creation when no loader raises -/

theorem emitsAt_after (f g : Step) (s s1 : St) (ls : List Loader) (hfg : f s = g s1)
    (htr : loaderCalls s1.trace = loaderCalls s.trace) (hg : Step.EmitsAt g s1 ls) :
    Step.EmitsAt f s ls := by
  unfold Step.EmitsAt at hg ⊢
  rw [hfg, ← htr]
  exact hg

theorem emits_setupCameraManipulator (mode : CameraMode) :
    Step.Emits (_setupCameraManipulator mode) [] := by
  intro s
  cases he : s.impl._engine with
  | none =>
    exact emits_fail .nullEngine (by intro w h; cases h) _ s
      { s with impl := { s.impl with _cameraManipulator := none } } []
      (by simp only [_setupCameraManipulator, he]) (by simp) rfl
  | some e =>
    exact emitsAt_of_prefix _ Step.skip s
      { impl := { s.impl with _cameraManipulator := some (AbstractManipulator.ofMode mode e.id) },
        trace := s.trace ++ [⟨some e.id, .setupCameraManipulator mode⟩] }
      [⟨some e.id, .setupCameraManipulator mode⟩]
      (by simp only [_setupCameraManipulator, he, Step.skip]; cases mode <;> rfl) rfl rfl
      Step.emits_skip

theorem emits_buildSceneDefault (env : Env) : Step.Emits (buildSceneDefault env) [] := by
  intro s
  cases he : s.impl._engine with
  | none =>
    exact emits_fail .nullEngine (by intro w h; cases h) _ s s []
      (by simp only [buildSceneDefault, he]) (by simp) rfl
  | some e =>
    exact Step.emitsAt_congr (by simp only [buildSceneDefault, he])
      (Step.emits_when_nil (e.scene.empty && e.scene.volumeHandler.isNone)
        (Step.emits_seq_nil (emits_onScene .buildDefault env.buildDefault (by intro l h; cases h))
          (emits_sceneCommitStep .buildGeometry env.buildGeometry (by intro l h; cases h))) s)

theorem emits_buildSceneCommit (env : Env) : Step.Emits (buildSceneCommit env) [] :=
  Step.emits_seq_nil (emits_sceneCommitStep _ _ (by intro l h; cases h))
    (Step.emits_seq_nil (emits_setupCameraManipulator _)
    (Step.emits_seq_nil (emits_onEngine _ _ (by intro l h; cases h))
    (Step.emits_seq_nil (emits_engineCommitStep _ _ (by intro l h; cases h))
      (emits_engineHook _ _ (by intro l h; cases h)))))

theorem emitsAt_buildScene (env : Env) (s : St) :
    Step.EmitsAt (buildScene env) s (configuredLoaders s.impl._parametersManager) := by
  have h1 : Step.EmitsAt (buildSceneGeometry env) s
      (configuredLoaders s.impl._parametersManager) := by
    refine emitsAt_after _
      (Step.seq (_loadData env)
        (Step.seq (sceneCommitStep .commitVolumeData env.commitVolumeData)
        (Step.seq (sceneCommitStep .commitSimulationData env.commitSimulationData)
        (Step.seq (sceneCommitStep .buildEnvironment env.buildEnvironment)
          (sceneCommitStep .buildGeometry env.buildGeometry)))))
      s { impl := { s.impl with _meshLoader := env.meshLoaderClear s.impl._meshLoader },
          trace := s.trace ++ [⟨s.impl.engineId, .meshLoaderClear⟩] }
      _ rfl (by simp [loaderCalls_append, loaderCalls]) ?_
    have h := Step.emitsAt_seq
      (emits_loadData env
        { impl := { s.impl with _meshLoader := env.meshLoaderClear s.impl._meshLoader },
          trace := s.trace ++ [⟨s.impl.engineId, .meshLoaderClear⟩] })
      (Step.emits_seq_nil (emits_sceneCommitStep .commitVolumeData env.commitVolumeData
          (by intro l h; cases h))
        (Step.emits_seq_nil (emits_sceneCommitStep .commitSimulationData
            env.commitSimulationData (by intro l h; cases h))
          (Step.emits_seq_nil (emits_sceneCommitStep .buildEnvironment env.buildEnvironment
              (by intro l h; cases h))
            (emits_sceneCommitStep .buildGeometry env.buildGeometry (by intro l h; cases h)))))
    rw [List.append_nil] at h
    exact h
  have h2 := Step.emitsAt_seq h1
    (Step.emits_seq_nil (emits_buildSceneDefault env) (emits_buildSceneCommit env))
  rw [List.append_nil] at h2
  exact h2

/-- With an engine from the factory, `createEngine` is `buildScene` followed
by the installation of the `recreate` callback, run from the state in which
the sun light has been added. -/
theorem createEngine_of_engine (env : Env) (s : St) (e0 : Engine)
    (hF : (env.factoryGet s.impl._parametersManager.renderingParameters.engine
      (releaseEngine env s).impl._engineFactory).1 = some e0) :
    createEngine env s =
      Step.seq (buildScene env) (onEngine .setRecreate (fun e => { e with recreate := true }))
        (sceneConstructionEntry env s e0) := by
  obtain ⟨-, -, hpm, -⟩ := releaseEngine_trace env s
  have hg : (lookupEngine env (releaseEngine env s)).impl._engine = some e0 := by
    simpa [lookupEngine, hpm] using hF
  unfold createEngine
  simp only [hg]
  rw [Step.seq, onScene_ok _ _ _ e0 hg]
  rfl

/-- A `createEngine` that returns had an engine from the factory. -/
theorem createEngine_ok_engine (env : Env) (s fin : St) (h : createEngine env s = .ok fin) :
    ∃ e0, (env.factoryGet s.impl._parametersManager.renderingParameters.engine
      (releaseEngine env s).impl._engineFactory).1 = some e0 := by
  obtain ⟨-, -, hpm, -⟩ := releaseEngine_trace env s
  cases hg : (env.factoryGet s.impl._parametersManager.renderingParameters.engine
      (releaseEngine env s).impl._engineFactory).1 with
  | some e0 => exact ⟨e0, rfl⟩
  | none =>
    have hg' : (lookupEngine env (releaseEngine env s)).impl._engine = none := by
      simpa [lookupEngine, hpm] using hg
    unfold createEngine at h
    simp only [hg'] at h
    cases h

theorem sceneConstructionEntry_facts (env : Env) (s : St) (e0 : Engine) :
    (sceneConstructionEntry env s e0).impl._parametersManager = s.impl._parametersManager ∧
    loaderCalls (sceneConstructionEntry env s e0).trace = loaderCalls s.trace ∧
    addLightCalls (sceneConstructionEntry env s e0).trace
      = addLightCalls s.trace ++ [sunLight env] := by
  obtain ⟨htr, -, hpm, -⟩ := releaseEngine_trace env s
  refine ⟨?_, ?_, ?_⟩
  · simp [sceneConstructionEntry, lookupEngine, hpm]
  · simp only [sceneConstructionEntry, St.advance_trace, lookupEngine, htr, loaderCalls_append]
    cases s.impl._engine <;> simp [loaderCalls, onEngineId]
  · simp only [sceneConstructionEntry, St.advance_trace, lookupEngine, htr, addLightCalls_append]
    cases s.impl._engine <;> simp [addLightCalls, onEngineId]

theorem regular_buildScene_recreate (env : Env) :
    Step.Regular env
      (Step.seq (buildScene env) (onEngine .setRecreate (fun e => { e with recreate := true }))) :=
  Step.regular_seq (regular_buildScene env) (regular_onEngine env _ _ (by rfl) (fun _ _ => rfl))

/-- What a `createEngine` that returns leaves, given the engine `e0` the
factory returned. -/
theorem createEngine_ok_facts (env : Env) (s fin : St) (e0 : Engine)
    (hF : (env.factoryGet s.impl._parametersManager.renderingParameters.engine
      (releaseEngine env s).impl._engineFactory).1 = some e0)
    (h : createEngine env s = .ok fin) :
    ∃ eF tr, fin.impl._engine = some eF ∧ eF.id = e0.id ∧ eF.recreate = true ∧
      fin.impl._parametersManager = s.impl._parametersManager ∧
      addLightCalls fin.trace = addLightCalls s.trace ++ [sunLight env] ∧
      (env.KeepsLights → eF.scene.lights = e0.scene.lights ++ [sunLight env]) ∧
      loaderCalls fin.trace = loaderCalls s.trace ++ configuredLoaders s.impl._parametersManager ∧
      fin.trace = tr ++ onEngineId e0.id lastCalls := by
  obtain ⟨hpm, hlc, hal⟩ := sceneConstructionEntry_facts env s e0
  rw [createEngine_of_engine env s e0 hF] at h
  have hentry : (sceneConstructionEntry env s e0).impl._engine
      = some { e0 with scene := e0.scene.addLight (sunLight env) } := rfl
  obtain ⟨hreg, -⟩ := regular_buildScene_recreate env _ _ hentry
  obtain ⟨eF, heF, hid, hp, ha, hl⟩ := hreg fin h
  -- the loader calls
  have hem := Step.emitsAt_seq (emitsAt_buildScene env (sceneConstructionEntry env s e0))
    (emits_onEngine .setRecreate (fun e => { e with recreate := true }) (by intro l h; cases h))
  unfold Step.EmitsAt at hem
  rw [h] at hem
  have hem2 := hem.2
  simp only [List.append_nil] at hem2
  -- the last calls
  obtain ⟨sB, hB, hR⟩ := Step.seq_eq_ok h
  obtain ⟨sG, hG, hDC⟩ := Step.seq_eq_ok hB
  obtain ⟨sD, hD, hC⟩ := Step.seq_eq_ok hDC
  obtain ⟨hregG, -⟩ := regular_buildSceneGeometry env _ _ hentry
  obtain ⟨eG, heG, hidG, -⟩ := hregG sG hG
  obtain ⟨hregD, -⟩ := regular_buildSceneDefault env sG eG heG
  obtain ⟨eD, heD, hidD, -⟩ := hregD sD hD
  obtain ⟨sB', hC', htrB, hidB⟩ := buildSceneCommit_ok env sD eD heD
  rw [hC] at hC'
  injection hC' with hC'
  subst hC'
  obtain ⟨eB, heB, hfin⟩ := onEngine_eq_ok hR
  have hidB' : eB.id = eD.id := by
    simp only [Impl.engineId, heB, Option.map_some', Option.some.injEq] at hidB
    exact hidB
  have hidE : eD.id = e0.id := hidD.trans hidG
  refine ⟨eF, sD.trace, heF, hid, ?_, hp.trans hpm, ha.trans hal, ?_, ?_, ?_⟩
  · rw [hfin] at heF
    simp only [St.advance_engine, Option.some.injEq] at heF
    rw [← heF]
  · intro hL
    rw [hl hL]
    rfl
  · rw [hem2, hlc, hpm]
  · rw [hfin]
    simp only [St.advance_trace, htrB, hidB', hidE, lastCalls, onEngineId, List.map_cons,
      List.map_nil, List.append_assoc, List.cons_append, List.nil_append]

/-- When no loader raises and the factory returns an engine, `createEngine`
returns. -/
theorem createEngine_returns (env : Env) (hT : env.NoRaise) (s : St) (e0 : Engine)
    (hF : (env.factoryGet s.impl._parametersManager.renderingParameters.engine
      (releaseEngine env s).impl._engineFactory).1 = some e0) :
    ∃ fin, createEngine env s = .ok fin := by
  rw [createEngine_of_engine env s e0 hF]
  exact (regular_buildScene_recreate env _ _ rfl).2 hT

/-! ## Folder batches -/

theorem importerCalls_append (function : String) (a b : List Event) :
    importerCalls function (a ++ b) = importerCalls function a ++ importerCalls function b := by
  simp [importerCalls, List.filterMap_append]

/-- An import followed by the report of its failure: whatever flag the loader
returns, the step returns, and the loader was handed the file. -/
theorem callImporter_report (function file : String) (f : Scene → Import) (s : St) (e : Engine)
    (he : s.impl._engine = some e) (hr : (f e.scene).returns = true) :
    ∃ s1 e1, callImporter function file f (reportFailure file) s = .ok s1 ∧
      s1.impl._engine = some e1 ∧
      s1.impl._parametersManager = s.impl._parametersManager ∧
      importerCalls function s1.trace = importerCalls function s.trace ++ [file] := by
  cases hf : f e.scene with
  | raised w sc => rw [hf] at hr; cases hr
  | returned b sc =>
    cases b with
    | true =>
      refine ⟨{ impl := { s.impl with _engine := some { e with scene := sc } },
                trace := s.trace ++ [⟨some e.id, .importer function file⟩] },
        { e with scene := sc },
        (by simp [callImporter, he, hf, reportFailure, Step.when]), rfl, rfl, ?_⟩
      simp [importerCalls_append, importerCalls]
    | false =>
      refine ⟨{ impl := { s.impl with _engine := some { e with scene := sc } },
                trace := s.trace ++ [⟨some e.id, .importer function file⟩] ++
                  [⟨some e.id, .logError ("Failed to import " ++ file)⟩] },
        { e with scene := sc },
        (by simp [callImporter, he, hf, reportFailure, Step.when, logError, Impl.engineId]),
        rfl, rfl, ?_⟩
      simp [importerCalls_append, importerCalls]

/-- The same for an import through the mesh loader. -/
theorem callMeshImporter_report (function file : String) (f : Nat → Scene → Import × Nat)
    (s : St) (e : Engine) (he : s.impl._engine = some e)
    (hr : (f s.impl._meshLoader e.scene).1.returns = true) :
    ∃ s1 e1, callMeshImporter function file f (reportFailure file) s = .ok s1 ∧
      s1.impl._engine = some e1 ∧
      s1.impl._parametersManager = s.impl._parametersManager ∧
      importerCalls function s1.trace = importerCalls function s.trace ++ [file] := by
  cases hf : (f s.impl._meshLoader e.scene).1 with
  | raised w sc => rw [hf] at hr; cases hr
  | returned b sc =>
    cases b with
    | true =>
      refine ⟨{ impl := { s.impl with _engine := some { e with scene := sc },
                                      _meshLoader := (f s.impl._meshLoader e.scene).2 },
                trace := s.trace ++ [⟨some e.id, .importer function file⟩] },
        { e with scene := sc },
        (by simp [callMeshImporter, he, hf, reportFailure, Step.when]), rfl, rfl, ?_⟩
      simp [importerCalls_append, importerCalls]
    | false =>
      refine ⟨{ impl := { s.impl with _engine := some { e with scene := sc },
                                      _meshLoader := (f s.impl._meshLoader e.scene).2 },
                trace := s.trace ++ [⟨some e.id, .importer function file⟩] ++
                  [⟨some e.id, .logError ("Failed to import " ++ file)⟩] },
        { e with scene := sc },
        (by simp [callMeshImporter, he, hf, reportFailure, Step.when, logError, Impl.engineId]),
        rfl, rfl, ?_⟩
      simp [importerCalls_append, importerCalls]

theorem loadMorphologyFiles_calls (env : Env) (hT : env.NoRaise) (gp : GeometryParameters)
    (files : List String) :
    ∀ (progress : Nat) (s : St) (e : Engine), s.impl._engine = some e →
      ∃ s1 e1, _loadMorphologyFiles env gp files progress s = .ok s1 ∧
        s1.impl._engine = some e1 ∧
        importerCalls "importMorphology" s1.trace
          = importerCalls "importMorphology" s.trace ++ files := by
  induction files with
  | nil =>
    intro progress s e he
    exact ⟨s, e, rfl, he, by simp⟩
  | cons file files ih =>
    intro progress s e he
    obtain ⟨s1, e1, h1, he1, -, hc1⟩ :=
      callImporter_report "importMorphology" file (env.importMorphology gp file progress) s e he
        (hT.importMorphology _ _ _ _)
    obtain ⟨s2, e2, h2, he2, hc2⟩ := ih (progress + 1) s1 e1 he1
    refine ⟨s2, e2, Step.seq_ok h1 h2, he2, ?_⟩
    rw [hc2, hc1, List.append_assoc]
    rfl

theorem loadMeshFiles_calls (env : Env) (hT : env.NoRaise) (gp : GeometryParameters)
    (files : List String) :
    ∀ (progress : Nat) (s : St) (e : Engine), s.impl._engine = some e →
      ∃ s1 e1, _loadMeshFiles env gp files progress s = .ok s1 ∧
        s1.impl._engine = some e1 ∧
        importerCalls "importMeshFromFile" s1.trace
          = importerCalls "importMeshFromFile" s.trace ++ files := by
  induction files with
  | nil =>
    intro progress s e he
    exact ⟨s, e, rfl, he, by simp⟩
  | cons file files ih =>
    intro progress s e he
    obtain ⟨s1, e1, h1, he1, -, hc1⟩ :=
      callMeshImporter_report "importMeshFromFile" file
        (env.importMeshFromFile file (meshQuality gp.geometryQuality)
          (if gp.colorScheme = ColorScheme.neuron_by_id
            then progress % (env.NB_MAX_MATERIALS - env.NB_SYSTEM_MATERIALS)
            else env.NO_MATERIAL)) s e he (hT.importMeshFromFile _ _ _ _ _)
    obtain ⟨s2, e2, h2, he2, hc2⟩ := ih (progress + 1) s1 e1 he1
    refine ⟨s2, e2, Step.seq_ok h1 h2, he2, ?_⟩
    rw [hc2, hc1, List.append_assoc]
    rfl

theorem loadPDBFiles_calls (env : Env) (hT : env.NoRaise) (files : List String) :
    ∀ (s : St) (e : Engine), s.impl._engine = some e →
      ∃ s1 e1, _loadPDBFiles env files s = .ok s1 ∧
        s1.impl._engine = some e1 ∧
        s1.impl._parametersManager = s.impl._parametersManager ∧
        importerCalls "importPDBFile" s1.trace
          = importerCalls "importPDBFile" s.trace ++
            files.map (fun file =>
              if file = "" then s.impl._parametersManager.geometryParameters.pdbFile else file) := by
  induction files with
  | nil =>
    intro s e he
    exact ⟨s, e, rfl, he, rfl, by simp⟩
  | cons file files ih =>
    intro s e he
    obtain ⟨s1, e1, h1, he1, hp1, hc1⟩ :=
      callImporter_report "importPDBFile"
        (if file = "" then s.impl._parametersManager.geometryParameters.pdbFile else file)
        (env.importPDBFile s.impl._parametersManager.geometryParameters
          (if file = "" then s.impl._parametersManager.geometryParameters.pdbFile else file))
        s e he (hT.importPDBFile _ _ _)
    obtain ⟨materials, hm⟩ : ∃ materials : List Material, materials =
        setMaterialColors (env.getMaterialKd s.impl._parametersManager.geometryParameters)
          e1.scene.materials := ⟨_, rfl⟩
    have h1' : _loadPDBFile env file s =
        .ok (s1.setScene e1 { e1.scene with materials := materials }) := by
      simp only [_loadPDBFile, Step.seq, h1, Outcome.bind, he1, hm]
    obtain ⟨s2, e2, h2, he2, hp2, hc2⟩ :=
      ih (s1.setScene e1 { e1.scene with materials := materials }) _ rfl
    refine ⟨s2, e2, Step.seq_ok h1' h2, he2, hp2.trans hp1, ?_⟩
    rw [hc2]
    have hp : (s1.setScene e1 { e1.scene with materials := materials }).impl._parametersManager
        = s.impl._parametersManager := hp1
    have ht : (s1.setScene e1 { e1.scene with materials := materials }).trace = s1.trace := rfl
    rw [hp, ht, hc1, List.append_assoc]
    rfl

/-! ## Engine creation and loader failures -/

/-- Claim C11 (amended): when no loader raises, whatever success flags the
loaders return, and the factory returns an engine, `createEngine` returns;
every configured loader has been called, in the fixed order; the last calls
are those that end `buildScene`, up to the engine commit, and the
installation of the `recreate` callback.  Each folder batch (morphologies,
PDB files, meshes) returns and has handed every file of the folder to its
loader, in order, whatever the loader returned for the files before it. -/
theorem createEngine_completes (env : Env) (hT : env.NoRaise) :
    (∀ (s : St) (e0 : Engine),
      (env.factoryGet s.impl._parametersManager.renderingParameters.engine
        (releaseEngine env s).impl._engineFactory).1 = some e0 →
      ∃ fin eF tr, createEngine env s = .ok fin ∧ fin.impl._engine = some eF ∧ eF.id = e0.id ∧
        loaderCalls fin.trace
          = loaderCalls s.trace ++ configuredLoaders s.impl._parametersManager ∧
        fin.trace = tr ++ onEngineId e0.id lastCalls) ∧
    (∀ (s : St) (e : Engine), s.impl._engine = some e →
      ∃ s1, _loadMorphologyFolder env s = .ok s1 ∧
        importerCalls "importMorphology" s1.trace
          = importerCalls "importMorphology" s.trace ++
            env.parseFolder s.impl._parametersManager.geometryParameters.morphologyFolder
              [".swc", ".h5"]) ∧
    (∀ (s : St) (e : Engine), s.impl._engine = some e →
      ∃ s1, _loadPDBFolder env s = .ok s1 ∧
        importerCalls "importPDBFile" s1.trace
          = importerCalls "importPDBFile" s.trace ++
            (env.parseFolder s.impl._parametersManager.geometryParameters.pdbFolder
              [".pdb", ".pdb1"]).map (fun file =>
                if file = "" then s.impl._parametersManager.geometryParameters.pdbFile
                else file)) ∧
    (∀ (folder : String) (s : St) (e : Engine), env.BRAYNS_USE_ASSIMP = true →
      s.impl._engine = some e →
      ∃ s1, _loadMeshFolder env folder s = .ok s1 ∧
        importerCalls "importMeshFromFile" s1.trace
          = importerCalls "importMeshFromFile" s.trace ++
            env.parseFolder folder
              [".obj", ".dae", ".fbx", ".ply", ".lwo", ".stl", ".3ds", ".ase", ".ifc"]) := by
  refine ⟨?_, ?_, ?_, ?_⟩
  · intro s e0 hF
    obtain ⟨fin, hfin⟩ := createEngine_returns env hT s e0 hF
    obtain ⟨eF, tr, h1, h2, -, -, -, -, h7, h8⟩ := createEngine_ok_facts env s fin e0 hF hfin
    exact ⟨fin, eF, tr, hfin, h1, h2, h7, h8⟩
  · intro s e he
    obtain ⟨s1, e1, h1, -, h3⟩ :=
      loadMorphologyFiles_calls env hT s.impl._parametersManager.geometryParameters
        (env.parseFolder s.impl._parametersManager.geometryParameters.morphologyFolder
          [".swc", ".h5"]) 0 s e he
    exact ⟨s1, h1, h3⟩
  · intro s e he
    obtain ⟨s1, e1, h1, -, -, h3⟩ :=
      loadPDBFiles_calls env hT
        (env.parseFolder s.impl._parametersManager.geometryParameters.pdbFolder
          [".pdb", ".pdb1"]) s e he
    exact ⟨s1, h1, h3⟩
  · intro folder s e ha he
    obtain ⟨s1, e1, h1, -, h3⟩ :=
      loadMeshFiles_calls env hT s.impl._parametersManager.geometryParameters
        (env.parseFolder folder
          [".obj", ".dae", ".fbx", ".ply", ".lwo", ".stl", ".3ds", ".ase", ".ifc"]) 0 s e he
    refine ⟨s1, ?_, h3⟩
    rw [← h1]
    simp only [_loadMeshFolder, ha, if_true]

theorem Example.failEnv_noRaise : Example.failEnv.NoRaise :=
  { loadFromFile := fun _ _ => rfl
    importMorphology := fun _ _ _ _ => rfl
    importCircuit := fun _ _ _ _ => rfl
    importCircuitReport := fun _ _ _ _ _ => rfl
    importSimulationData := fun _ _ _ _ _ => rfl
    importNESTCircuit := fun _ _ _ => rfl
    importSpikeReport := fun _ _ _ => rfl
    attachSimulationToCacheFile := fun _ _ => rfl
    importPDBFile := fun _ _ _ => rfl
    importFromBinaryFile := fun _ _ _ => rfl
    importMeshFromFile := fun _ _ _ _ _ => rfl
    importMolecularSystem := fun _ _ _ => rfl }

/-- Witness of C11 (amended): the morphology loader returns false on both
files of the folder and the compartment-report loader returns false;
`createEngine` returns, the three configured loaders have been called, both
files have been handed to the morphology loader, and the run ends with the
engine commit and the `recreate` callback on the new engine 2. -/
theorem createEngine_completes_witness :
    (∃ fin tr, createEngine Example.failEnv Example.loadState = .ok fin ∧
      loaderCalls fin.trace = [.morphologyFolder, .compartmentReport, .xyzbFile] ∧
      fin.trace = tr ++ onEngineId 2 lastCalls) ∧
    (∃ s1, _loadMorphologyFolder Example.failEnv Example.loadState = .ok s1 ∧
      importerCalls "importMorphology" s1.trace = ["m/a", "m/b"]) := by
  have h := createEngine_completes Example.failEnv Example.failEnv_noRaise
  constructor
  · obtain ⟨fin, eF, tr, h1, -, -, h4, h5⟩ :=
      h.1 Example.loadState
        { Example.engine 2 with id := 2 } rfl
    exact ⟨fin, tr, h1, h4, h5⟩
  · obtain ⟨s1, h1, h2⟩ := h.2.1 Example.loadState (Example.engine 1) rfl
    exact ⟨s1, h1, h2⟩

/-- Counterexample to C11 as stated: the morphology loader raises on the first
file of the folder.  `createEngine` stops on that error; the second file of
the folder is not handed to the loader, the compartment-report and XYZB
loaders, both configured, are not called, and there is no engine commit. -/
theorem createEngine_loader_raise_counterexample :
    (∃ s', createEngine Example.raiseEnv Example.loadState
        = .fail (.raised "unreadable morphology") s') ∧
    Example.raiseEnv.parseFolder "m" [".swc", ".h5"] = ["m/a", "m/b"] ∧
    importerCalls "importMorphology"
      (createEngine Example.raiseEnv Example.loadState).state.trace = ["m/a"] ∧
    configuredLoaders Example.loadState.impl._parametersManager
      = [.morphologyFolder, .compartmentReport, .xyzbFile] ∧
    loaderCalls (createEngine Example.raiseEnv Example.loadState).state.trace
      = [.morphologyFolder] ∧
    Call.engineCommit ∉
      (createEngine Example.raiseEnv Example.loadState).state.trace.map (fun ev => ev.call) := by
  refine ⟨⟨_, rfl⟩, rfl, rfl, rfl, rfl, ?_⟩
  decide

/-! ## The sun light of a new engine -/

/-- The lights of the scene after a `createEngine` that returned, when the
collaborators keep the light list: those of the engine the factory returned,
followed by the sun light. -/
theorem createEngine_lights (env : Env) (hL : env.KeepsLights) (s fin : St)
    (h : createEngine env s = .ok fin) :
    ∃ e0 eF,
      (env.factoryGet s.impl._parametersManager.renderingParameters.engine
        (releaseEngine env s).impl._engineFactory).1 = some e0 ∧
      fin.impl._engine = some eF ∧ eF.id = e0.id ∧
      fin.impl._parametersManager = s.impl._parametersManager ∧
      addLightCalls fin.trace = addLightCalls s.trace ++ [sunLight env] ∧
      eF.scene.lights = e0.scene.lights ++ [sunLight env] := by
  obtain ⟨e0, hF⟩ := createEngine_ok_engine env s fin h
  obtain ⟨eF, tr, h1, h2, -, h4, h5, h6, -, -⟩ := createEngine_ok_facts env s fin e0 hF h
  exact ⟨e0, eF, hF, h1, h2, h4, h5, h6 hL⟩

/-- Claim C16: a `createEngine` that returns has obtained an engine `e0` from
the factory and has entered `buildScene` in the state in which the sun light,
the directional light built from `DEFAULT_SUN_DIRECTION`, `DEFAULT_SUN_COLOR`
and `DEFAULT_SUN_INTENSITY`, is the last light of the scene of `e0`; the sun
light is the one light `createEngine` has added.  When the loaders and the
default scene keep the light list, the scene of the new engine ends with the
lights of `e0` followed by the sun light, so with an empty light list from the
factory the light at index 0 is the sun light, after this creation and after
a second one that follows it under the same engine name. -/
theorem createEngine_sun_light (env : Env) (hL : env.KeepsLights) (s fin : St)
    (h : createEngine env s = .ok fin) :
    (∃ e0 eF,
      (env.factoryGet s.impl._parametersManager.renderingParameters.engine
        (releaseEngine env s).impl._engineFactory).1 = some e0 ∧
      createEngine env s =
        Step.seq (buildScene env) (onEngine .setRecreate (fun e => { e with recreate := true }))
          (sceneConstructionEntry env s e0) ∧
      (sceneConstructionEntry env s e0).impl._engine.map (fun e => e.scene.lights)
        = some (e0.scene.lights ++
            [.directional env.DEFAULT_SUN_DIRECTION env.DEFAULT_SUN_COLOR
              env.DEFAULT_SUN_INTENSITY]) ∧
      addLightCalls fin.trace = addLightCalls s.trace ++
        [.directional env.DEFAULT_SUN_DIRECTION env.DEFAULT_SUN_COLOR
          env.DEFAULT_SUN_INTENSITY] ∧
      fin.impl._engine = some eF ∧ eF.id = e0.id ∧
      eF.scene.lights = e0.scene.lights ++
        [.directional env.DEFAULT_SUN_DIRECTION env.DEFAULT_SUN_COLOR
          env.DEFAULT_SUN_INTENSITY] ∧
      (e0.scene.lights = [] →
        eF.scene.getLight 0 = some (.directional env.DEFAULT_SUN_DIRECTION
          env.DEFAULT_SUN_COLOR env.DEFAULT_SUN_INTENSITY))) ∧
    (∀ fin2, createEngine env fin = .ok fin2 →
      (∀ name f e, (env.factoryGet name f).1 = some e → e.scene.lights = []) →
      ∃ eF eF2, fin.impl._engine = some eF ∧ fin2.impl._engine = some eF2 ∧
        fin.impl._parametersManager.renderingParameters.engine
          = s.impl._parametersManager.renderingParameters.engine ∧
        eF.scene.getLight 0 = some (.directional env.DEFAULT_SUN_DIRECTION
          env.DEFAULT_SUN_COLOR env.DEFAULT_SUN_INTENSITY) ∧
        eF2.scene.getLight 0 = eF.scene.getLight 0) := by
  obtain ⟨e0, eF, hF, h1, h2, h3, h4, h5⟩ := createEngine_lights env hL s fin h
  constructor
  · refine ⟨e0, eF, hF, createEngine_of_engine env s e0 hF, rfl, h4, h1, h2, h5, ?_⟩
    intro he
    rw [Scene.getLight, h5, he]
    rfl
  · intro fin2 h' hempty
    obtain ⟨e0', eF2, hF', h1', -, -, -, h5'⟩ := createEngine_lights env hL fin fin2 h'
    refine ⟨eF, eF2, h1, h1', by rw [h3], ?_, ?_⟩
    · rw [Scene.getLight, h5, hempty _ _ _ hF]
      rfl
    · rw [Scene.getLight, Scene.getLight, h5, h5', hempty _ _ _ hF, hempty _ _ _ hF']

theorem Example.freshEnv_keepsLights : Example.freshEnv.KeepsLights :=
  { setEnvironmentMap := fun _ _ => rfl
    buildDefault := fun _ => rfl
    loadFromFile := fun _ _ => rfl
    importMorphology := fun _ _ _ _ => rfl
    importCircuit := fun _ _ _ _ => rfl
    importCircuitReport := fun _ _ _ _ _ => rfl
    importSimulationData := fun _ _ _ _ _ => rfl
    importNESTCircuit := fun _ _ _ => rfl
    importSpikeReport := fun _ _ _ => rfl
    importPDBFile := fun _ _ _ => rfl
    importFromBinaryFile := fun _ _ _ => rfl
    importMeshFromFile := fun _ _ _ _ _ => rfl
    importMolecularSystem := fun _ _ _ => rfl }

/-- Witness of C16: two successive creations with a factory whose engines come
with an empty light list; after each the scene holds one light, the sun light
(1, -1, 1), (9/10, 9/10, 9/10), 1, and each creation has added one light. -/
theorem createEngine_sun_light_witness :
    ∃ fin fin2 eF eF2,
      createEngine Example.freshEnv Example.loadState = .ok fin ∧
      createEngine Example.freshEnv fin = .ok fin2 ∧
      fin.impl._engine = some eF ∧ fin2.impl._engine = some eF2 ∧
      eF.scene.lights = [.directional ⟨1, -1, 1⟩ ⟨9 / 10, 9 / 10, 9 / 10⟩ 1] ∧
      eF2.scene.getLight 0 = eF.scene.getLight 0 ∧
      addLightCalls fin.trace = [.directional ⟨1, -1, 1⟩ ⟨9 / 10, 9 / 10, 9 / 10⟩ 1] := by
  have hfin : createEngine Example.freshEnv Example.loadState
      = .ok (createEngine Example.freshEnv Example.loadState).state := rfl
  have hfin2 : createEngine Example.freshEnv
        (createEngine Example.freshEnv Example.loadState).state
      = .ok (createEngine Example.freshEnv
          (createEngine Example.freshEnv Example.loadState).state).state := rfl
  obtain ⟨⟨e0, eF, hF, -, -, h4, h5, -, h7, -⟩, hsecond⟩ :=
    createEngine_sun_light Example.freshEnv Example.freshEnv_keepsLights Example.loadState _ hfin
  obtain ⟨eF', eF2, h1', h2', -, -, h5'⟩ := hsecond _ hfin2 (by
    intro name f e he
    simp only [Example.freshEnv] at he
    split at he
    · injection he with he
      rw [← he]
    · cases he)
  rw [h5] at h1'
  injection h1' with h1'
  subst h1'
  refine ⟨_, _, eF, eF2, hfin, hfin2, h5, h2', ?_, h5', h4⟩
  rw [h7]
  have : e0.scene.lights = [] := by
    simp only [Example.freshEnv] at hF
    split at hF
    · injection hF with hF
      rw [← hF]
    · cases hF
  rw [this]
  rfl

/-! ## Lemmas: runs from states that agree -/

theorem St.Agree.engine {s s' : St} (h : St.Agree s s') :
    (s.impl._engine = none ∧ s'.impl._engine = none) ∨
    ∃ e e', s.impl._engine = some e ∧ s'.impl._engine = some e' ∧ e.scene = e'.scene := by
  obtain ⟨-, -, h3⟩ := h
  unfold St.scene? at h3
  cases he : s.impl._engine with
  | none =>
    rw [he] at h3
    cases he' : s'.impl._engine with
    | none => exact Or.inl ⟨rfl, rfl⟩
    | some e' => rw [he'] at h3; cases h3
  | some e =>
    rw [he] at h3
    cases he' : s'.impl._engine with
    | none => rw [he'] at h3; cases h3
    | some e' =>
      rw [he'] at h3
      simp only [Option.map_some', Option.some.injEq] at h3
      exact Or.inr ⟨e, e', rfl, rfl, h3⟩

theorem Step.determined_skip : Step.Determined Step.skip := fun _ _ h => .ok h

theorem Outcome.agree_bind {o o' : Outcome St} {g : Step} (h : Outcome.Agree o o')
    (hg : Step.Determined g) : Outcome.Agree (o.bind g) (o'.bind g) := by
  cases h with
  | ok h => exact hg _ _ h
  | fail h => exact .fail h

theorem Step.determined_seq {f g : Step} (hf : Step.Determined f) (hg : Step.Determined g) :
    Step.Determined (Step.seq f g) :=
  fun s s' h => Outcome.agree_bind (hf s s' h) hg

theorem Step.determined_when {f : Step} (c : Bool) (hf : Step.Determined f) :
    Step.Determined (Step.when c f) := by
  intro s s' h
  cases c with
  | true => exact hf s s' h
  | false => exact .ok h

theorem determined_onEngine (call : Call) (f : Engine → Engine)
    (hf : ∀ e e' : Engine, e.scene = e'.scene → (f e).scene = (f e').scene) :
    Step.Determined (onEngine call f) := by
  intro s s' h
  rcases h.engine with ⟨he, he'⟩ | ⟨e, e', he, he', hsc⟩
  · simp only [onEngine, he, he']
    exact .fail h
  · rw [onEngine_ok call f s e he, onEngine_ok call f s' e' he']
    exact .ok ⟨h.1, h.2.1, by simp [St.scene?, St.advance, hf e e' hsc]⟩

theorem determined_onScene (call : Call) (f : Scene → Scene) :
    Step.Determined (onScene call f) :=
  determined_onEngine call _ (fun e e' h => by simp only [h])

theorem determined_sceneCommitStep (call : Call) (h : Scene → Nat) :
    Step.Determined (sceneCommitStep call h) :=
  determined_onScene call _

theorem determined_engineHook (call : Call) (h : Engine → FrameBuffer × Nat) :
    Step.Determined (engineHook call h) :=
  determined_onEngine call _ (fun _ _ h => h)

theorem determined_engineCommitStep (call : Call) (h : Engine → Nat) :
    Step.Determined (engineCommitStep call h) :=
  determined_onEngine call _ (fun _ _ h => h)

theorem determined_logError (what : String) : Step.Determined (logError what) :=
  fun _ _ h => .ok h

theorem determined_reportFailure (file : String) (success : Bool) :
    Step.Determined (reportFailure file success) :=
  Step.determined_when _ (determined_logError _)

theorem determined_callImporter (function source : String) (f : Scene → Import)
    (k : Bool → Step) (hk : ∀ b, Step.Determined (k b)) :
    Step.Determined (callImporter function source f k) := by
  intro s s' h
  rcases h.engine with ⟨he, he'⟩ | ⟨e, e', he, he', hsc⟩
  · simp only [callImporter, he, he']
    exact .fail h
  · simp only [callImporter, he, he', ← hsc]
    cases f e.scene with
    | returned b sc => exact hk b _ _ ⟨h.1, h.2.1, rfl⟩
    | raised w sc => exact .fail ⟨h.1, h.2.1, rfl⟩

theorem determined_callMeshImporter (function source : String)
    (f : Nat → Scene → Import × Nat) (k : Bool → Step) (hk : ∀ b, Step.Determined (k b)) :
    Step.Determined (callMeshImporter function source f k) := by
  intro s s' h
  rcases h.engine with ⟨he, he'⟩ | ⟨e, e', he, he', hsc⟩
  · simp only [callMeshImporter, he, he']
    exact .fail h
  · simp only [callMeshImporter, he, he', ← hsc, ← h.2.1]
    cases (f s.impl._meshLoader e.scene).1 with
    | returned b sc => exact hk b _ _ ⟨h.1, rfl, rfl⟩
    | raised w sc => exact .fail ⟨h.1, rfl, rfl⟩

theorem determined_loadMorphologyFiles (env : Env) (gp : GeometryParameters)
    (files : List String) :
    ∀ progress, Step.Determined (_loadMorphologyFiles env gp files progress) := by
  induction files with
  | nil => intro _; exact Step.determined_skip
  | cons file files ih =>
    intro progress
    exact Step.determined_seq
      (determined_callImporter _ _ _ _ (determined_reportFailure file)) (ih _)

theorem determined_loadMorphologyFolder (env : Env) :
    Step.Determined (_loadMorphologyFolder env) := by
  intro s s' h
  simp only [_loadMorphologyFolder, h.1]
  exact determined_loadMorphologyFiles env _ _ 0 s s' h

theorem determined_reloadTransferFunction (env : Env) :
    Step.Determined (reloadTransferFunction env) := by
  intro s s' h
  simp only [reloadTransferFunction, h.1]
  exact Step.determined_when _
    (determined_callImporter _ _ _ _ (fun _ => determined_sceneCommitStep _ _)) s s' h

theorem determined_attachSpikeSimulation (env : Env) (gp : GeometryParameters)
    (cacheFile : String) : Step.Determined (attachSpikeSimulation env gp cacheFile) := by
  intro s s' h
  rcases h.engine with ⟨he, he'⟩ | ⟨e, e', he, he', hsc⟩
  · simp only [attachSpikeSimulation, he, he']
    exact .fail h
  · simp only [attachSpikeSimulation, he, he']
    cases env.attachSimulationToCacheFile gp cacheFile with
    | some w => exact .fail ⟨h.1, h.2.1, by simp [St.scene?, he, he', hsc]⟩
    | none => exact .ok ⟨h.1, h.2.1, by simp [St.scene?, St.setScene, hsc]⟩

theorem determined_loadNESTCircuit (env : Env) : Step.Determined (_loadNESTCircuit env) := by
  intro s s' h
  simp only [_loadNESTCircuit, h.1]
  exact Step.determined_when _
    (determined_callImporter _ _ _ _ (fun _ =>
      determined_callImporter _ _ _ _ (fun _ =>
        Step.determined_seq
          (Step.determined_when _ (determined_attachSpikeSimulation env _ _))
          (determined_reloadTransferFunction env)))) s s' h

theorem determined_setMaterials (kd : Nat → Vector3f) :
    Step.Determined (fun s1 =>
      match s1.impl._engine with
      | none => .fail .nullEngine s1
      | some e =>
        .ok (s1.setScene e { e.scene with materials := setMaterialColors kd e.scene.materials })) := by
  intro s s' h
  rcases h.engine with ⟨he, he'⟩ | ⟨e, e', he, he', hsc⟩
  · simp only [he, he']
    exact .fail h
  · simp only [he, he']
    exact .ok ⟨h.1, h.2.1, by simp [St.scene?, St.setScene, hsc]⟩

theorem determined_loadPDBFile (env : Env) (filename : String) :
    Step.Determined (_loadPDBFile env filename) := by
  intro s s' h
  simp only [_loadPDBFile, h.1]
  exact Step.determined_seq (determined_callImporter _ _ _ _ (determined_reportFailure _))
    (determined_setMaterials _) s s' h

theorem determined_loadPDBFiles (env : Env) (files : List String) :
    Step.Determined (_loadPDBFiles env files) := by
  induction files with
  | nil => exact Step.determined_skip
  | cons file files ih => exact Step.determined_seq (determined_loadPDBFile env file) ih

theorem determined_loadPDBFolder (env : Env) : Step.Determined (_loadPDBFolder env) := by
  intro s s' h
  simp only [_loadPDBFolder, h.1]
  exact determined_loadPDBFiles env _ s s' h

theorem determined_loadXYZBFile (env : Env) : Step.Determined (_loadXYZBFile env) := by
  intro s s' h
  simp only [_loadXYZBFile, h.1]
  exact determined_callImporter _ _ _ _ (determined_reportFailure _) s s' h

theorem determined_loadMeshFiles (env : Env) (gp : GeometryParameters) (files : List String) :
    ∀ progress, Step.Determined (_loadMeshFiles env gp files progress) := by
  induction files with
  | nil => intro _; exact Step.determined_skip
  | cons file files ih =>
    intro progress
    exact Step.determined_seq
      (determined_callMeshImporter _ _ _ _ (determined_reportFailure file)) (ih _)

theorem determined_loadMeshFolder (env : Env) (folder : String) :
    Step.Determined (_loadMeshFolder env folder) := by
  intro s s' h
  simp only [_loadMeshFolder, h.1]
  cases env.BRAYNS_USE_ASSIMP with
  | true => exact determined_loadMeshFiles env _ _ 0 s s' h
  | false => exact determined_logError _ s s' h

theorem determined_loadCircuitConfiguration (env : Env) :
    Step.Determined (_loadCircuitConfiguration env) := by
  intro s s' h
  simp only [_loadCircuitConfiguration, h.1]
  by_cases hr : s'.impl._parametersManager.geometryParameters.report = ""
  · simp only [hr, if_true]
    exact determined_callImporter _ _ _ _ (fun _ => Step.determined_skip) s s' h
  · simp only [hr, if_false]
    exact determined_callImporter _ _ _ _ (fun _ => Step.determined_skip) s s' h

theorem determined_loadCompartmentReport (env : Env) :
    Step.Determined (_loadCompartmentReport env) := by
  intro s s' h
  simp only [_loadCompartmentReport, h.1]
  exact determined_callImporter _ _ _ _
    (fun _ => Step.determined_when _ (determined_reloadTransferFunction env)) s s' h

theorem determined_loadMolecularSystem (env : Env) :
    Step.Determined (_loadMolecularSystem env) := by
  intro s s' h
  simp only [_loadMolecularSystem, h.1]
  cases env.BRAYNS_USE_ASSIMP with
  | true => exact determined_callMeshImporter _ _ _ _ (fun _ => Step.determined_skip) s s' h
  | false => exact determined_logError _ s s' h

theorem determined_loadWith (loader : Loader) (body : Step) (hb : Step.Determined body) :
    Step.Determined (loadWith loader body) :=
  fun _ _ h => hb _ _ h

theorem determined_site (c : Bool) (loader : Loader) (body : Step)
    (hb : Step.Determined body) : Step.Determined (Step.when c (loadWith loader body)) :=
  Step.determined_when c (determined_loadWith loader body hb)

theorem determined_loadSources (env : Env) : Step.Determined (_loadSources env) := by
  intro s s' h
  simp only [_loadSources, h.1]
  exact Step.determined_seq
    (determined_site _ _ _ (determined_onScene _ _))
    (Step.determined_seq (determined_site _ _ _ (determined_loadMeshFolder env _))
    (Step.determined_seq
      (determined_site _ _ _ (determined_callImporter _ _ _ _ (fun _ => Step.determined_skip)))
    (Step.determined_seq (determined_sceneCommitStep _ _)
    (Step.determined_seq (determined_site _ _ _ (determined_loadMorphologyFolder env))
    (Step.determined_seq (determined_site _ _ _ (determined_loadNESTCircuit env))
    (Step.determined_seq (determined_site _ _ _ (determined_loadPDBFile env _))
    (Step.determined_seq (determined_site _ _ _ (determined_loadPDBFolder env))
    (Step.determined_seq (determined_site _ _ _ (determined_loadMeshFolder env _))
    (Step.determined_seq (determined_site _ _ _ (determined_loadCompartmentReport env))
    (Step.determined_seq (determined_site _ _ _ (determined_loadCircuitConfiguration env))
    (Step.determined_seq (determined_site _ _ _ (determined_loadXYZBFile env))
      (determined_site _ _ _ (determined_loadMolecularSystem env))))))))))))) s s' h

theorem determined_volumeBoundsStep (spacing : Vector3f) :
    Step.Determined (volumeBoundsStep spacing) := by
  intro s s' h
  rcases h.engine with ⟨he, he'⟩ | ⟨e, e', he, he', hsc⟩
  · simp only [volumeBoundsStep, he, he']
    exact .fail h
  · simp only [volumeBoundsStep, he, he']
    exact .ok ⟨h.1, h.2.1, by simp [St.scene?, St.setScene, hsc]⟩

theorem determined_loadData (env : Env) : Step.Determined (_loadData env) := by
  intro s s' h
  rcases h.engine with ⟨he, he'⟩ | ⟨e, e', he, he', hsc⟩
  · simp only [_loadData, he, he']
    exact .fail h
  · simp only [_loadData, he, he', h.1]
    exact Step.determined_seq (determined_loadSources env) (determined_volumeBoundsStep _) s s' h

theorem determined_setupCameraManipulator (mode : CameraMode) :
    Step.Determined (_setupCameraManipulator mode) := by
  intro s s' h
  rcases h.engine with ⟨he, he'⟩ | ⟨e, e', he, he', hsc⟩
  · simp only [_setupCameraManipulator, he, he']
    exact .fail ⟨h.1, h.2.1, by simp [St.scene?, he, he']⟩
  · simp only [_setupCameraManipulator, he, he']
    exact .ok ⟨h.1, h.2.1, by simp [St.scene?, he, he', hsc]⟩

theorem determined_buildSceneDefault (env : Env) : Step.Determined (buildSceneDefault env) := by
  intro s s' h
  rcases h.engine with ⟨he, he'⟩ | ⟨e, e', he, he', hsc⟩
  · simp only [buildSceneDefault, he, he']
    exact .fail h
  · simp only [buildSceneDefault, he, he', ← hsc]
    exact Step.determined_when _
      (Step.determined_seq (determined_onScene _ _) (determined_sceneCommitStep _ _)) s s' h

theorem determined_buildSceneCommit (env : Env) : Step.Determined (buildSceneCommit env) :=
  Step.determined_seq (determined_sceneCommitStep _ _)
    (Step.determined_seq (determined_setupCameraManipulator _)
    (Step.determined_seq (determined_onEngine _ _ (fun _ _ h => h))
    (Step.determined_seq (determined_engineCommitStep _ _) (determined_engineHook _ _))))

/-- From states with the same parameters and the same scene, `buildScene` ends
alike, whatever the mesh loader held, when `MeshLoader::clear` resets it. -/
theorem determined_buildScene (env : Env)
    (hclear : ∀ m m', env.meshLoaderClear m = env.meshLoaderClear m') (s s' : St)
    (hp : s.impl._parametersManager = s'.impl._parametersManager) (hsc : s.scene? = s'.scene?) :
    Outcome.Agree (buildScene env s) (buildScene env s') := by
  have h3 : St.Agree
      { impl := { s.impl with _meshLoader := env.meshLoaderClear s.impl._meshLoader },
        trace := s.trace ++ [⟨s.impl.engineId, .meshLoaderClear⟩] }
      { impl := { s'.impl with _meshLoader := env.meshLoaderClear s'.impl._meshLoader },
        trace := s'.trace ++ [⟨s'.impl.engineId, .meshLoaderClear⟩] } :=
    ⟨hp, hclear _ _, hsc⟩
  exact Step.determined_seq
    (Step.determined_seq (determined_loadData env)
      (Step.determined_seq (determined_sceneCommitStep _ _)
      (Step.determined_seq (determined_sceneCommitStep _ _)
      (Step.determined_seq (determined_sceneCommitStep _ _)
        (determined_sceneCommitStep _ _)))))
    (Step.determined_seq (determined_buildSceneDefault env) (determined_buildSceneCommit env))
    _ _ h3

/-- States that agree hold scenes with the same geometry counts, the same
number of materials and the same world bounds. -/
theorem St.Agree.scene_eq {s s' : St} (h : St.Agree s s') (e : Engine)
    (he : s.impl._engine = some e) :
    ∃ e', s'.impl._engine = some e' ∧
      (∀ kind, e'.scene.geometryCount kind = e.scene.geometryCount kind) ∧
      e'.scene.materials.length = e.scene.materials.length ∧
      e'.scene.worldBounds = e.scene.worldBounds := by
  rcases h.engine with ⟨hn, -⟩ | ⟨e0, e', he0, he', hsc⟩
  · rw [hn] at he
    cases he
  · rw [he0] at he
    injection he with he
    subst he
    exact ⟨e', he', fun kind => by rw [hsc], by rw [hsc], by rw [hsc]⟩

/-! ## Rebuilding the scene -/

/-- Claim C12 (amended): for a fixed configuration, scene construction yields
the same geometry counts, the same material table size and the same world
bounding box whenever it starts from the same scene, whatever the mesh loader
held before (`MeshLoader::clear` resets it): so for `buildScene` run from two
states with equal parameters and equal scenes, and so for two successive
`createEngine` with a factory whose engines come with equal scenes.  (Run
twice on the same engine, `buildScene` starts the second time from the scene
the first run left, which it does not clear.) -/
theorem buildScene_rebuild (env : Env)
    (hclear : ∀ m m', env.meshLoaderClear m = env.meshLoaderClear m') :
    (∀ (s s' s1 : St) (e1 : Engine),
      s.impl._parametersManager = s'.impl._parametersManager → s.scene? = s'.scene? →
      buildScene env s = .ok s1 → s1.impl._engine = some e1 →
      ∃ s1' e1', buildScene env s' = .ok s1' ∧ s1'.impl._engine = some e1' ∧
        (∀ kind, e1'.scene.geometryCount kind = e1.scene.geometryCount kind) ∧
        e1'.scene.materials.length = e1.scene.materials.length ∧
        e1'.scene.worldBounds = e1.scene.worldBounds) ∧
    ((∀ name f f' e e', (env.factoryGet name f).1 = some e →
        (env.factoryGet name f').1 = some e' → e.scene = e'.scene) →
      ∀ (s s1 s2 : St) (e1 : Engine),
        createEngine env s = .ok s1 → createEngine env s1 = .ok s2 →
        s1.impl._engine = some e1 →
        ∃ e2, s2.impl._engine = some e2 ∧
          (∀ kind, e2.scene.geometryCount kind = e1.scene.geometryCount kind) ∧
          e2.scene.materials.length = e1.scene.materials.length ∧
          e2.scene.worldBounds = e1.scene.worldBounds) := by
  constructor
  · intro s s' s1 e1 hp hsc h1 he1
    have h := determined_buildScene env hclear s s' hp hsc
    rw [h1] at h
    cases h2 : buildScene env s' with
    | fail ft b => rw [h2] at h; cases h
    | ok s1' =>
      rw [h2] at h
      cases h with
      | ok h =>
        obtain ⟨e1', he1', hc⟩ := St.Agree.scene_eq h e1 he1
        exact ⟨s1', e1', rfl, he1', hc⟩
  · intro hfac s s1 s2 e1 h1 h2 he1
    obtain ⟨e0, hF⟩ := createEngine_ok_engine env s s1 h1
    obtain ⟨e0', hF'⟩ := createEngine_ok_engine env s1 s2 h2
    obtain ⟨-, -, -, -, -, hp1, -⟩ := createEngine_ok_facts env s s1 e0 hF h1
    obtain ⟨hpe, -⟩ := sceneConstructionEntry_facts env s e0
    obtain ⟨hpe', -⟩ := sceneConstructionEntry_facts env s1 e0'
    have hsc : e0.scene = e0'.scene := by
      rw [hp1] at hF'
      exact hfac _ _ _ _ _ hF hF'
    have hagree : Outcome.Agree (createEngine env s) (createEngine env s1) := by
      rw [createEngine_of_engine env s e0 hF, createEngine_of_engine env s1 e0' hF']
      refine Outcome.agree_bind
        (determined_buildScene env hclear _ _ (hpe.trans (hp1.symm.trans hpe'.symm)) ?_)
        (determined_onEngine _ _ (fun _ _ h => h))
      simp [St.scene?, sceneConstructionEntry, St.advance, hsc]
    rw [h1, h2] at hagree
    cases hagree with
    | ok hagree =>
      obtain ⟨e2, he2, hc⟩ := St.Agree.scene_eq hagree e1 he1
      exact ⟨e2, he2, hc⟩


theorem Example.env_factory_scene : ∀ name f f' e e',
    (Example.env.factoryGet name f).1 = some e →
    (Example.env.factoryGet name f').1 = some e' → e.scene = e'.scene := by
  intro name f f' e e' h h'
  simp only [Example.env] at h h'
  split at h
  · rw [if_pos (by assumption)] at h'
    injection h with h
    injection h' with h'
    rw [← h, ← h']
    rfl
  · cases h

/-- Witness of C12 (amended): two successive creations with a morphology
folder, a report and an XYZB file configured; the scene of the engine of the
first creation holds 3 spheres, and so does the scene of the engine of the
second. -/
theorem buildScene_rebuild_witness :
    ∃ s1 s2 e1 e2,
      createEngine Example.env Example.loadState = .ok s1 ∧ createEngine Example.env s1 = .ok s2 ∧
      s1.impl._engine = some e1 ∧ s2.impl._engine = some e2 ∧
      e1.scene.geometryCount .sphere = 3 ∧
      e2.scene.geometryCount .sphere = e1.scene.geometryCount .sphere := by
  have h1 : createEngine Example.env Example.loadState
      = .ok (createEngine Example.env Example.loadState).state := rfl
  have h2 : createEngine Example.env (createEngine Example.env Example.loadState).state
      = .ok (createEngine Example.env
          (createEngine Example.env Example.loadState).state).state := rfl
  have he1 : ∃ e1, (createEngine Example.env Example.loadState).state.impl._engine = some e1 ∧
      e1.scene.geometryCount .sphere = 3 := ⟨_, rfl, rfl⟩
  obtain ⟨e1, he1, hc1⟩ := he1
  obtain ⟨e2, he2, hc, -, -⟩ :=
    (buildScene_rebuild Example.env (fun _ _ => rfl)).2 Example.env_factory_scene
      Example.loadState _ _ e1 h1 h2 he1
  exact ⟨_, _, e1, e2, h1, h2, he1, he2, hc1, hc .sphere⟩

/-- Counterexample to C12 as stated: with a morphology folder of two files and
an XYZB file configured and loaders that each add one sphere, `buildScene`
leaves 3 spheres on engine 1; run again on the same engine under the same
parameters, it leaves 6. -/
theorem buildScene_twice_counterexample :
    ∃ s1 s2 e1 e2,
      buildScene Example.env Example.loadState = .ok s1 ∧ buildScene Example.env s1 = .ok s2 ∧
      s1.impl._engine = some e1 ∧ s2.impl._engine = some e2 ∧ e1.id = 1 ∧ e2.id = 1 ∧
      s1.impl._parametersManager = Example.loadState.impl._parametersManager ∧
      e1.scene.geometryCount .sphere = 3 ∧ e2.scene.geometryCount .sphere = 6 := by
  have h1 : buildScene Example.env Example.loadState
      = .ok (buildScene Example.env Example.loadState).state := rfl
  have hsc1 : (buildScene Example.env Example.loadState).state.scene? = some Example.builtScene :=
    rfl
  obtain ⟨e1, he1, hid1, hp1, -⟩ :=
    (regular_buildScene Example.env Example.loadState (Example.engine 1) rfl).1 _ h1
  have hscene1 : e1.scene = Example.builtScene := by
    simpa [St.scene?, he1] using hsc1
  have hB : buildScene Example.env Example.builtState
      = .ok (buildScene Example.env Example.builtState).state := rfl
  have hcB : (buildScene Example.env Example.builtState).state.scene?.map
      (fun sc => sc.geometryCount .sphere) = some 6 := rfl
  have hag := determined_buildScene Example.env (fun _ _ => rfl)
    (buildScene Example.env Example.loadState).state Example.builtState hp1 hsc1
  rw [hB] at hag
  cases h2 : buildScene Example.env (buildScene Example.env Example.loadState).state with
  | fail ft b => rw [h2] at hag; cases hag
  | ok s2 =>
    rw [h2] at hag
    cases hag with
    | ok hag =>
      obtain ⟨e2, he2, hid2, -⟩ := (regular_buildScene Example.env _ e1 he1).1 s2 h2
      refine ⟨_, s2, e1, e2, h1, h2, he1, he2, hid1, hid2.trans hid1, hp1, ?_, ?_⟩
      · rw [hscene1]
        rfl
      · have h3 : s2.scene? = (buildScene Example.env Example.builtState).state.scene? := hag.2.2
        rw [← h3] at hcB
        simpa [St.scene?, he2] using hcB

end Brayns
